import Mathlib

/-!
# MariaDB connector: byte codec, transport buffer and packet decoding

A shallow embedding of `src/mariadb_connector.cpp`.

* `PackedByteArray` is `List UInt8`; a byte that is read is widened to `Nat` at once,
  and machine arithmetic is done on `Nat` with explicit reduction modulo `2 ^ w`.
* `p_buf[i]` has no defined result past the end of the buffer: every read goes through
  `byteAt`, and a function that reads past the end returns `none`.
* A reference parameter that the C++ code advances (`size_t &p_pkt_idx`) is returned
  next to the result.
-/

namespace MariaDB

/-- A `PackedByteArray`. -/
abbrev Bytes := List UInt8

/-- The constant `UINT64_MAX`. -/
def UINT64_MAX : Nat := 2 ^ 64 - 1

/-- The read `p_buf[i]`, widened to an unsigned integer; `none` past the end. -/
def byteAt (p_buf : Bytes) (i : Nat) : Option Nat :=
  (p_buf[i]?).map UInt8.toNat

/-- The little-endian value of a byte string: byte `i` has weight `256 ^ i`. -/
def leValue : Bytes → Nat
  | [] => 0
  | b :: bs => b.toNat + 256 * leValue bs

/-- The function `_decode_lenenc_adv_itr(p_buf, p_pkt_idx)`: the decoded value and the
advanced cursor. -/
def _decode_lenenc_adv_itr (p_buf : Bytes) (p_pkt_idx : Nat) : Option (Nat × Nat) := do
  let marker ← byteAt p_buf p_pkt_idx
  let i := p_pkt_idx + 1
  if marker < 0xFB then
    pure (marker, i)
  else if marker = 0xFB then
    pure (UINT64_MAX, i)
  else if marker = 0xFC then
    let v ← byteAt p_buf i
    let b1 ← byteAt p_buf (i + 1)
    let v := v ||| (b1 <<< 8)
    pure (v, i + 2)
  else if marker = 0xFD then
    let v ← byteAt p_buf i
    let b1 ← byteAt p_buf (i + 1)
    let v := v ||| (b1 <<< 8)
    let b2 ← byteAt p_buf (i + 2)
    let v := v ||| (b2 <<< 16)
    pure (v, i + 3)
  else if marker = 0xFE then
    let v ← byteAt p_buf i
    let b1 ← byteAt p_buf (i + 1)
    let v := v ||| (b1 <<< 8)
    let b2 ← byteAt p_buf (i + 2)
    let v := v ||| (b2 <<< 16)
    let b3 ← byteAt p_buf (i + 3)
    let v := v ||| (b3 <<< 24)
    let hi ← byteAt p_buf (i + 4)
    let b5 ← byteAt p_buf (i + 5)
    let hi := hi ||| (b5 <<< 8)
    let b6 ← byteAt p_buf (i + 6)
    let hi := hi ||| (b6 <<< 16)
    let b7 ← byteAt p_buf (i + 7)
    let hi := hi ||| (b7 <<< 24)
    pure ((hi <<< 32) ||| v, i + 8)
  else
    pure (marker, i)

/-! ## Collaborators declared outside `src/` -/

/-- Modelled from the spec: `little_endian_to_vbytes(value, max_bytes, start_idx)` of
`mariadb_conversions.hpp`, which is not under `src/`. The spec has it produce
fixed-width little-endian bytes ("a 3-byte little-endian length", "4-byte capability low
word"): byte `i` of the result is byte `start_idx + i` of the value. -/
def little_endian_to_vbytes (p_value p_max_bytes p_start_idx : Nat) : Bytes :=
  (List.range p_max_bytes).map fun i =>
    UInt8.ofNat ((p_value >>> (8 * (p_start_idx + i))) % 256)

/-- The little-endian value of the `n` bytes at `p_idx`; `none` if one of them lies past
the end of the buffer. -/
def readLE (p_src : Bytes) (p_idx : Nat) : Nat → Option Nat
  | 0 => some 0
  | n + 1 => do
    let b ← byteAt p_src p_idx
    let r ← readLE p_src (p_idx + 1) n
    pure (b + 256 * r)

/-- Modelled from the spec: `bytes_to_num_adv_itr<T>(ptr, count, idx)` of
`mariadb_conversions.hpp`, which is not under `src/` ("Fixed-width decode: little-endian
unsigned integers of 1/2/3/4/8 bytes"). It reads through a raw pointer, so a read past the
end of the buffer has no defined result (`none`). `p_bits` is the width of `T`. -/
def bytes_to_num_adv_itr (p_bits : Nat) (p_src : Bytes) (p_count p_idx : Nat) :
    Option (Nat × Nat) := do
  let v ← readLE p_src p_idx p_count
  pure (v % 2 ^ p_bits, p_idx + p_count)

/-- The `n` bytes at `p_idx`; `none` if one of them lies past the end of the buffer. -/
def readBytes (p_src : Bytes) (p_idx n : Nat) : Option Bytes :=
  if p_idx + n ≤ p_src.length then some ((p_src.drop p_idx).take n) else none

/-- Modelled from the spec: `vbytes_to_utf8_adv_itr(buf, idx, len)` of
`mariadb_conversions.hpp`, which is not under `src/` ("copies that many bytes as UTF-8
text, advancing the cursor"). The text is kept as its UTF-8 bytes. -/
def vbytes_to_utf8_adv_itr (p_buf : Bytes) (p_idx p_len : Nat) : Option (Bytes × Nat) := do
  let s ← readBytes p_buf p_idx p_len
  pure (s, p_idx + p_len)

/-- The enum `ErrorCode` of `mariadb_connector.hpp` (the names bound in `_bind_methods`
and used in the code), together with Godot's `ERR_PARSE_ERROR`, which the code casts to
it. A Godot `Error` returned by the stream is cast to `ErrorCode` as well. -/
inductive ErrorCode
  | OK
  | ERR_NO_RESPONSE
  | ERR_NOT_CONNECTED
  | ERR_PACKET_LENGTH_MISMATCH
  | ERR_SERVER_PROTOCOL_INCOMPATIBLE
  | ERR_CLIENT_PROTOCOL_INCOMPATIBLE
  | ERR_SEQUENCE_MISMATCH
  | ERR_AUTH_PLUGIN_NOT_SET
  | ERR_AUTH_PLUGIN_INCOMPATIBLE
  | ERR_AUTH_FAILED
  | ERR_USERNAME_EMPTY
  | ERR_PASSWORD_EMPTY
  | ERR_DB_NAME_EMPTY
  | ERR_PASSWORD_HASH_LENGTH
  | ERR_INVALID_HOSTNAME
  | ERR_CONNECTION_ERROR
  | ERR_INIT_ERROR
  | ERR_UNAVAILABLE
  | ERR_PROTOCOL_MISMATCH
  | ERR_AUTH_PROTOCOL_MISMATCH
  | ERR_SEND_FAILED
  | ERR_INVALID_PORT
  | ERR_UNKNOWN
  | ERR_PACKET
  | ERR_PREPARE_FAILED
  | ERR_INVALID_PARAMETER
  | ERR_EXECUTE_FAILED
  | ERR_PARSE_ERROR
  deriving DecidableEq, Repr

/-- The enum `AuthType`. -/
inductive AuthType
  | AUTH_TYPE_ED25519
  | AUTH_TYPE_MYSQL_NATIVE
  deriving DecidableEq, Repr

/-- The enum `FieldType`: the kinds a prepared-statement parameter can be requested as
(the names bound in `_bind_methods`). -/
inductive FieldType
  | FT_TINYINT
  | FT_TINYINT_U
  | FT_SHORT
  | FT_SHORT_U
  | FT_INT
  | FT_INT_U
  | FT_FLOAT
  | FT_DOUBLE
  | FT_TIMESTAMP
  | FT_BIGINT
  | FT_BIGINT_U
  | FT_MEDIUMINT
  | FT_MEDIUMINT_U
  | FT_DATE
  | FT_TIME
  | FT_DATETIME
  | FT_YEAR
  | FT_NEWDATE
  | FT_VARCHAR
  | FT_BIT
  | FT_JSON
  | FT_DECIMAL
  | FT_ENUM
  | FT_SET
  | FT_TINYBLOB
  | FT_MEDIUMBLOB
  | FT_LONGBLOB
  | FT_BLOB
  | FT_VAR_STRING
  | FT_STRING
  | FT_GEOMETRY
  deriving DecidableEq, Repr

/-- What the code uses but `src/` does not define: the values of the enums `Capabilities`,
`MySqlFieldType` and `FieldType`, the sign bytes and the table `kAuthTypeNames`
(`mariadb_connector.hpp`), and the external collaborators (digests, the Ed25519 signing
primitive, host-name handling of the engine). `field_type_of k` is the enumerator of
`FieldType` whose value is `k`, if there is one. -/
structure Env where
  CLIENT_MYSQL : Nat
  LONG_FLAG : Nat
  CONNECT_WITH_DB : Nat
  LOCAL_FILES : Nat
  CLIENT_PROTOCOL_41 : Nat
  CLIENT_INTERACTIVE : Nat
  SECURE_CONNECTION : Nat
  RESERVED2 : Nat
  MULTI_STATEMENTS : Nat
  MULTI_RESULTS : Nat
  PS_MULTI_RESULTS : Nat
  PLUGIN_AUTH : Nat
  CAN_HANDLE_EXPIRED_PASSWORDS : Nat
  SESSION_TRACK : Nat
  CLIENT_DEPRECATE_EOF : Nat
  REMEMBER_OPTIONS : Nat
  MARIADB_CLIENT_CACHE_METADATA : Nat
  MYSQL_TYPE_DECIMAL : Nat
  MYSQL_TYPE_TINY : Nat
  MYSQL_TYPE_SHORT : Nat
  MYSQL_TYPE_LONG : Nat
  MYSQL_TYPE_FLOAT : Nat
  MYSQL_TYPE_DOUBLE : Nat
  MYSQL_TYPE_TIMESTAMP : Nat
  MYSQL_TYPE_LONGLONG : Nat
  MYSQL_TYPE_INT24 : Nat
  MYSQL_TYPE_DATETIME : Nat
  MYSQL_TYPE_YEAR : Nat
  MYSQL_TYPE_NEWDECIMAL : Nat
  MYSQL_TYPE_VAR_STRING : Nat
  MYSQL_TYPE_STRING : Nat
  MYSQL_TYPE_DATE : Nat
  MYSQL_TYPE_TIME : Nat
  MYSQL_TYPE_NEWDATE : Nat
  MYSQL_TYPE_VARCHAR : Nat
  MYSQL_TYPE_BIT : Nat
  MYSQL_TYPE_JSON : Nat
  MYSQL_TYPE_ENUM : Nat
  MYSQL_TYPE_SET : Nat
  MYSQL_TYPE_TINY_BLOB : Nat
  MYSQL_TYPE_MEDIUM_BLOB : Nat
  MYSQL_TYPE_LONG_BLOB : Nat
  MYSQL_TYPE_BLOB : Nat
  MYSQL_TYPE_GEOMETRY : Nat
  SIGN_SIGNED : Nat
  SIGN_UNSIGNED : Nat
  field_type_of : Nat → Option FieldType
  kAuthTypeNames : AuthType → Bytes
  sha1 : Bytes → Bytes
  sha512 : Bytes → Bytes
  ed25519_sign_msg : Bytes → Bytes → Bytes
  is_valid_ip_address : List Char → Bool
  resolve_hostname : List Char → List Char

/-- The ASCII bytes of a text literal. -/
def ascii (s : String) : Bytes :=
  s.toList.map fun c => UInt8.ofNat c.toNat

/-- Godot's `String::to_utf8_buffer` / `utf8()`. -/
def to_utf8_buffer (s : List Char) : Bytes :=
  s.flatMap String.utf8EncodeChar

/-! ## The stream and the session -/

/-- What one call of `_read_buffer` does, as seen by its caller: the bytes it returns, the
result of its last `poll()` (left in `_last_error`) and whether the stream is still
connected afterwards. -/
structure ReadOutcome where
  data : Bytes
  last_error : ErrorCode
  connected : Bool
  deriving DecidableEq, Repr

/-- The `StreamPeerTCP` collaborator with its behaviour scripted: each call takes the next
entry of its script (and behaves as a quiet, healthy stream once the script is used up);
`written` logs the buffers handed to `put_data`. -/
structure Stream where
  connected : Bool
  connects : List ErrorCode
  polls : List (ErrorCode × Bool)
  reads : List ReadOutcome
  puts : List ErrorCode
  written : List Bytes
  deriving DecidableEq, Repr

/-- A decoded column-definition packet (the `Dictionary` built by `_read_columns_data`). -/
structure ColumnDef where
  name : Bytes
  char_set : Nat
  length : Nat
  field_type : Nat
  flags : Nat
  decimals : Nat
  deriving DecidableEq, Repr

/-- The members of `MariaDBConnector`. `_stream_mutex` is the number of times the
(re-entrant) mutex is held. -/
structure Session where
  _stream : Stream
  _stream_mutex : Nat
  _authenticated : Bool
  _last_error : ErrorCode
  _client_auth_type : AuthType
  _client_capabilities : Nat
  _server_capabilities : Nat
  _srvr_major_ver : Int
  _srvr_minor_ver : Int
  _server_ver_str : Bytes
  _dbl_to_string : Bool
  _ip : List Char
  _port : Int
  _username : Bytes
  _password_hashed : Bytes
  _dbname : Bytes
  _last_query_converted : Bytes
  _last_response : Bytes
  _last_transmitted : Bytes
  _prep_column_data : List (Nat × List ColumnDef)
  deriving DecidableEq, Repr

/-- The result of running code that can read past the end of a buffer (`out_of_bounds`:
no defined result) or contains an unbounded loop (`out_of_fuel`: the bound on the number
of iterations given to the model was too small). -/
inductive Run (α : Type) where
  | ok (a : α)
  | out_of_bounds
  | out_of_fuel
  deriving DecidableEq, Repr

/-- Sequencing of `Run`. -/
def Run.bind {α β : Type} (x : Run α) (f : α → Run β) : Run β :=
  match x with
  | .ok a => f a
  | .out_of_bounds => .out_of_bounds
  | .out_of_fuel => .out_of_fuel

instance : Monad Run where
  pure := Run.ok
  bind := Run.bind

/-- A read that has no defined result past the end of the buffer. -/
def Run.ofOption {α : Type} : Option α → Run α
  | some a => .ok a
  | none => .out_of_bounds

/-- The call `_stream->put_data(buf)`. -/
def Stream.put_data (st : Stream) (buf : Bytes) : ErrorCode × Stream :=
  match st.puts with
  | [] => (.OK, { st with written := st.written ++ [buf] })
  | e :: rest => (e, { st with puts := rest, written := st.written ++ [buf] })

/-- The call `_stream->poll()`, followed by `get_status() == STATUS_CONNECTED`. -/
def Stream.poll (st : Stream) : ErrorCode × Stream :=
  match st.polls with
  | [] => (.OK, st)
  | (e, c) :: rest => (e, { st with polls := rest, connected := c })

/-- The call `_stream->connect_to_host(_ip, _port)`; the status is `STATUS_CONNECTING`
until a later `poll()`. -/
def Stream.connect_to_host (st : Stream) : ErrorCode × Stream :=
  match st.connects with
  | [] => (.OK, { st with connected := false })
  | e :: rest => (e, { st with connects := rest, connected := false })

/-- The call `_stream->disconnect_from_host()`. -/
def Stream.disconnect_from_host (st : Stream) : Stream :=
  { st with connected := false }

/-- The function `MariaDBConnector::is_connected_db`. -/
def is_connected_db (s : Session) : Bool × Session :=
  let (e, st) := s._stream.poll
  (st.connected, { s with _last_error := e, _stream := st })

/-- The function `MariaDBConnector::_read_buffer`, as seen by its caller. Its polling loop
runs against the clock (`Time::get_ticks_msec`); one call is one entry of the script
`reads`: the bytes returned, the last `poll()` result and the connection status left. -/
def _read_buffer (s : Session) : Bytes × Session :=
  match s._stream.reads with
  | [] => ([], { s with _last_error := .OK })
  | r :: rest =>
    (r.data, { s with _last_error := r.last_error,
                      _stream := { s._stream with reads := rest, connected := r.connected } })

/-- Subtraction of `size_t` values (64 bits). -/
def sub64 (a b : Nat) : Nat := (a % 2 ^ 64 + 2 ^ 64 - b % 2 ^ 64) % 2 ^ 64

/-- The function `MariaDBConnector::_rcv_bfr_chk`: the error code, the buffer (a
reference parameter, possibly topped up), `p_bfr_size` and the session. The comparison
`p_bfr_size - p_cur_pos < p_bytes_needed` is made on `size_t`. -/
def _rcv_bfr_chk (s : Session) (p_bfr : Bytes) (p_cur_pos p_bytes_needed : Nat) :
    ErrorCode × Bytes × Nat × Session :=
  let p_bfr_size := p_bfr.length
  let (p_bfr, s) :=
    if sub64 p_bfr_size p_cur_pos < p_bytes_needed % 2 ^ 64 then
      let (more, s) := _read_buffer s
      (p_bfr ++ more, s)
    else (p_bfr, s)
  let p_bfr_size := p_bfr.length
  if sub64 p_bfr_size p_cur_pos < p_bytes_needed % 2 ^ 64 then
    (.ERR_PACKET_LENGTH_MISMATCH, p_bfr, p_bfr_size, s)
  else
    (.OK, p_bfr, p_bfr_size, s)

/-- The function `MariaDBConnector::_add_packet_header`: the new value of `p_pkt`. -/
def _add_packet_header (p_pkt : Bytes) (p_pkt_seq : Nat) : Bytes :=
  let t := little_endian_to_vbytes p_pkt.length 3 0
  let t := t ++ [UInt8.ofNat (p_pkt_seq % 256)]
  let t := t ++ p_pkt
  t

/-! ## Values, text helpers of the engine -/

/-- The decimal digits of `n` (at most `fuel` of them), most significant first. -/
def decDigits : Nat → Nat → Bytes
  | 0, _ => []
  | fuel + 1, n =>
    if n < 10 then [UInt8.ofNat (48 + n)]
    else decDigits fuel (n / 10) ++ [UInt8.ofNat (48 + n % 10)]

/-- Godot's `String::num_uint64(n)` in base 10. -/
def num_uint64 (n : Nat) : Bytes := decDigits 20 n

/-- Godot's `vformat("%0<width>d", n)` for an unsigned `n`: zero-padded decimal. -/
def fmt_d (width n : Nat) : Bytes :=
  let d := decDigits 20 n
  List.replicate (width - d.length) (UInt8.ofNat 48) ++ d

/-- The digit loop of Godot's `String::to_int`: `integer` and `sign` after the characters
read so far; `none` stands for the overflow exit. -/
def to_int_loop : Bytes → Int → Int → Option (Int × Int)
  | [], integer, sign => some (integer, sign)
  | c :: cs, integer, sign =>
    if 48 ≤ c.toNat ∧ c.toNat ≤ 57 then
      if integer > (2 ^ 63 - 1) / 10 ∨
          (integer = (2 ^ 63 - 1) / 10 ∧
            ((sign = 1 ∧ c.toNat > 55) ∨ (sign = -1 ∧ c.toNat > 56))) then
        none
      else to_int_loop cs (integer * 10 + (c.toNat - 48 : Int)) sign
    else if integer = 0 ∧ c.toNat = 45 then to_int_loop cs integer (-sign)
    else to_int_loop cs integer sign

/-- Godot's `String::to_int` on a text given by its bytes: the digits before the first
`'.'`, a `'-'` before the first non-zero digit flipping the sign, clamped on overflow. -/
def to_int (text : Bytes) : Int :=
  let upto := text.takeWhile fun c => c.toNat ≠ 46
  match to_int_loop upto 0 1 with
  | some (integer, sign) => integer * sign
  | none => if (text.takeWhile fun c => c.toNat ≠ 46).head? = some (UInt8.ofNat 45)
            then -(2 ^ 63) else 2 ^ 63 - 1

/-- A `Variant` holding a decoded value. Floating-point values are not computed: the
variant records what they are made from. -/
inductive Variant
  | nil
  | int (n : Int)
  | to_float (text : Bytes)
  | float (raw : Bytes)
  | double (raw : Bytes)
  | double_text (raw : Bytes)
  | string (s : Bytes)
  deriving DecidableEq, Repr

/-- The integer that a `Variant` holds after a `uint64_t` has been assigned to it: the
engine keeps every integer as an `int64_t`, so a value from `2 ^ 63` comes out as the value
minus `2 ^ 64`. -/
def variant_from_u64 (v : Nat) : Int :=
  if v % 2 ^ 64 < 2 ^ 63 then ((v % 2 ^ 64 : Nat) : Int)
  else ((v % 2 ^ 64 : Nat) : Int) - 2 ^ 64

/-- A `Dictionary` from column name to value, in insertion order. -/
abbrev Dictionary := List (Bytes × Variant)

/-- The assignment `dict[key] = value`. -/
def Dictionary.set : Dictionary → Bytes → Variant → Dictionary
  | [], k, v => [(k, v)]
  | (k', v') :: rest, k, v =>
    if k' = k then (k, v) :: rest else (k', v') :: Dictionary.set rest k v

/-- The loop `while (n-- > 0) msg += (char)p_src[pos++]`. -/
def copy_chars (p_src : Bytes) : Nat → Nat → Bytes → Option (Bytes × Nat)
  | 0, pos, msg => some (msg, pos)
  | n + 1, pos, msg => do
    let c ← byteAt p_src pos
    copy_chars p_src n (pos + 1) (msg ++ [UInt8.ofNat c])

/-- The function `MariaDBConnector::_handle_server_error`: the decoded server error code,
the message handed to `ERR_FAIL_COND_EDMSG` and the advanced cursor. The loop
`while (p_last_pos < (size_t)size - 1)` runs `(size - 1) - p_last_pos` times. -/
def _handle_server_error (p_src_buffer : Bytes) (p_last_pos : Nat) :
    Option (Nat × Bytes × Nat) := do
  let b0 ← byteAt p_src_buffer p_last_pos
  let b1 ← byteAt p_src_buffer (p_last_pos + 1)
  let srvr_error_code := (b0 + (b1 <<< 8)) % 2 ^ 16
  let p_last_pos := p_last_pos + 2
  let msg := num_uint64 srvr_error_code ++ ascii " - "
  if srvr_error_code = 0xFFFF then
    pure (srvr_error_code, msg, p_last_pos)
  else
    let c ← byteAt p_src_buffer p_last_pos
    if c = 35 then
      let msg := msg ++ ascii "SQL State:"
      let (msg, p_last_pos) ← copy_chars p_src_buffer 6 p_last_pos msg
      let msg := msg ++ ascii " - "
      let (msg, p_last_pos) ←
        copy_chars p_src_buffer (sub64 p_src_buffer.length 1 - p_last_pos) p_last_pos msg
      pure (srvr_error_code, msg, p_last_pos)
    else
      let (msg, p_last_pos) ←
        copy_chars p_src_buffer (sub64 p_src_buffer.length 1 - p_last_pos) p_last_pos msg
      pure (srvr_error_code, msg, p_last_pos)

/-- The loop of `_parse_null_utf8_at_adv_idx`,
`while (p_buf[++pos] != 0 && pos < size) str += p_buf[pos]`: the byte is read before the
bound is tested. -/
def parse_null_loop (p_buf : Bytes) : Nat → Nat → Bytes → Option (Bytes × Nat)
  | fuel, pos, str => do
    let pos := pos + 1
    let c ← byteAt p_buf pos
    if c ≠ 0 ∧ pos < p_buf.length then
      match fuel with
      | 0 => none
      | fuel + 1 => parse_null_loop p_buf fuel pos (str ++ [UInt8.ofNat c])
    else pure (str, pos)

/-- The function `MariaDBConnector::_parse_null_utf8_at_adv_idx`. -/
def _parse_null_utf8_at_adv_idx (p_buf : Bytes) (p_start_pos : Nat) : Option (Bytes × Nat) :=
  parse_null_loop p_buf p_buf.length p_start_pos []

/-- The function `MariaDBConnector::_get_pkt_bytes_adv_idx`. -/
def _get_pkt_bytes_adv_idx (p_src_buf : Bytes) (p_start_pos p_byte_cnt : Nat) : Bytes × Nat :=
  if p_byte_cnt = 0 ∨ (p_start_pos + p_byte_cnt) % 2 ^ 64 > p_src_buf.length then
    ([], p_start_pos)
  else
    ((p_src_buf.drop p_start_pos).take p_byte_cnt, p_start_pos + p_byte_cnt)

/-- The function `MariaDBConnector::_get_type_data`. -/
def _get_type_data (E : Env) (s : Session) (p_db_field_type : Nat) (p_data : Bytes) : Variant :=
  let rtn_val := p_data
  if p_db_field_type = E.MYSQL_TYPE_TINY ∨ p_db_field_type = E.MYSQL_TYPE_SHORT ∨
      p_db_field_type = E.MYSQL_TYPE_LONG ∨ p_db_field_type = E.MYSQL_TYPE_LONGLONG ∨
      p_db_field_type = E.MYSQL_TYPE_INT24 ∨ p_db_field_type = E.MYSQL_TYPE_YEAR then
    .int (to_int rtn_val)
  else if p_db_field_type = E.MYSQL_TYPE_DECIMAL ∨ p_db_field_type = E.MYSQL_TYPE_FLOAT then
    .to_float rtn_val
  else if p_db_field_type = E.MYSQL_TYPE_DOUBLE then
    if s._dbl_to_string then .string rtn_val else .to_float rtn_val
  else
    .string rtn_val

/-- The function `MariaDBConnector::_get_server_auth_type`. -/
def _get_server_auth_type (p_srvr_auth_name : Bytes) : AuthType :=
  if p_srvr_auth_name = ascii "mysql_native_password" then .AUTH_TYPE_MYSQL_NATIVE
  else if p_srvr_auth_name = ascii "client_ed25519" then .AUTH_TYPE_ED25519
  else .AUTH_TYPE_ED25519

/-! ## Column definitions and text rows -/

/-- A length-encoded string: `_decode_lenenc_adv_itr` followed by
`vbytes_to_utf8_adv_itr`. -/
def lenenc_string (p_rx_bfr : Bytes) (p_pkt_idx : Nat) : Option (Bytes × Nat) := do
  let (len_encode, p_pkt_idx) ← _decode_lenenc_adv_itr p_rx_bfr p_pkt_idx
  vbytes_to_utf8_adv_itr p_rx_bfr p_pkt_idx len_encode

/-- The body of one column-definition packet in `_read_columns_data`, from the catalog to
the two unused bytes. -/
def read_column_body (p_rx_bfr : Bytes) (p_pkt_idx : Nat) : Option (ColumnDef × Nat) := do
  let (_, p_pkt_idx) ← lenenc_string p_rx_bfr p_pkt_idx
  let (_, p_pkt_idx) ← lenenc_string p_rx_bfr p_pkt_idx
  let (_, p_pkt_idx) ← lenenc_string p_rx_bfr p_pkt_idx
  let (_, p_pkt_idx) ← lenenc_string p_rx_bfr p_pkt_idx
  let (column_name, p_pkt_idx) ← lenenc_string p_rx_bfr p_pkt_idx
  let (_, p_pkt_idx) ← lenenc_string p_rx_bfr p_pkt_idx
  let (_, p_pkt_idx) ← _decode_lenenc_adv_itr p_rx_bfr p_pkt_idx
  let (char_set, p_pkt_idx) ← bytes_to_num_adv_itr 16 p_rx_bfr 2 p_pkt_idx
  let (col_len, p_pkt_idx) ← bytes_to_num_adv_itr 32 p_rx_bfr 4 p_pkt_idx
  let field_type ← byteAt p_rx_bfr p_pkt_idx
  let p_pkt_idx := p_pkt_idx + 1
  let (flags, p_pkt_idx) ← bytes_to_num_adv_itr 16 p_rx_bfr 2 p_pkt_idx
  let decimals ← byteAt p_rx_bfr p_pkt_idx
  let p_pkt_idx := p_pkt_idx + 1
  let p_pkt_idx := p_pkt_idx + 2
  pure ({ name := column_name, char_set := char_set, length := col_len,
          field_type := field_type, flags := flags, decimals := decimals }, p_pkt_idx)

/-- The loop of `_read_columns_data` with `n` columns still to read. -/
def read_columns_loop : Nat → Session → Bytes → Nat → List ColumnDef →
    Run (List ColumnDef × Bytes × Nat × Session)
  | 0, s, p_rx_bfr, p_pkt_idx, col_data => pure (col_data, p_rx_bfr, p_pkt_idx, s)
  | n + 1, s, p_rx_bfr, p_pkt_idx, col_data =>
    let (e, p_rx_bfr, _, s) := _rcv_bfr_chk s p_rx_bfr p_pkt_idx 24
    let s := { s with _last_error := e }
    if e ≠ .OK then pure ([], p_rx_bfr, p_pkt_idx, s)
    else do
      let (pkt_len, p_pkt_idx) ← Run.ofOption (bytes_to_num_adv_itr 64 p_rx_bfr 3 p_pkt_idx)
      let (e, p_rx_bfr, _, s) := _rcv_bfr_chk s p_rx_bfr p_pkt_idx pkt_len
      let s := { s with _last_error := e }
      if e ≠ .OK then pure ([], p_rx_bfr, p_pkt_idx, s)
      else do
        let p_pkt_idx := p_pkt_idx + 1
        let (column_data, p_pkt_idx) ← Run.ofOption (read_column_body p_rx_bfr p_pkt_idx)
        read_columns_loop n s p_rx_bfr p_pkt_idx (col_data ++ [column_data])

/-- The function `MariaDBConnector::_read_columns_data`: the column definitions, the
buffer and the cursor (reference parameters) and the session. -/
def _read_columns_data (s : Session) (p_rx_bfr : Bytes) (p_pkt_idx p_col_cnt : Nat) :
    Run (List ColumnDef × Bytes × Nat × Session) :=
  read_columns_loop (p_col_cnt % 2 ^ 16) s p_rx_bfr p_pkt_idx []

/-- How the column loop of `_parse_string_rows` ends: with the early
`return TypedArray<Dictionary>()`, or with the row. -/
inductive RowStep
  | early (p_rx_bfr : Bytes) (p_pkt_idx : Nat) (s : Session)
  | row (dict : Dictionary) (p_rx_bfr : Bytes) (p_pkt_idx : Nat) (len_encode : Nat)
      (s : Session)

/-- The loop `for (col_idx ...)` of `_parse_string_rows` over the remaining column
definitions. `len_encode` is declared outside both loops and keeps its last value. -/
def string_row_cols (E : Env) : List ColumnDef → Session → Bytes → Nat → Nat → Dictionary →
    Run RowStep
  | [], s, p_rx_bfr, p_pkt_idx, len_encode, dict =>
    pure (.row dict p_rx_bfr p_pkt_idx len_encode s)
  | col :: cols, s, p_rx_bfr, p_pkt_idx, len_encode, dict =>
    let (e, p_rx_bfr, _, s) := _rcv_bfr_chk s p_rx_bfr p_pkt_idx 2
    let s := { s with _last_error := e }
    if e ≠ .OK then pure (.early p_rx_bfr p_pkt_idx s)
    else do
      let marker ← Run.ofOption (byteAt p_rx_bfr p_pkt_idx)
      if marker = 0xFF ∨ marker = 0xFB ∨ marker = 0x00 then
        string_row_cols E cols s p_rx_bfr (p_pkt_idx + 1) len_encode dict
      else
        let len_encode :=
          if marker = 0xFE then 8
          else if marker = 0xFD then 3
          else if marker = 0xFC then 2
          else len_encode
        let (e, p_rx_bfr, _, s) := _rcv_bfr_chk s p_rx_bfr p_pkt_idx len_encode
        let s := { s with _last_error := e }
        if e ≠ .OK then pure (.early p_rx_bfr p_pkt_idx s)
        else do
          let (len_encode, p_pkt_idx) ←
            Run.ofOption (_decode_lenenc_adv_itr p_rx_bfr p_pkt_idx)
          let (e, p_rx_bfr, _, s) := _rcv_bfr_chk s p_rx_bfr p_pkt_idx len_encode
          let s := { s with _last_error := e }
          if e ≠ .OK then pure (.early p_rx_bfr p_pkt_idx s)
          else
            let field_name := col.name
            if len_encode > 0 then
              let (data, p_pkt_idx) := _get_pkt_bytes_adv_idx p_rx_bfr p_pkt_idx len_encode
              let field_type := col.field_type
              string_row_cols E cols s p_rx_bfr p_pkt_idx len_encode
                (dict.set field_name (_get_type_data E s field_type data))
            else
              string_row_cols E cols s p_rx_bfr p_pkt_idx len_encode
                (dict.set field_name .nil)

/-- The loop `while (!done && p_pkt_idx < size)` of `_parse_string_rows`, run for at most
`fuel` iterations. -/
def parse_string_rows_loop (E : Env) (p_col_defs : List ColumnDef) (p_dep_eof : Bool) :
    Nat → Session → Bytes → Nat → Nat → List Dictionary →
    Run (List Dictionary × Bytes × Nat × Session)
  | 0, _, _, _, _, _ => .out_of_fuel
  | fuel + 1, s, p_rx_bfr, p_pkt_idx, len_encode, rows =>
    if ¬ p_pkt_idx < p_rx_bfr.length then pure (rows, p_rx_bfr, p_pkt_idx, s)
    else
      let (e, p_rx_bfr, _, s) := _rcv_bfr_chk s p_rx_bfr p_pkt_idx 11
      let s := { s with _last_error := e }
      if e ≠ .OK then pure ([], p_rx_bfr, p_pkt_idx, s)
      else do
        let (pkt_len, p_pkt_idx) ←
          Run.ofOption (bytes_to_num_adv_itr 64 p_rx_bfr 3 p_pkt_idx)
        let (e, p_rx_bfr, _, s) := _rcv_bfr_chk s p_rx_bfr p_pkt_idx pkt_len
        let s := { s with _last_error := e }
        if e ≠ .OK then pure ([], p_rx_bfr, p_pkt_idx, s)
        else do
          let p_pkt_idx := p_pkt_idx + 1
          let marker ← Run.ofOption (byteAt p_rx_bfr p_pkt_idx)
          if marker = 0xFE ∧ p_dep_eof = true ∧ pkt_len < 0xFFFFFF then
            pure (rows, p_rx_bfr, p_pkt_idx, s)
          else do
            let step ← string_row_cols E p_col_defs s p_rx_bfr p_pkt_idx len_encode []
            match step with
            | .early p_rx_bfr p_pkt_idx s => pure ([], p_rx_bfr, p_pkt_idx, s)
            | .row dict p_rx_bfr p_pkt_idx len_encode s =>
              parse_string_rows_loop E p_col_defs p_dep_eof fuel s p_rx_bfr p_pkt_idx
                len_encode (rows ++ [dict])

/-- The function `MariaDBConnector::_parse_string_rows`: the rows, the buffer and the
cursor (reference parameters) and the session. -/
def _parse_string_rows (E : Env) (fuel : Nat) (s : Session) (p_rx_bfr : Bytes)
    (p_pkt_idx : Nat) (p_col_defs : List ColumnDef) (p_dep_eof : Bool) :
    Run (List Dictionary × Bytes × Nat × Session) :=
  parse_string_rows_loop E p_col_defs p_dep_eof fuel s p_rx_bfr p_pkt_idx 0 []

/-- The `Dictionary` that `_com_query_response` and `prepared_stmt_exec_cmd` build from
an OK packet. The two `uint64_t` values are assigned to a `Variant` each, which holds a
signed 64-bit integer. -/
structure OkInfo where
  affected_rows : Int
  last_insert_id : Int
  status_flags : Nat
  warnings : Nat
  info : Bytes
  deriving DecidableEq, Repr

/-- The `Variant` returned by `_com_query_response` and `_query`: the integer 0, an error
code cast to an integer, the OK-packet dictionary, or the array of rows. -/
inductive QueryResult
  | zero
  | code (e : ErrorCode)
  | info (r : OkInfo)
  | rows (r : List Dictionary)
  deriving DecidableEq, Repr

/-- What `_com_query_response` computes on its way and does not return: the server error
code that `_handle_server_error` decodes when it is called, and the cursor that is handed
to `_parse_string_rows`. -/
structure QueryTrace where
  srvr_error_code : Option Nat
  rows_start : Option Nat
  deriving DecidableEq, Repr

/-- The body of `MariaDBConnector::_com_query_response`, with its `QueryTrace` in front of
the result and the session. The two `pkt_idx++` inside one expression
(`srvr_response[pkt_idx++] | (srvr_response[pkt_idx++] << 8)`) are taken left to right. -/
def com_query_response_steps (E : Env) (fuel : Nat) (s : Session) (p_is_command : Bool) :
    Run (QueryTrace × QueryResult × Session) :=
  let quiet : QueryTrace := { srvr_error_code := none, rows_start := none }
  let (srvr_response, s) := _read_buffer s
  if srvr_response.length = 0 then
    let s := { s with _last_error := .ERR_NO_RESPONSE }
    if p_is_command then pure (quiet, .zero, s) else pure (quiet, .code .ERR_NO_RESPONSE, s)
  else do
    let pkt_idx := 0
    let (_, pkt_idx) ← Run.ofOption (bytes_to_num_adv_itr 64 srvr_response 3 pkt_idx)
    let pkt_idx := pkt_idx + 1
    let marker ← Run.ofOption (byteAt srvr_response pkt_idx)
    if marker = 0xFF then do
      let (srvr_error_code, _, _) ← Run.ofOption (_handle_server_error srvr_response pkt_idx)
      let s := { s with _last_error := .ERR_PACKET }
      let trace : QueryTrace := { srvr_error_code := some srvr_error_code, rows_start := none }
      if p_is_command then pure (trace, .zero, s) else pure (trace, .code s._last_error, s)
    else if marker = 0x00 then
      if p_is_command then do
        let pkt_idx := pkt_idx + 1
        let (affected_rows, pkt_idx) ←
          Run.ofOption (_decode_lenenc_adv_itr srvr_response pkt_idx)
        let (last_insert_id, pkt_idx) ←
          Run.ofOption (_decode_lenenc_adv_itr srvr_response pkt_idx)
        let s0 ← Run.ofOption (byteAt srvr_response pkt_idx)
        let s1 ← Run.ofOption (byteAt srvr_response (pkt_idx + 1))
        let status_flags := (s0 ||| (s1 <<< 8)) % 2 ^ 16
        let pkt_idx := pkt_idx + 2
        let w0 ← Run.ofOption (byteAt srvr_response pkt_idx)
        let w1 ← Run.ofOption (byteAt srvr_response (pkt_idx + 1))
        let warnings := (w0 ||| (w1 <<< 8)) % 2 ^ 16
        let pkt_idx := pkt_idx + 2
        let info_message :=
          if pkt_idx + 1 < srvr_response.length then
            (srvr_response.drop (pkt_idx + 1)).take (srvr_response.length - (pkt_idx + 1))
          else []
        pure (quiet, .info { affected_rows := variant_from_u64 affected_rows,
                             last_insert_id := variant_from_u64 last_insert_id,
                             status_flags := status_flags, warnings := warnings,
                             info := info_message }, s)
      else pure (quiet, .zero, s)
    else do
      let (col_cnt, pkt_idx) ←
        if marker = 0xFB then pure (0, pkt_idx)
        else Run.ofOption (_decode_lenenc_adv_itr srvr_response pkt_idx)
      let pkt_idx :=
        if s._client_capabilities &&& E.MARIADB_CLIENT_CACHE_METADATA ≠ 0 then pkt_idx + 1
        else pkt_idx
      let (col_data, srvr_response, pkt_idx, s) ←
        _read_columns_data s srvr_response pkt_idx col_cnt
      let dep_eof : Bool := s._client_capabilities &&& E.CLIENT_DEPRECATE_EOF ≠ 0
      let pkt_idx := if ¬ dep_eof then pkt_idx + 5 else pkt_idx
      let s := { s with _last_response := srvr_response }
      let (rows, _, _, s) ← _parse_string_rows E fuel s srvr_response pkt_idx col_data dep_eof
      pure ({ srvr_error_code := none, rows_start := some pkt_idx }, .rows rows, s)

/-- The function `MariaDBConnector::_com_query_response`. -/
def _com_query_response (E : Env) (fuel : Nat) (s : Session) (p_is_command : Bool) :
    Run (QueryResult × Session) := do
  let (_, r, s) ← com_query_response_steps E fuel s p_is_command
  pure (r, s)

/-! ## Binary rows -/

/-- One non-null column value of a binary row: the `switch (MySqlFieldType(type_code))`
of `_parse_prepared_exec`. Every read is made through a raw pointer or `operator[]`. -/
def binary_field (E : Env) (s : Session) (p_rx_bfr : Bytes) (p_pkt_idx type_code : Nat) :
    Option (Variant × Nat) :=
  if type_code = E.MYSQL_TYPE_TINY then do
    let (v, p_pkt_idx) ← bytes_to_num_adv_itr 8 p_rx_bfr 1 p_pkt_idx
    pure (.int v, p_pkt_idx)
  else if type_code = E.MYSQL_TYPE_SHORT ∨ type_code = E.MYSQL_TYPE_YEAR then do
    let (v, p_pkt_idx) ← bytes_to_num_adv_itr 16 p_rx_bfr 2 p_pkt_idx
    pure (.int v, p_pkt_idx)
  else if type_code = E.MYSQL_TYPE_INT24 then do
    let (v, p_pkt_idx) ← bytes_to_num_adv_itr 32 p_rx_bfr 3 p_pkt_idx
    pure (.int v, p_pkt_idx)
  else if type_code = E.MYSQL_TYPE_LONG then do
    let (v, p_pkt_idx) ← bytes_to_num_adv_itr 32 p_rx_bfr 4 p_pkt_idx
    pure (.int v, p_pkt_idx)
  else if type_code = E.MYSQL_TYPE_FLOAT then do
    let raw ← readBytes p_rx_bfr p_pkt_idx 4
    pure (.float raw, p_pkt_idx + 4)
  else if type_code = E.MYSQL_TYPE_LONGLONG then do
    let (v, p_pkt_idx) ← bytes_to_num_adv_itr 64 p_rx_bfr 8 p_pkt_idx
    pure (.int (variant_from_u64 v), p_pkt_idx)
  else if type_code = E.MYSQL_TYPE_DOUBLE then do
    let raw ← readBytes p_rx_bfr p_pkt_idx 8
    pure (if s._dbl_to_string then .double_text raw else .double raw, p_pkt_idx + 8)
  else if type_code = E.MYSQL_TYPE_DECIMAL ∨ type_code = E.MYSQL_TYPE_NEWDECIMAL ∨
      type_code = E.MYSQL_TYPE_STRING ∨ type_code = E.MYSQL_TYPE_VAR_STRING then do
    let (field_len, p_pkt_idx) ← _decode_lenenc_adv_itr p_rx_bfr p_pkt_idx
    if field_len = UINT64_MAX then
      pure (.string [], p_pkt_idx)
    else
      let str_val ← readBytes p_rx_bfr p_pkt_idx field_len
      pure (.string str_val, p_pkt_idx + field_len)
  else if type_code = E.MYSQL_TYPE_TIMESTAMP ∨ type_code = E.MYSQL_TYPE_DATETIME then do
    let ts_len ← byteAt p_rx_bfr p_pkt_idx
    let p_pkt_idx := p_pkt_idx + 1
    let (year, p_pkt_idx) ← bytes_to_num_adv_itr 16 p_rx_bfr 2 p_pkt_idx
    let month ← byteAt p_rx_bfr p_pkt_idx
    let day ← byteAt p_rx_bfr (p_pkt_idx + 1)
    let hour ← byteAt p_rx_bfr (p_pkt_idx + 2)
    let min ← byteAt p_rx_bfr (p_pkt_idx + 3)
    let sec ← byteAt p_rx_bfr (p_pkt_idx + 4)
    let p_pkt_idx := p_pkt_idx + 5
    let date_time := fmt_d 4 year ++ ascii "-" ++ fmt_d 2 month ++ ascii "-" ++ fmt_d 2 day ++
      ascii " " ++ fmt_d 2 hour ++ ascii ":" ++ fmt_d 2 min ++ ascii ":" ++ fmt_d 2 sec
    if ts_len = 11 then
      let (micro, p_pkt_idx) ← bytes_to_num_adv_itr 32 p_rx_bfr 4 p_pkt_idx
      pure (.string (date_time ++ ascii "." ++ fmt_d 6 micro), p_pkt_idx)
    else
      pure (.string date_time, p_pkt_idx)
  else
    pure (.nil, p_pkt_idx)

/-- The type codes that have a case of their own in the `switch` of
`_parse_prepared_exec`. -/
def binaryKinds (E : Env) : List Nat :=
  [E.MYSQL_TYPE_TINY, E.MYSQL_TYPE_SHORT, E.MYSQL_TYPE_YEAR, E.MYSQL_TYPE_INT24,
    E.MYSQL_TYPE_LONG, E.MYSQL_TYPE_FLOAT, E.MYSQL_TYPE_LONGLONG, E.MYSQL_TYPE_DOUBLE,
    E.MYSQL_TYPE_DECIMAL, E.MYSQL_TYPE_NEWDECIMAL, E.MYSQL_TYPE_STRING,
    E.MYSQL_TYPE_VAR_STRING, E.MYSQL_TYPE_TIMESTAMP, E.MYSQL_TYPE_DATETIME]

/-- The loop `for (c ...)` of `_parse_prepared_exec` over the remaining column
definitions, `c` being the index of the first of them. -/
def binary_row_cols (E : Env) (s : Session) (p_rx_bfr : Bytes) (nullmap_start : Nat) :
    List ColumnDef → Nat → Nat → Dictionary → Option (Dictionary × Nat)
  | [], _, p_pkt_idx, row => some (row, p_pkt_idx)
  | col_meta :: cols, c, p_pkt_idx, row => do
    let byte_i := (c + 2) >>> 3
    let bit_i := (c + 2) &&& 7
    let nm ← byteAt p_rx_bfr (nullmap_start + byte_i)
    let is_null : Bool := (nm >>> bit_i) &&& 1 ≠ 0
    let type_code := col_meta.field_type
    let _is_unsigned : Bool := col_meta.flags &&& 32 ≠ 0
    let col_name := col_meta.name
    let (value, p_pkt_idx) ←
      if is_null then pure (Variant.nil, p_pkt_idx)
      else binary_field E s p_rx_bfr p_pkt_idx type_code
    binary_row_cols E s p_rx_bfr nullmap_start cols (c + 1) p_pkt_idx (row.set col_name value)

/-- The loop `while (true)` of `_parse_prepared_exec`, run for at most `fuel`
iterations. -/
def parse_prepared_exec_loop (E : Env) (p_col_defs : List ColumnDef) :
    Nat → Session → Bytes → Nat → List Dictionary →
    Run (List Dictionary × Bytes × Nat × Session)
  | 0, _, _, _, _ => .out_of_fuel
  | fuel + 1, s, p_rx_bfr, p_pkt_idx, rows =>
    let col_cnt := p_col_defs.length % 2 ^ 32
    let nullmap_bytes := ((col_cnt + 7 + 2) % 2 ^ 32) / 8
    let (e, p_rx_bfr, _, s) := _rcv_bfr_chk s p_rx_bfr p_pkt_idx 4
    let s := { s with _last_error := e }
    if e ≠ .OK then pure ([], p_rx_bfr, p_pkt_idx, s)
    else do
      let (pkt_len, p_pkt_idx) ← Run.ofOption (bytes_to_num_adv_itr 64 p_rx_bfr 3 p_pkt_idx)
      let (e, p_rx_bfr, _, s) := _rcv_bfr_chk s p_rx_bfr p_pkt_idx pkt_len
      let s := { s with _last_error := e }
      if e ≠ .OK then pure ([], p_rx_bfr, p_pkt_idx, s)
      else do
        let _ ← Run.ofOption (byteAt p_rx_bfr p_pkt_idx)
        let p_pkt_idx := p_pkt_idx + 1
        let header_byte ← Run.ofOption (byteAt p_rx_bfr p_pkt_idx)
        let p_pkt_idx := p_pkt_idx + 1
        if header_byte = 0xFE ∧ pkt_len = 7 then
          pure (rows, p_rx_bfr, p_pkt_idx + pkt_len, s)
        else do
          let nullmap_start := p_pkt_idx
          let p_pkt_idx := p_pkt_idx + nullmap_bytes
          let (row, p_pkt_idx) ←
            Run.ofOption (binary_row_cols E s p_rx_bfr nullmap_start p_col_defs 0 p_pkt_idx [])
          parse_prepared_exec_loop E p_col_defs fuel s p_rx_bfr p_pkt_idx (rows ++ [row])

/-- The function `MariaDBConnector::_parse_prepared_exec`: the rows, the buffer and the
cursor (reference parameters) and the session. -/
def _parse_prepared_exec (E : Env) (fuel : Nat) (s : Session) (p_rx_bfr : Bytes)
    (p_pkt_idx : Nat) (p_col_defs : List ColumnDef) (_p_dep_eof : Bool) :
    Run (List Dictionary × Bytes × Nat × Session) :=
  if p_col_defs.length % 2 ^ 32 = 0 then pure ([], p_rx_bfr, p_pkt_idx, s)
  else parse_prepared_exec_loop E p_col_defs fuel s p_rx_bfr p_pkt_idx []

/-! ## Handshake and connection -/

/-- Godot's `String::strip_edges` on a text given by its bytes. -/
def strip_edges (t : Bytes) : Bytes :=
  ((t.dropWhile fun c => c.toNat ≤ 32).reverse.dropWhile fun c => c.toNat ≤ 32).reverse

/-- Godot's `String::split` with a one-character separator, empty parts kept. -/
def split_on (sep : UInt8) : Bytes → List Bytes
  | [] => [[]]
  | c :: cs =>
    if c = sep then [] :: split_on sep cs
    else
      match split_on sep cs with
      | [] => [[c]]
      | h :: t => (c :: h) :: t

/-- An array after `resize(n)` and a write of `bs` from its start: `n` bytes, zero where
`bs` has none. -/
def resized (n : Nat) (bs : Bytes) : Bytes :=
  (List.range n).map fun i => (bs[i]?).getD 0

/-- The function `_sha1`: `output.resize(20)`, then the digest of `p_data` written into
it. -/
def _sha1 (E : Env) (p_data : Bytes) : Bytes :=
  resized 20 (E.sha1 p_data)

/-- The function `MariaDBConnector::get_mysql_native_password_hash`. -/
def get_mysql_native_password_hash (E : Env) (p_sha1_hashed_passwd p_srvr_salt : Bytes) :
    Option Bytes := do
  let hash := _sha1 E p_sha1_hashed_passwd
  let salt20 ← readBytes p_srvr_salt 0 20
  let hash20 ← readBytes hash 0 20
  let combined_salt_pwd := salt20 ++ hash20
  let final_hash := _sha1 E combined_salt_pwd
  let pw20 ← readBytes p_sha1_hashed_passwd 0 20
  let final20 ← readBytes final_hash 0 20
  pure (List.zipWith (fun a b => a ^^^ b) pw20 final20)

/-- The function `MariaDBConnector::get_client_ed25519_signature`. -/
def get_client_ed25519_signature (E : Env) (p_sha512_hashed_passwd p_svr_msg : Bytes) : Bytes :=
  E.ed25519_sign_msg p_sha512_hashed_passwd p_svr_msg

/-- The condition under which the four bytes after the filler carry extended
capabilities: `!(_server_capabilities & CLIENT_MYSQL) && _srvr_major_ver >= 10 &&
_srvr_minor_ver >= 2`. -/
def extended_caps (E : Env) (s : Session) : Bool :=
  s._server_capabilities &&& E.CLIENT_MYSQL = 0 ∧ s._srvr_major_ver ≥ 10 ∧
    s._srvr_minor_ver ≥ 2

/-- The client capability mask that `_client_protocol_v41` builds before it writes the
first four bytes of the handshake response. -/
def client_caps_base (E : Env) (s : Session) : Nat :=
  let c := 0
  let c := c ||| (s._server_capabilities &&& E.CLIENT_MYSQL)
  let c := c ||| E.LONG_FLAG
  let c := c ||| (s._server_capabilities &&& E.CONNECT_WITH_DB)
  let c := c ||| E.LOCAL_FILES
  let c := c ||| E.CLIENT_PROTOCOL_41
  let c := c ||| E.CLIENT_INTERACTIVE
  let c := c ||| E.SECURE_CONNECTION
  let c := c ||| E.RESERVED2
  let c := c ||| E.MULTI_STATEMENTS
  let c := c ||| E.MULTI_RESULTS
  let c := c ||| E.PS_MULTI_RESULTS
  let c := c ||| E.PLUGIN_AUTH
  let c := c ||| E.CAN_HANDLE_EXPIRED_PASSWORDS
  let c := c ||| E.SESSION_TRACK
  let c := c ||| (s._server_capabilities &&& E.CLIENT_DEPRECATE_EOF)
  let c := c ||| E.REMEMBER_OPTIONS
  c % 2 ^ 64

/-- The constant part of the client capability mask: the capabilities that
`_client_protocol_v41` sets whatever the server advertises. -/
def fixed_capabilities (E : Env) : Nat :=
  E.LONG_FLAG ||| E.LOCAL_FILES ||| E.CLIENT_PROTOCOL_41 ||| E.CLIENT_INTERACTIVE |||
    E.SECURE_CONNECTION ||| E.RESERVED2 ||| E.MULTI_STATEMENTS ||| E.MULTI_RESULTS |||
    E.PS_MULTI_RESULTS ||| E.PLUGIN_AUTH ||| E.CAN_HANDLE_EXPIRED_PASSWORDS |||
    E.SESSION_TRACK ||| E.REMEMBER_OPTIONS

/-- The capabilities that the client takes over from the server: the legacy-MySQL flag,
connect-with-db and deprecate-EOF, and the metadata cache under the extended-capability
condition. -/
def mirrored_capabilities (E : Env) (extended : Bool) : Nat :=
  E.CLIENT_MYSQL ||| E.CONNECT_WITH_DB ||| E.CLIENT_DEPRECATE_EOF |||
    (if extended then E.MARIADB_CLIENT_CACHE_METADATA else 0)

/-- The second half of `_client_protocol_v41`, from the test
`user_auth_type == AUTH_TYPE_ED25519 && _client_auth_type == AUTH_TYPE_ED25519` on. -/
def client_protocol_v41_ed25519 (E : Env) (s : Session) (srvr_response_pba : Bytes)
    (itr seq_num : Nat) (user_auth_type : AuthType) : Run (ErrorCode × Session) :=
  if user_auth_type = .AUTH_TYPE_ED25519 ∧ s._client_auth_type = .AUTH_TYPE_ED25519 then
    let srvr_auth_msg_pba := srvr_response_pba.drop (itr + 1)
    let auth_response_pba := get_client_ed25519_signature E s._password_hashed srvr_auth_msg_pba
    let seq_num := (seq_num + 1) % 256
    let send_buffer_pba := _add_packet_header auth_response_pba seq_num
    let (e, st) := s._stream.put_data send_buffer_pba
    let s := { s with _last_error := e, _stream := st }
    if e ≠ .OK then pure (e, s)
    else
      let (srvr_response_pba, s) := _read_buffer s
      if srvr_response_pba.length > 0 then do
        let _ ← Run.ofOption (byteAt srvr_response_pba 3)
        let itr := 4
        let status ← Run.ofOption (byteAt srvr_response_pba itr)
        if status = 0x00 then
          pure (.OK, { s with _authenticated := true })
        else if status = 0xFF then do
          let _ ← Run.ofOption (_handle_server_error srvr_response_pba itr)
          pure (.ERR_AUTH_FAILED, { s with _authenticated := false })
        else pure (.ERR_UNKNOWN, s)
      else pure (.OK, s)
  else pure (.ERR_AUTH_PROTOCOL_MISMATCH, s)

/-- The start of `_client_protocol_v41`, up to the four bytes that follow the 19 reserved
ones: the session with the client capabilities assigned, and `send_buffer_pba` so far. -/
def client_protocol_v41_head (E : Env) (s : Session) : Session × Bytes :=
  let s := { s with _client_capabilities := client_caps_base E s }
  let send_buffer_pba := little_endian_to_vbytes s._client_capabilities 4 0
  let send_buffer_pba := send_buffer_pba ++ little_endian_to_vbytes 0x40000000 4 0
  let send_buffer_pba := send_buffer_pba ++ [33]
  let send_buffer_pba := send_buffer_pba ++ List.replicate 19 0
  if extended_caps E s then
    let s := { s with _client_capabilities :=
      s._client_capabilities |||
        (s._server_capabilities &&& E.MARIADB_CLIENT_CACHE_METADATA) }
    (s, send_buffer_pba ++ little_endian_to_vbytes s._client_capabilities 4 4)
  else (s, send_buffer_pba ++ List.replicate 4 0)

/-- The handshake response packet of `_client_protocol_v41`, from the user name on:
`send_buffer_pba` is what `client_protocol_v41_head` has built and `auth_response_pba`
the authentication response. -/
def client_protocol_v41_packet (E : Env) (s : Session) (send_buffer_pba : Bytes)
    (auth_response_pba : Bytes) : Bytes :=
  let seq_num := 0
  let send_buffer_pba := send_buffer_pba ++ s._username ++ [0]
  let send_buffer_pba :=
    if s._server_capabilities &&& E.CLIENT_MYSQL = 0 ∧
        s._server_capabilities &&& E.SECURE_CONNECTION ≠ 0 then
      send_buffer_pba ++ [UInt8.ofNat (auth_response_pba.length % 256)] ++ auth_response_pba
    else send_buffer_pba ++ auth_response_pba ++ [0]
  let send_buffer_pba :=
    if s._client_capabilities &&& E.CONNECT_WITH_DB ≠ 0 then
      send_buffer_pba ++ s._dbname ++ [0]
    else send_buffer_pba
  let auth_plugin_name_pba := E.kAuthTypeNames .AUTH_TYPE_MYSQL_NATIVE
  let send_buffer_pba := send_buffer_pba ++ auth_plugin_name_pba ++ [0]
  let seq_num := (seq_num + 1) % 256
  _add_packet_header send_buffer_pba seq_num

/-- The part of `_client_protocol_v41` that follows the first `_read_buffer`: the test of
the status byte of the reply `srvr_response_pba`, and the second half of the function. -/
def client_protocol_v41_reply (E : Env) (s : Session) (srvr_response_pba : Bytes) :
    Run (ErrorCode × Session) :=
  let seq_num := 1
  let user_auth_type := AuthType.AUTH_TYPE_ED25519
  let itr := 4
  if srvr_response_pba.length > 0 then do
    let seq_num ← Run.ofOption (byteAt srvr_response_pba 3)
    let status ← Run.ofOption (byteAt srvr_response_pba itr)
    if status = 0x00 then
      pure (.OK, { s with _authenticated := true })
    else if status = 0xFE then do
      let (name, itr) ← Run.ofOption (_parse_null_utf8_at_adv_idx srvr_response_pba itr)
      let user_auth_type := _get_server_auth_type name
      client_protocol_v41_ed25519 E s srvr_response_pba itr seq_num user_auth_type
    else if status = 0xFF then do
      let _ ← Run.ofOption (_handle_server_error srvr_response_pba itr)
      pure (.ERR_AUTH_FAILED, { s with _authenticated := false })
    else pure (.ERR_UNKNOWN, s)
  else client_protocol_v41_ed25519 E s srvr_response_pba itr seq_num user_auth_type

/-- The part of `_client_protocol_v41` from the first `put_data` on. -/
def client_protocol_v41_send (E : Env) (s : Session) (send_buffer_pba : Bytes) :
    Run (ErrorCode × Session) :=
  let (e, st) := s._stream.put_data send_buffer_pba
  let s := { s with _last_error := e, _stream := st }
  if e ≠ .OK then pure (e, s)
  else
    let (srvr_response_pba, s) := _read_buffer s
    client_protocol_v41_reply E s srvr_response_pba

/-- The function `MariaDBConnector::_client_protocol_v41`. -/
def _client_protocol_v41 (E : Env) (s : Session) (p_srvr_auth_type : AuthType)
    (p_srvr_salt : Bytes) : Run (ErrorCode × Session) := do
  let (s, send_buffer_pba) := client_protocol_v41_head E s
  let auth_response_pba ←
    if p_srvr_auth_type = .AUTH_TYPE_MYSQL_NATIVE ∧
        s._client_auth_type = .AUTH_TYPE_MYSQL_NATIVE then
      Run.ofOption (get_mysql_native_password_hash E s._password_hashed p_srvr_salt)
    else pure []
  let send_buffer_pba := client_protocol_v41_packet E s send_buffer_pba auth_response_pba
  client_protocol_v41_send E s send_buffer_pba

/-- The function `MariaDBConnector::_server_init_handshake_v10` up to its last statement:
the session with what was parsed from the greeting and, unless the function has returned
`ERR_AUTH_PROTOCOL_MISMATCH` (`none`), the salt and the text `tmp` read as the name of the
authentication plugin. The first loop counts the bytes of the version string up to its
NUL (or the end of the buffer). -/
def handshake_v10_fields (E : Env) (s : Session) (p_src_buffer : Bytes) :
    Run (Option (Bytes × Bytes) × Session) := do
  let pkt_idx := 4
  let str_len := ((p_src_buffer.drop pkt_idx).takeWhile fun c => c.toNat ≠ 0).length
  let s := { s with _server_ver_str := strip_edges ((p_src_buffer.drop pkt_idx).take str_len) }
  let s ←
    if (ascii "5.5.5-").isPrefixOf s._server_ver_str then do
      let split_ver_str := split_on (UInt8.ofNat 45) s._server_ver_str
      let seg ← Run.ofOption split_ver_str[1]?
      let split_ver_str_seg := split_on (UInt8.ofNat 46) seg
      let major ← Run.ofOption split_ver_str_seg[0]?
      let minor ← Run.ofOption split_ver_str_seg[1]?
      pure { s with _srvr_major_ver := to_int major, _srvr_minor_ver := to_int minor }
    else pure s
  let pkt_idx := pkt_idx + (str_len + 1)
  let pkt_idx := pkt_idx + 4
  let (server_salt, pkt_idx) := _get_pkt_bytes_adv_idx p_src_buffer pkt_idx 8
  let pkt_idx := pkt_idx + 1
  let c0 ← Run.ofOption (byteAt p_src_buffer pkt_idx)
  let c1 ← Run.ofOption (byteAt p_src_buffer (pkt_idx + 1))
  let caps := c0 + (c1 <<< 8)
  let pkt_idx := pkt_idx + 2
  let pkt_idx := pkt_idx + 1
  let pkt_idx := pkt_idx + 2
  let c2 ← Run.ofOption (byteAt p_src_buffer pkt_idx)
  let c3 ← Run.ofOption (byteAt p_src_buffer (pkt_idx + 1))
  let caps := caps + (c2 <<< 16) + (c3 <<< 24)
  let pkt_idx := pkt_idx + 2
  let s := { s with _server_capabilities := caps }
  if s._server_capabilities &&& E.CLIENT_PROTOCOL_41 = 0 then
    pure (none, s)
  else if s._server_capabilities &&& E.PLUGIN_AUTH = 0 then
    pure (none, s)
  else do
    let server_salt_length ← Run.ofOption (byteAt p_src_buffer pkt_idx)
    let pkt_idx := pkt_idx + 1
    let pkt_idx := pkt_idx + 6
    let (s, pkt_idx) ←
      if extended_caps E s then do
        let e0 ← Run.ofOption (byteAt p_src_buffer pkt_idx)
        let e1 ← Run.ofOption (byteAt p_src_buffer (pkt_idx + 1))
        let e2 ← Run.ofOption (byteAt p_src_buffer (pkt_idx + 2))
        let e3 ← Run.ofOption (byteAt p_src_buffer (pkt_idx + 3))
        pure ({ s with _server_capabilities :=
                  s._server_capabilities + (e0 <<< 32) + (e1 <<< 40) + (e2 <<< 48) +
                    (e3 <<< 56) }, pkt_idx + 4)
      else pure (s, pkt_idx + 4)
    let n := max 13 (server_salt_length - 8)
    let part2 ← Run.ofOption (readBytes p_src_buffer pkt_idx n)
    let server_salt := server_salt ++ part2
    let pkt_idx := pkt_idx + n
    let (tmp, _) ← Run.ofOption (parse_null_loop p_src_buffer p_src_buffer.length pkt_idx [])
    pure (some (server_salt, tmp), s)

/-- The function `MariaDBConnector::_server_init_handshake_v10`. -/
def _server_init_handshake_v10 (E : Env) (s : Session) (p_src_buffer : Bytes) :
    Run (ErrorCode × Session) := do
  let (fields, s) ← handshake_v10_fields E s p_src_buffer
  match fields with
  | none => pure (.ERR_AUTH_PROTOCOL_MISMATCH, s)
  | some (server_salt, tmp) =>
    let p_srvr_auth_type := _get_server_auth_type tmp
    _client_protocol_v41 E s p_srvr_auth_type server_salt

/-- The function `MariaDBConnector::disconnect_db`. -/
def disconnect_db (s : Session) : Session :=
  let s := { s with _stream_mutex := s._stream_mutex + 1 }
  let (connected, s) := is_connected_db s
  let s :=
    if connected then
      let (e, st) := s._stream.put_data [0x01, 0x00, 0x00, 0x00, 0x01]
      { s with _last_error := e, _stream := st.disconnect_from_host }
    else s
  let s := { s with _authenticated := false }
  { s with _stream_mutex := s._stream_mutex - 1 }

/-- The loop `for (i < 1000)` of `_connect` with `n` rounds left: `some e` is the early
`return _last_error`. -/
def connect_poll_loop : Nat → Session → Option ErrorCode × Session
  | 0, s => (none, s)
  | n + 1, s =>
    let (e, st) := s._stream.poll
    let s := { s with _last_error := e, _stream := st }
    if e ≠ .OK then (some e, s)
    else if st.connected then (none, s)
    else connect_poll_loop n s

/-- The start of `_connect`: `disconnect_db()`, `lock()` and
`_last_error = connect_to_host(_ip, _port)`. -/
def connect_begin (s : Session) : ErrorCode × Session :=
  let s := disconnect_db s
  let s := { s with _stream_mutex := s._stream_mutex + 1 }
  let (e, st) := s._stream.connect_to_host
  (e, { s with _last_error := e, _stream := st })

/-- The end of `_connect`, from the test `recv_buffer.size() <= 4` on. -/
def connect_greeting (E : Env) (s : Session) (recv_buffer : Bytes) :
    Run (ErrorCode × Session) :=
  if recv_buffer.length ≤ 4 then
    pure (.ERR_UNAVAILABLE, { s with _stream_mutex := s._stream_mutex - 1 })
  else do
    let r0 ← Run.ofOption (byteAt recv_buffer 0)
    let r1 ← Run.ofOption (byteAt recv_buffer 1)
    let r2 ← Run.ofOption (byteAt recv_buffer 2)
    let packet_length := (r0 + (r1 <<< 8) + (r2 <<< 16)) % 2 ^ 32
    if packet_length ≠ sub64 (recv_buffer.length % 2 ^ 32) 4 % 2 ^ 32 then
      pure (.ERR_PACKET_LENGTH_MISMATCH, { s with _stream_mutex := s._stream_mutex - 1 })
    else do
      let r3 ← Run.ofOption (byteAt recv_buffer 3)
      if r3 ≠ 0 then
        pure (.ERR_SEQUENCE_MISMATCH, { s with _stream_mutex := s._stream_mutex - 1 })
      else do
        let r4 ← Run.ofOption (byteAt recv_buffer 4)
        if r4 = 10 then do
          let (_, s) ← _server_init_handshake_v10 E s recv_buffer
          pure (.OK, { s with _stream_mutex := s._stream_mutex - 1 })
        else
          pure (.ERR_PROTOCOL_MISMATCH, { s with _stream_mutex := s._stream_mutex - 1 })

/-- The function `MariaDBConnector::_connect`. -/
def _connect (E : Env) (s : Session) : Run (ErrorCode × Session) :=
  match connect_begin s with
  | (e, s) =>
    if e ≠ .OK then
      pure (e, { s with _stream_mutex := s._stream_mutex - 1 })
    else
      match connect_poll_loop 1000 s with
      | (some e, s) => pure (e, s)
      | (none, s) =>
        if ¬ s._stream.connected then
          pure (.ERR_CONNECTION_ERROR, { s with _stream_mutex := s._stream_mutex - 1 })
        else
          match _read_buffer s with
          | (recv_buffer, s) => connect_greeting E s recv_buffer

/-- What `_connect` has received when it starts to check the greeting: the buffer returned
by `_read_buffer` after `connect_begin` and the polling loop, and the session then. -/
def connect_received (s : Session) : Bytes × Session :=
  _read_buffer (connect_poll_loop 1000 (connect_begin s).2).2

/-- The function `is_valid_hex`. -/
def is_valid_hex (p_string : List Char) (expected_length : Int) : Bool :=
  if expected_length > 0 ∧ (p_string.length : Int) ≠ expected_length then false
  else
    p_string.all fun c =>
      ('0' ≤ c ∧ c ≤ '9') ∨ ('A' ≤ c ∧ c ≤ 'F') ∨ ('a' ≤ c ∧ c ≤ 'f')

/-- The value of one hexadecimal digit in Godot's `String::hex_decode`. -/
def hex_digit (c : Char) : Option Nat :=
  if '0' ≤ c ∧ c ≤ '9' then some (c.toNat - 48)
  else if 'a' ≤ c ∧ c ≤ 'f' then some (c.toNat - 97 + 10)
  else if 'A' ≤ c ∧ c ≤ 'F' then some (c.toNat - 65 + 10)
  else none

/-- The pairs of digits of Godot's `String::hex_decode`; `none` on a character that is no
hexadecimal digit. -/
def hex_pairs : List Char → Option Bytes
  | a :: b :: rest => do
    let hi ← hex_digit a
    let lo ← hex_digit b
    let tl ← hex_pairs rest
    pure (UInt8.ofNat (hi * 16 + lo) :: tl)
  | _ => some []

/-- Godot's `String::hex_decode`: empty for a text of odd length or with a character that
is no hexadecimal digit. -/
def hex_decode (t : List Char) : Bytes :=
  if t.length % 2 ≠ 0 then []
  else (hex_pairs t).getD []

/-- The function `MariaDBConnector::_hash_password`. The SHA-512 is fed
`p_password.length()` bytes of the UTF-8 text. -/
def _hash_password (E : Env) (s : Session) (p_password : List Char) : Session :=
  if s._client_auth_type = .AUTH_TYPE_MYSQL_NATIVE then
    { s with _password_hashed := E.sha1 (to_utf8_buffer p_password) }
  else if s._client_auth_type = .AUTH_TYPE_ED25519 then
    { s with _password_hashed := E.sha512 ((to_utf8_buffer p_password).take p_password.length) }
  else s

/-- The function `MariaDBConnector::connect_db` up to its last statement: `some e` is an
early `return e`, `none` means that `return _connect()` is reached. -/
def connect_db_args (E : Env) (s : Session) (p_host : List Char) (p_port : Int)
    (p_dbname p_username p_password : List Char) (p_authtype : AuthType)
    (p_is_prehashed : Bool) : Option ErrorCode × Session :=
  let s :=
    if E.is_valid_ip_address p_host then { s with _ip := p_host }
    else { s with _ip := E.resolve_hostname p_host }
  if ¬ E.is_valid_ip_address s._ip then (some .ERR_INVALID_HOSTNAME, s)
  else if p_port ≤ 0 ∨ p_port > 65535 then (some .ERR_INVALID_PORT, s)
  else
    let s := { s with _port := p_port }
    if p_dbname.length ≤ 0 ∧ s._client_capabilities &&& E.CONNECT_WITH_DB ≠ 0 then
      (some .ERR_DB_NAME_EMPTY, s)
    else
      let s := { s with _dbname := to_utf8_buffer p_dbname }
      if p_username.length ≤ 0 then (some .ERR_USERNAME_EMPTY, s)
      else if p_password.length ≤ 0 then (some .ERR_PASSWORD_EMPTY, s)
      else if p_is_prehashed ∧ p_authtype = .AUTH_TYPE_MYSQL_NATIVE ∧
          ¬ is_valid_hex p_password 40 then
        (some .ERR_PASSWORD_HASH_LENGTH, s)
      else if p_is_prehashed ∧ p_authtype = .AUTH_TYPE_ED25519 ∧
          ¬ is_valid_hex p_password 128 then
        (some .ERR_PASSWORD_HASH_LENGTH, s)
      else
        let s :=
          if p_is_prehashed then { s with _password_hashed := hex_decode p_password }
          else _hash_password E s p_password
        let s := { s with _username := to_utf8_buffer p_username }
        let s := { s with _client_auth_type := p_authtype }
        (none, s)

/-- The function `MariaDBConnector::connect_db`. -/
def connect_db (E : Env) (s : Session) (p_host : List Char) (p_port : Int)
    (p_dbname p_username p_password : List Char) (p_authtype : AuthType)
    (p_is_prehashed : Bool) : Run (ErrorCode × Session) :=
  match connect_db_args E s p_host p_port p_dbname p_username p_password p_authtype
      p_is_prehashed with
  | (some e, s) => pure (e, s)
  | (none, s) => _connect E s

/-! ## Prepared statements -/

/-- A parameter value as `_prepared_params_send` sees it: whether the `Variant` is NIL, and
the results of the conversions the code applies to it (`uint8_t(value)`, ...,
`float f = value` and `double d = value` as the bytes of `f` and `d` in memory,
`value.operator String()`). -/
structure ParamValue where
  is_nil : Bool
  to_uint8 : Nat
  to_uint16 : Nat
  to_uint32 : Nat
  to_uint64 : Nat
  float_bytes : Bytes
  double_bytes : Bytes
  to_string : List Char
  deriving DecidableEq, Repr

/-- An element of the array `p_params`: a `Variant` that is no `Dictionary`, or a
`Dictionary` given by its entries in order, each key by the unsigned 64-bit integer it
converts to. -/
inductive ParamEntry
  | not_dictionary
  | dict (entries : List (Nat × ParamValue))
  deriving DecidableEq, Repr

/-- The conversion of a size to `int`. -/
def to_int32 (n : Nat) : Int :=
  if n % 2 ^ 32 < 2 ^ 31 then (n % 2 ^ 32 : Nat) else ((n % 2 ^ 32 : Nat) : Int) - 2 ^ 32

/-- The `switch (k)` of the first loop of `_prepared_params_send`: the type byte and the
sign byte that are pushed; `none` is the `default` branch. -/
def param_type_bytes (E : Env) (k : Nat) : Option Bytes :=
  match E.field_type_of k with
  | some .FT_TINYINT => some [UInt8.ofNat E.MYSQL_TYPE_TINY, UInt8.ofNat E.SIGN_SIGNED]
  | some .FT_TINYINT_U => some [UInt8.ofNat E.MYSQL_TYPE_TINY, UInt8.ofNat E.SIGN_UNSIGNED]
  | some .FT_SHORT => some [UInt8.ofNat E.MYSQL_TYPE_SHORT, UInt8.ofNat E.SIGN_SIGNED]
  | some .FT_SHORT_U => some [UInt8.ofNat E.MYSQL_TYPE_SHORT, UInt8.ofNat E.SIGN_UNSIGNED]
  | some .FT_INT => some [UInt8.ofNat E.MYSQL_TYPE_LONG, UInt8.ofNat E.SIGN_SIGNED]
  | some .FT_INT_U => some [UInt8.ofNat E.MYSQL_TYPE_LONG, UInt8.ofNat E.SIGN_UNSIGNED]
  | some .FT_FLOAT => some [UInt8.ofNat E.MYSQL_TYPE_FLOAT, UInt8.ofNat E.SIGN_SIGNED]
  | some .FT_DOUBLE => some [UInt8.ofNat E.MYSQL_TYPE_DOUBLE, UInt8.ofNat E.SIGN_SIGNED]
  | some .FT_TIMESTAMP => some [UInt8.ofNat E.MYSQL_TYPE_TIMESTAMP, UInt8.ofNat E.SIGN_SIGNED]
  | some .FT_BIGINT => some [UInt8.ofNat E.MYSQL_TYPE_LONGLONG, UInt8.ofNat E.SIGN_SIGNED]
  | some .FT_BIGINT_U => some [UInt8.ofNat E.MYSQL_TYPE_LONGLONG, UInt8.ofNat E.SIGN_UNSIGNED]
  | some .FT_MEDIUMINT => some [UInt8.ofNat E.MYSQL_TYPE_INT24, UInt8.ofNat E.SIGN_SIGNED]
  | some .FT_MEDIUMINT_U => some [UInt8.ofNat E.MYSQL_TYPE_INT24, UInt8.ofNat E.SIGN_UNSIGNED]
  | some .FT_DATE => some [UInt8.ofNat E.MYSQL_TYPE_DATE, UInt8.ofNat E.SIGN_SIGNED]
  | some .FT_TIME => some [UInt8.ofNat E.MYSQL_TYPE_TIME, UInt8.ofNat E.SIGN_SIGNED]
  | some .FT_DATETIME => some [UInt8.ofNat E.MYSQL_TYPE_DATETIME, UInt8.ofNat E.SIGN_SIGNED]
  | some .FT_YEAR => some [UInt8.ofNat E.MYSQL_TYPE_YEAR, UInt8.ofNat E.SIGN_SIGNED]
  | some .FT_NEWDATE => some [UInt8.ofNat E.MYSQL_TYPE_NEWDATE, UInt8.ofNat E.SIGN_SIGNED]
  | some .FT_VARCHAR => some [UInt8.ofNat E.MYSQL_TYPE_VARCHAR, UInt8.ofNat E.SIGN_SIGNED]
  | some .FT_BIT => some [UInt8.ofNat E.MYSQL_TYPE_BIT, UInt8.ofNat E.SIGN_SIGNED]
  | some .FT_JSON => some [UInt8.ofNat E.MYSQL_TYPE_JSON, UInt8.ofNat E.SIGN_SIGNED]
  | some .FT_DECIMAL => some [UInt8.ofNat E.MYSQL_TYPE_NEWDECIMAL, UInt8.ofNat E.SIGN_SIGNED]
  | some .FT_ENUM => some [UInt8.ofNat E.MYSQL_TYPE_ENUM, UInt8.ofNat E.SIGN_SIGNED]
  | some .FT_SET => some [UInt8.ofNat E.MYSQL_TYPE_SET, UInt8.ofNat E.SIGN_SIGNED]
  | some .FT_TINYBLOB => some [UInt8.ofNat E.MYSQL_TYPE_TINY_BLOB, UInt8.ofNat E.SIGN_SIGNED]
  | some .FT_MEDIUMBLOB =>
    some [UInt8.ofNat E.MYSQL_TYPE_MEDIUM_BLOB, UInt8.ofNat E.SIGN_SIGNED]
  | some .FT_LONGBLOB => some [UInt8.ofNat E.MYSQL_TYPE_LONG_BLOB, UInt8.ofNat E.SIGN_SIGNED]
  | some .FT_BLOB => some [UInt8.ofNat E.MYSQL_TYPE_BLOB, UInt8.ofNat E.SIGN_SIGNED]
  | some .FT_VAR_STRING =>
    some [UInt8.ofNat E.MYSQL_TYPE_VAR_STRING, UInt8.ofNat E.SIGN_SIGNED]
  | some .FT_STRING => some [UInt8.ofNat E.MYSQL_TYPE_STRING, UInt8.ofNat E.SIGN_SIGNED]
  | some .FT_GEOMETRY => some [UInt8.ofNat E.MYSQL_TYPE_GEOMETRY, UInt8.ofNat E.SIGN_SIGNED]
  | none => none

/-- The first loop of `_prepared_params_send` (null bitmap and type bytes) over the
remaining parameters, `i` being the index of the first of them: the new `tx_buf`, or
`none` for `return ErrorCode::ERR_INVALID_PARAMETER`. -/
def params_type_loop (E : Env) (nullmap_offset : Nat) :
    List ParamEntry → Nat → Bytes → Option Bytes
  | [], _, tx_buf => some tx_buf
  | .not_dictionary :: _, _, _ => none
  | .dict param :: rest, i, tx_buf =>
    match param with
    | [(key, v)] =>
      let tx_buf :=
        if v.is_nil then
          let byte_i := i >>> 3
          let bit_i := i &&& 7
          tx_buf.modify (fun b => b ||| UInt8.ofNat (1 <<< bit_i)) (nullmap_offset + byte_i)
        else tx_buf
      let k := key % 2 ^ 16
      match param_type_bytes E k with
      | some t => params_type_loop E nullmap_offset rest (i + 1) (tx_buf ++ t)
      | none => none
    | _ => none

/-- The length prefix that the second loop of `_prepared_params_send` pushes in front of
the bytes of a string-like parameter of `len` bytes. -/
def string_length_code (len : Nat) : Bytes :=
  if len < 251 then [UInt8.ofNat len]
  else [0xFC, UInt8.ofNat (len &&& 0xFF), UInt8.ofNat ((len >>> 8) &&& 0xFF)]

/-- The `switch (field_type)` of the second loop of `_prepared_params_send`: the bytes
pushed for a value that is not NIL; `none` is the `default` branch. -/
def param_value_bytes (field_type : Option FieldType) (value : ParamValue) : Option Bytes :=
  match field_type with
  | some .FT_TINYINT | some .FT_TINYINT_U => some [UInt8.ofNat value.to_uint8]
  | some .FT_SHORT | some .FT_SHORT_U =>
    let val := value.to_uint16 % 2 ^ 16
    some [UInt8.ofNat (val &&& 0xFF), UInt8.ofNat ((val >>> 8) &&& 0xFF)]
  | some .FT_INT | some .FT_INT_U | some .FT_MEDIUMINT | some .FT_MEDIUMINT_U =>
    let val := value.to_uint32 % 2 ^ 32
    some [UInt8.ofNat (val &&& 0xFF), UInt8.ofNat ((val >>> 8) &&& 0xFF),
      UInt8.ofNat ((val >>> 16) &&& 0xFF), UInt8.ofNat ((val >>> 24) &&& 0xFF)]
  | some .FT_BIGINT | some .FT_BIGINT_U =>
    let val := value.to_uint64 % 2 ^ 64
    some ((List.range 8).map fun b => UInt8.ofNat ((val >>> (b * 8)) &&& 0xFF))
  | some .FT_FLOAT => some (resized 4 value.float_bytes)
  | some .FT_DOUBLE => some (resized 8 value.double_bytes)
  | some .FT_VAR_STRING | some .FT_VARCHAR | some .FT_STRING | some .FT_DECIMAL
  | some .FT_JSON | some .FT_ENUM | some .FT_SET =>
    let str_buf := to_utf8_buffer value.to_string
    let len := str_buf.length % 2 ^ 64
    some (string_length_code len ++ str_buf)
  | _ => none

/-- The kinds that have a case of their own in the `switch (field_type)` of the second
loop of `_prepared_params_send`. -/
def valueKinds : List FieldType :=
  [.FT_TINYINT, .FT_TINYINT_U, .FT_SHORT, .FT_SHORT_U, .FT_INT, .FT_INT_U, .FT_MEDIUMINT,
    .FT_MEDIUMINT_U, .FT_BIGINT, .FT_BIGINT_U, .FT_FLOAT, .FT_DOUBLE, .FT_VAR_STRING,
    .FT_VARCHAR, .FT_STRING, .FT_DECIMAL, .FT_JSON, .FT_ENUM, .FT_SET]

/-- The second loop of `_prepared_params_send` (parameter values) over the remaining
parameters: the new `tx_buf`, or `none` for `return ErrorCode::ERR_PREPARE_FAILED`.
`param.keys()[0]` has no defined result for a parameter without entries. -/
def params_value_loop (E : Env) : List ParamEntry → Bytes → Run (Option Bytes)
  | [], tx_buf => pure (some tx_buf)
  | .dict ((key, value) :: _) :: rest, tx_buf =>
    let field_type := E.field_type_of (key % 2 ^ 8)
    if value.is_nil then params_value_loop E rest tx_buf
    else
      match param_value_bytes field_type value with
      | some bytes => params_value_loop E rest (tx_buf ++ bytes)
      | none => pure none
  | _ :: _, _ => .out_of_bounds

/-- The test at the start of `_prepared_params_send`: the statement has cached column
definitions, at least one, and `param_count == 0`. -/
def params_rejected (s : Session) (p_stmt_id : Nat) (param_count : Int) : Bool :=
  match s._prep_column_data.lookup p_stmt_id with
  | some expected_cols => expected_cols.length > 0 ∧ param_count = 0
  | none => false

/-- The first ten bytes of `tx_buf` in `_prepared_params_send`: `COM_STMT_EXECUTE`, the
statement id, the flags and the iteration count. -/
def execute_header (p_stmt_id : Nat) : Bytes :=
  let tx_buf : Bytes := [0x17]
  let tx_buf := tx_buf ++ [UInt8.ofNat ((p_stmt_id >>> 0) &&& 0xFF)]
  let tx_buf := tx_buf ++ [UInt8.ofNat ((p_stmt_id >>> 8) &&& 0xFF)]
  let tx_buf := tx_buf ++ [UInt8.ofNat ((p_stmt_id >>> 16) &&& 0xFF)]
  let tx_buf := tx_buf ++ [UInt8.ofNat ((p_stmt_id >>> 24) &&& 0xFF)]
  let tx_buf := tx_buf ++ [0x00]
  let tx_buf := tx_buf ++ [0x01, 0x00, 0x00, 0x00]
  tx_buf

/-- The end of `_prepared_params_send`: `_add_packet_header(tx_buf, 0)` and
`return (ErrorCode)_stream->put_data(tx_buf)`. -/
def send_execute (s : Session) (tx_buf : Bytes) : ErrorCode × Session :=
  let tx_buf := _add_packet_header tx_buf 0
  let (e, st) := s._stream.put_data tx_buf
  (e, { s with _stream := st })

/-- The block `if (param_count > 0) { ... }` of `_prepared_params_send` and what follows
it, for the parameters `params` that the loops run over. -/
def params_block (E : Env) (s : Session) (params : List ParamEntry) (nullmap_size : Int)
    (tx_buf : Bytes) : Run (ErrorCode × Session) :=
  if params.head? = some .not_dictionary then pure (.ERR_INVALID_PARAMETER, s)
  else
    let nullmap_offset := tx_buf.length
    let tx_buf := tx_buf ++ List.replicate nullmap_size.toNat 0x00
    let tx_buf := tx_buf ++ [0x01]
    match params_type_loop E nullmap_offset params 0 tx_buf with
    | none => pure (.ERR_INVALID_PARAMETER, s)
    | some tx_buf => do
      match ← params_value_loop E params tx_buf with
      | none => pure (.ERR_PREPARE_FAILED, s)
      | some tx_buf => pure (send_execute s tx_buf)

/-- The function `MariaDBConnector::_prepared_params_send`. -/
def _prepared_params_send (E : Env) (s : Session) (p_stmt_id : Nat)
    (p_params : List ParamEntry) : Run (ErrorCode × Session) :=
  let p_stmt_id := p_stmt_id % 2 ^ 32
  let param_count := to_int32 p_params.length
  if params_rejected s p_stmt_id param_count then pure (.ERR_INVALID_PARAMETER, s)
  else
    let tx_buf := execute_header p_stmt_id
    let nullmap_size := (param_count + 7) / 8
    if param_count > 0 then
      params_block E s (p_params.take param_count.toNat) nullmap_size tx_buf
    else pure (send_execute s tx_buf)

/-- The type and sign bytes that the first loop of `_prepared_params_send` pushes for the
parameters `ps`, each given by its kind and its value. -/
def execute_types (E : Env) : List (Nat × ParamValue) → Bytes
  | [] => []
  | kv :: rest => (param_type_bytes E (kv.1 % 2 ^ 16)).getD [] ++ execute_types E rest

/-- The value bytes that the second loop of `_prepared_params_send` pushes for the
parameters `ps`: nothing for a NIL value. -/
def execute_values (E : Env) : List (Nat × ParamValue) → Bytes
  | [] => []
  | kv :: rest =>
    (if kv.2.is_nil then []
      else (param_value_bytes (E.field_type_of (kv.1 % 2 ^ 8)) kv.2).getD []) ++
      execute_values E rest

/-- The null bitmap `bitmap` after the statement
`tx_buf[nullmap_offset + byte_i] |= (1 << bit_i)` has been run for the NIL values among
the parameters `ps`, the first of which has the index `i`. -/
def null_bits : Bytes → Nat → List (Nat × ParamValue) → Bytes
  | bitmap, _, [] => bitmap
  | bitmap, i, kv :: rest =>
    null_bits
      (if kv.2.is_nil then
        bitmap.modify (fun b => b ||| UInt8.ofNat (1 <<< (i &&& 7))) (i >>> 3)
      else bitmap) (i + 1) rest

/-- The `Dictionary` that `prepared_statement` returns on success. -/
structure PrepareInfo where
  statement_id : Nat
  num_columns : Nat
  num_params : Nat
  deriving DecidableEq, Repr

/-- The assignment `_prep_column_data[statement_id] = col_data`. -/
def prep_column_data_set :
    List (Nat × List ColumnDef) → Nat → List ColumnDef → List (Nat × List ColumnDef)
  | [], k, v => [(k, v)]
  | (k', v') :: rest, k, v =>
    if k' = k then (k, v) :: rest else (k', v') :: prep_column_data_set rest k v

/-- The loop of `prepared_statement` over the parameter-definition packets, `n` of them
still to skip: the buffer and the cursor afterwards, or `none` for the early
`return Dictionary()`. -/
def skip_param_defs : Nat → Session → Bytes → Nat → Run (Option (Bytes × Nat) × Session)
  | 0, s, rx_bfr, pkt_idx => pure (some (rx_bfr, pkt_idx), s)
  | n + 1, s, rx_bfr, pkt_idx => do
    let (pkt_len, pkt_idx) ← Run.ofOption (bytes_to_num_adv_itr 64 rx_bfr 3 pkt_idx)
    let (e, rx_bfr, _, s) := _rcv_bfr_chk s rx_bfr pkt_idx pkt_len
    let s := { s with _last_error := e }
    if e ≠ .OK then pure (none, s)
    else do
      let _ ← Run.ofOption (byteAt rx_bfr pkt_idx)
      let pkt_idx := pkt_idx + 1
      let pkt_idx := pkt_idx + pkt_len
      skip_param_defs n s rx_bfr pkt_idx

/-- The function `MariaDBConnector::prepared_statement`: the returned `Dictionary` (`none`
for the empty one) and the session. -/
def prepared_statement (s : Session) (p_sql : List Char) :
    Run (Option PrepareInfo × Session) :=
  let s := { s with _last_error := .OK }
  let send_buffer_vec : Bytes := [0x16]
  let send_buffer_vec := send_buffer_vec ++ to_utf8_buffer p_sql
  let send_buffer_vec := _add_packet_header send_buffer_vec 0
  let s := { s with _last_transmitted := send_buffer_vec }
  let s := { s with _stream_mutex := s._stream_mutex + 1 }
  let (e, st) := s._stream.put_data send_buffer_vec
  let s := { s with _last_error := e, _stream := st }
  if e ≠ .OK then pure (none, s)
  else
    let (rx_bfr, s) := _read_buffer s
    if rx_bfr.length = 0 then
      pure (none, { s with _last_error := .ERR_NO_RESPONSE,
                           _stream_mutex := s._stream_mutex - 1 })
    else do
      let pkt_idx := 0
      let (pkt_len, pkt_idx) ← Run.ofOption (bytes_to_num_adv_itr 64 rx_bfr 3 pkt_idx)
      let (e, rx_bfr, _, s) := _rcv_bfr_chk s rx_bfr pkt_idx pkt_len
      let s := { s with _last_error := e }
      if e ≠ .OK then pure (none, { s with _stream_mutex := s._stream_mutex - 1 })
      else do
        let _ ← Run.ofOption (byteAt rx_bfr pkt_idx)
        let pkt_idx := pkt_idx + 1
        let status ← Run.ofOption (byteAt rx_bfr pkt_idx)
        let pkt_idx := pkt_idx + 1
        if status ≠ 0 then do
          let s := { s with _last_error := .ERR_PREPARE_FAILED }
          let _ ← Run.ofOption (_handle_server_error rx_bfr pkt_idx)
          pure (none, { s with _stream_mutex := s._stream_mutex - 1 })
        else do
          let (statement_id, pkt_idx) ← Run.ofOption (bytes_to_num_adv_itr 32 rx_bfr 4 pkt_idx)
          let (num_columns, pkt_idx) ← Run.ofOption (bytes_to_num_adv_itr 16 rx_bfr 2 pkt_idx)
          let (num_params, pkt_idx) ← Run.ofOption (bytes_to_num_adv_itr 16 rx_bfr 2 pkt_idx)
          let pkt_idx := pkt_idx + 3
          let info : PrepareInfo :=
            { statement_id := statement_id, num_columns := num_columns,
              num_params := num_params }
          let (skipped, s) ← skip_param_defs num_params s rx_bfr pkt_idx
          match skipped with
          | none => pure (none, s)
          | some (rx_bfr, pkt_idx) => do
            let (col_data, _, _, s) ← _read_columns_data s rx_bfr pkt_idx num_columns
            let s := { s with _stream_mutex := s._stream_mutex - 1 }
            let s := { s with _prep_column_data :=
              prep_column_data_set s._prep_column_data statement_id col_data }
            pure (some info, s)

/-- The function `MariaDBConnector::prepared_stmt_exec_select`: the returned rows and the
session. -/
def prepared_stmt_exec_select (E : Env) (fuel : Nat) (s : Session) (p_stmt_id : Nat)
    (p_params : List ParamEntry) : Run (List Dictionary × Session) := do
  let p_stmt_id := p_stmt_id % 2 ^ 32
  let s := { s with _stream_mutex := s._stream_mutex + 1 }
  let (e, s) ← _prepared_params_send E s p_stmt_id p_params
  let s := { s with _last_error := e }
  if e ≠ .OK then pure ([], s)
  else
    let (rx_bfr, s) := _read_buffer s
    if rx_bfr.length = 0 then
      pure ([], { s with _last_error := .ERR_NO_RESPONSE,
                         _stream_mutex := s._stream_mutex - 1 })
    else do
      let pkt_idx := 0
      let (pkt_len, pkt_idx) ← Run.ofOption (bytes_to_num_adv_itr 64 rx_bfr 3 pkt_idx)
      let (e, rx_bfr, _, s) := _rcv_bfr_chk s rx_bfr pkt_idx pkt_len
      let s := { s with _last_error := e }
      if e ≠ .OK then pure ([], { s with _stream_mutex := s._stream_mutex - 1 })
      else do
        let _ ← Run.ofOption (byteAt rx_bfr pkt_idx)
        let pkt_idx := pkt_idx + 1
        let status ← Run.ofOption (byteAt rx_bfr pkt_idx)
        if status = 0xFF then do
          let pkt_idx := pkt_idx + 1
          let _ ← Run.ofOption (_handle_server_error rx_bfr pkt_idx)
          pure ([], { s with _last_error := .ERR_PREPARE_FAILED,
                             _stream_mutex := s._stream_mutex - 1 })
        else do
          let pkt_idx := pkt_idx + 2
          let col_data := (s._prep_column_data.lookup p_stmt_id).getD []
          if col_data.length = 0 then do
            let _ ← Run.ofOption (byteAt rx_bfr pkt_idx)
            pure ([], { s with _last_error := .ERR_UNAVAILABLE,
                               _stream_mutex := s._stream_mutex - 1 })
          else do
            let dep_eof : Bool := s._client_capabilities &&& E.CLIENT_DEPRECATE_EOF ≠ 0
            let (rows, _, _, s) ← _parse_prepared_exec E fuel s rx_bfr pkt_idx col_data dep_eof
            pure (rows, { s with _stream_mutex := s._stream_mutex - 1 })

/-- The function `MariaDBConnector::prepared_stmt_exec_cmd`: the returned `Dictionary`
(`none` for the empty one) and the session. `decode_u8` of the engine answers 0 for an
offset past the end. -/
def prepared_stmt_exec_cmd (E : Env) (s : Session) (p_stmt_id : Nat)
    (p_params : List ParamEntry) : Run (Option OkInfo × Session) := do
  let p_stmt_id := p_stmt_id % 2 ^ 32
  let s := { s with _stream_mutex := s._stream_mutex + 1 }
  let (e, s) ← _prepared_params_send E s p_stmt_id p_params
  let s := { s with _last_error := e }
  if e ≠ .OK then pure (none, { s with _stream_mutex := s._stream_mutex - 1 })
  else
    let (rx_bfr, s) := _read_buffer s
    if rx_bfr.length = 0 then
      pure (none, { s with _last_error := .ERR_NO_RESPONSE,
                           _stream_mutex := s._stream_mutex - 1 })
    else do
      let pkt_idx := 0
      let (pkt_len, pkt_idx) ← Run.ofOption (bytes_to_num_adv_itr 64 rx_bfr 3 pkt_idx)
      let (e, rx_bfr, _, s) := _rcv_bfr_chk s rx_bfr pkt_idx pkt_len
      let s := { s with _last_error := e }
      if e ≠ .OK then pure (none, { s with _stream_mutex := s._stream_mutex - 1 })
      else do
        let pkt_idx := pkt_idx + 1
        let header := (byteAt rx_bfr pkt_idx).getD 0
        let pkt_idx := pkt_idx + 1
        if header = 0xFF then do
          let _ ← Run.ofOption (_handle_server_error rx_bfr pkt_idx)
          pure (none, { s with _last_error := .ERR_EXECUTE_FAILED,
                               _stream_mutex := s._stream_mutex - 1 })
        else if header = 0x00 then do
          let (affected_rows, pkt_idx) ← Run.ofOption (_decode_lenenc_adv_itr rx_bfr pkt_idx)
          let (last_insert_id, pkt_idx) ← Run.ofOption (_decode_lenenc_adv_itr rx_bfr pkt_idx)
          let (status_flags, pkt_idx) ← Run.ofOption (bytes_to_num_adv_itr 16 rx_bfr 2 pkt_idx)
          let (warnings, pkt_idx) ← Run.ofOption (bytes_to_num_adv_itr 16 rx_bfr 2 pkt_idx)
          let info :=
            if pkt_idx < rx_bfr.length then
              (rx_bfr.drop pkt_idx).take (rx_bfr.length - pkt_idx)
            else []
          pure (some { affected_rows := variant_from_u64 affected_rows,
                       last_insert_id := variant_from_u64 last_insert_id,
                       status_flags := status_flags, warnings := warnings, info := info },
                { s with _stream_mutex := s._stream_mutex - 1 })
        else
          pure (none, { s with _last_error := .ERR_PARSE_ERROR,
                               _stream_mutex := s._stream_mutex - 1 })

/-- The four bytes that `encode_u32` of the engine writes. -/
def encode_u32 (v : Nat) : Bytes :=
  [UInt8.ofNat (v % 256), UInt8.ofNat (v / 2 ^ 8 % 256), UInt8.ofNat (v / 2 ^ 16 % 256),
    UInt8.ofNat (v / 2 ^ 24 % 256)]

/-- The function `MariaDBConnector::prepared_statement_close`. -/
def prepared_statement_close (s : Session) (stmt_id : Nat) : ErrorCode × Session :=
  let stmt_id := stmt_id % 2 ^ 32
  let tx_bfr : Bytes := [0x19] ++ encode_u32 stmt_id
  let tx_bfr := _add_packet_header tx_bfr 0
  let s := { s with _stream_mutex := s._stream_mutex + 1 }
  let (e, st) := s._stream.put_data tx_bfr
  let s := { s with _last_error := e, _stream := st }
  let s := { s with _stream_mutex := s._stream_mutex - 1 }
  (s._last_error, s)

/-- The function `MariaDBConnector::_query`. -/
def _query (E : Env) (fuel : Nat) (s : Session) (p_sql_stmt : List Char)
    (p_is_command : Bool) : Run (QueryResult × Session) :=
  let s := { s with _last_error := .OK }
  let (connected, s) := is_connected_db s
  if ¬ connected then
    let s := { s with _last_error := .ERR_NOT_CONNECTED }
    if p_is_command then pure (.zero, s) else pure (.code .ERR_NOT_CONNECTED, s)
  else if ¬ s._authenticated then
    let s := { s with _last_error := .ERR_NOT_CONNECTED }
    if p_is_command then pure (.zero, s) else pure (.code .ERR_AUTH_FAILED, s)
  else
    let tx_bfr : Bytes := [0x03]
    let s := { s with _last_query_converted := to_utf8_buffer p_sql_stmt }
    let tx_bfr := tx_bfr ++ s._last_query_converted
    let tx_bfr := _add_packet_header tx_bfr 0
    let s := { s with _last_transmitted := tx_bfr }
    let s := { s with _stream_mutex := s._stream_mutex + 1 }
    let (e, st) := s._stream.put_data tx_bfr
    let s := { s with _last_error := e, _stream := st }
    if e ≠ .OK then pure (.code e, s)
    else do
      let (res, s) ← _com_query_response E fuel s p_is_command
      pure (res, { s with _stream_mutex := s._stream_mutex - 1 })

/-- The function `MariaDBConnector::excecute_command`. -/
def excecute_command (E : Env) (fuel : Nat) (s : Session) (p_sql_stmt : List Char) :
    Run (QueryResult × Session) :=
  _query E fuel s p_sql_stmt true

/-- The function `MariaDBConnector::select_query`. It calls `_query(p_sql_stmt)` with
the default of the second parameter, which `mariadb_connector.hpp` gives: the select
style (`false`), `excecute_command` being the caller that passes `true`. A result that is
no array converts to the empty array. -/
def select_query (E : Env) (fuel : Nat) (s : Session) (p_sql_stmt : List Char) :
    Run (List Dictionary × Session) := do
  let (query_result, s) ← _query E fuel s p_sql_stmt false
  match query_result with
  | .zero => pure ([], s)
  | .code _ => pure ([], s)
  | .info _ => pure ([], s)
  | .rows raw_array => pure (raw_array, s)

/-- The function `MariaDBConnector::ping_srvr`. -/
def ping_srvr (s : Session) : Session :=
  let s := { s with _stream_mutex := s._stream_mutex + 1 }
  let (connected, s) := is_connected_db s
  let s :=
    if connected then
      let (_, st) := s._stream.put_data [0x01, 0x00, 0x00, 0x00, 0x0E]
      { s with _stream := st }
    else s
  let (_, s) := _read_buffer s
  { s with _stream_mutex := s._stream_mutex - 1 }

/-! ## Packets as a server sends them -/

/-- A length-encoded integer as the protocol writes it: one byte below 251, else the
marker `0xFC`, `0xFD` or `0xFE` and 2, 3 or 8 little-endian bytes. -/
def lenenc_int (v : Nat) : Bytes :=
  if v < 251 then [UInt8.ofNat v]
  else if v < 2 ^ 16 then 0xFC :: little_endian_to_vbytes v 2 0
  else if v < 2 ^ 24 then 0xFD :: little_endian_to_vbytes v 3 0
  else 0xFE :: little_endian_to_vbytes v 8 0

/-- A length-encoded string as the protocol writes it. -/
def lenenc_str (t : Bytes) : Bytes :=
  lenenc_int t.length ++ t

/-- The strings of a column-definition packet that `_read_columns_data` reads and does
not keep; the catalog is always `def`. -/
structure ColumnNames where
  schema : Bytes
  table : Bytes
  org_table : Bytes
  org_name : Bytes
  deriving DecidableEq, Repr

/-- The payload of the column-definition packet for the names `n` and the definition
`c`. -/
def column_def_payload (n : ColumnNames) (c : ColumnDef) : Bytes :=
  lenenc_str (ascii "def") ++ lenenc_str n.schema ++ lenenc_str n.table ++
    lenenc_str n.org_table ++ lenenc_str c.name ++ lenenc_str n.org_name ++ lenenc_int 0x0C ++
    little_endian_to_vbytes c.char_set 2 0 ++ little_endian_to_vbytes c.length 4 0 ++
    [UInt8.ofNat c.field_type] ++ little_endian_to_vbytes c.flags 2 0 ++
    [UInt8.ofNat c.decimals] ++ [0, 0]

/-- A column definition whose numbers fit their fields and whose packet payload is
shorter than `2 ^ 24` bytes. -/
@[reducible] def column_fits (n : ColumnNames) (c : ColumnDef) : Prop :=
  c.char_set < 2 ^ 16 ∧ c.length < 2 ^ 32 ∧ c.field_type < 2 ^ 8 ∧ c.flags < 2 ^ 16 ∧
    c.decimals < 2 ^ 8 ∧ (column_def_payload n c).length < 2 ^ 24

/-- The packets with the given payloads, numbered from `seq` on. -/
def packets : List Bytes → Nat → Bytes
  | [], _ => []
  | p :: ps, seq => _add_packet_header p seq ++ packets ps (seq + 1)

/-- The payload of the first packet of a COM_STMT_PREPARE response with status 0:
statement id, number of columns, number of parameters, a reserved byte and the warning
count. -/
def prepare_ok_payload (statement_id num_columns num_params : Nat) : Bytes :=
  [0x00] ++ little_endian_to_vbytes statement_id 4 0 ++
    little_endian_to_vbytes num_columns 2 0 ++ little_endian_to_vbytes num_params 2 0 ++
    [0x00] ++ little_endian_to_vbytes 0 2 0

/-- A complete COM_STMT_PREPARE response with status 0 in the layout without EOF packets:
the first packet, one packet per parameter (payloads `params`) and one column-definition
packet per column. -/
def prepare_response (statement_id : Nat) (params : List Bytes)
    (cols : List (ColumnNames × ColumnDef)) : Bytes :=
  packets
    ([prepare_ok_payload statement_id cols.length params.length] ++ params ++
      cols.map fun nc => column_def_payload nc.1 nc.2) 1

/-- The payload of an EOF packet: the header `0xFE`, no warning, the status flags
`0x0002` (mariadb.com/kb/en/eof_packet). -/
def eof_payload : Bytes := [0xFE, 0x00, 0x00, 0x02, 0x00]

/-- A complete COM_STMT_PREPARE response with status 0 in the layout of a connection
without `CLIENT_DEPRECATE_EOF` (mariadb.com/kb/en/com_stmt_prepare): an EOF packet follows
the parameter packets if there is a parameter, and the column-definition packets if there
is a column. -/
def prepare_response_with_eof (statement_id : Nat) (params : List Bytes)
    (cols : List (ColumnNames × ColumnDef)) : Bytes :=
  packets
    ([prepare_ok_payload statement_id cols.length params.length] ++ params ++
      (if params.length > 0 then [eof_payload] else []) ++
      (cols.map fun nc => column_def_payload nc.1 nc.2) ++
      (if cols.length > 0 then [eof_payload] else [])) 1

/-! ## Concrete environment and sessions for the examples -/

/-- The enumerators of `FieldType` in the order in which `_bind_methods` binds them. -/
def fieldTypesInOrder : List FieldType :=
  [.FT_TINYINT, .FT_TINYINT_U, .FT_SHORT, .FT_SHORT_U, .FT_INT, .FT_INT_U, .FT_FLOAT,
    .FT_DOUBLE, .FT_TIMESTAMP, .FT_BIGINT, .FT_BIGINT_U, .FT_MEDIUMINT, .FT_MEDIUMINT_U,
    .FT_DATE, .FT_TIME, .FT_DATETIME, .FT_YEAR, .FT_NEWDATE, .FT_VARCHAR, .FT_BIT, .FT_JSON,
    .FT_DECIMAL, .FT_ENUM, .FT_SET, .FT_TINYBLOB, .FT_MEDIUMBLOB, .FT_LONGBLOB, .FT_BLOB,
    .FT_VAR_STRING, .FT_STRING, .FT_GEOMETRY]

/-- The enum values of the MariaDB protocol documentation the code refers to
(mariadb.com/kb/en/connection, result-set-packets), with stand-ins of the right output
length for the digests and the signature; the enumerators of `FieldType` are numbered
from 0 in their binding order. -/
def protocolEnv : Env where
  CLIENT_MYSQL := 1
  LONG_FLAG := 4
  CONNECT_WITH_DB := 8
  LOCAL_FILES := 128
  CLIENT_PROTOCOL_41 := 512
  CLIENT_INTERACTIVE := 1024
  SECURE_CONNECTION := 32768
  RESERVED2 := 16384
  MULTI_STATEMENTS := 65536
  MULTI_RESULTS := 131072
  PS_MULTI_RESULTS := 262144
  PLUGIN_AUTH := 524288
  CAN_HANDLE_EXPIRED_PASSWORDS := 4194304
  SESSION_TRACK := 8388608
  CLIENT_DEPRECATE_EOF := 16777216
  REMEMBER_OPTIONS := 2147483648
  MARIADB_CLIENT_CACHE_METADATA := 68719476736
  MYSQL_TYPE_DECIMAL := 0
  MYSQL_TYPE_TINY := 1
  MYSQL_TYPE_SHORT := 2
  MYSQL_TYPE_LONG := 3
  MYSQL_TYPE_FLOAT := 4
  MYSQL_TYPE_DOUBLE := 5
  MYSQL_TYPE_TIMESTAMP := 7
  MYSQL_TYPE_LONGLONG := 8
  MYSQL_TYPE_INT24 := 9
  MYSQL_TYPE_DATETIME := 12
  MYSQL_TYPE_YEAR := 13
  MYSQL_TYPE_NEWDECIMAL := 246
  MYSQL_TYPE_VAR_STRING := 253
  MYSQL_TYPE_STRING := 254
  MYSQL_TYPE_DATE := 10
  MYSQL_TYPE_TIME := 11
  MYSQL_TYPE_NEWDATE := 14
  MYSQL_TYPE_VARCHAR := 15
  MYSQL_TYPE_BIT := 16
  MYSQL_TYPE_JSON := 245
  MYSQL_TYPE_ENUM := 247
  MYSQL_TYPE_SET := 248
  MYSQL_TYPE_TINY_BLOB := 249
  MYSQL_TYPE_MEDIUM_BLOB := 250
  MYSQL_TYPE_LONG_BLOB := 251
  MYSQL_TYPE_BLOB := 252
  MYSQL_TYPE_GEOMETRY := 255
  SIGN_SIGNED := 0
  SIGN_UNSIGNED := 128
  field_type_of := fun k => fieldTypesInOrder[k]?
  kAuthTypeNames := fun t =>
    match t with
    | .AUTH_TYPE_ED25519 => ascii "client_ed25519"
    | .AUTH_TYPE_MYSQL_NATIVE => ascii "mysql_native_password"
  sha1 := fun _ => List.replicate 20 0
  sha512 := fun _ => List.replicate 64 0
  ed25519_sign_msg := fun _ _ => List.replicate 64 0
  is_valid_ip_address := fun h => h = "127.0.0.1".toList
  resolve_hostname := fun h => h

/-- The environment `protocolEnv` with a stand-in for SHA-1 whose 20 bytes depend on every
byte of the data: byte `i` is `i` plus the sum of the data bytes, modulo 256. -/
def digestEnv : Env :=
  { protocolEnv with
    sha1 := fun d => (List.range 20).map fun i => d.foldl (fun a b => a + b) (UInt8.ofNat i) }

/-- A connected stream whose `_read_buffer` calls return the given buffers, one per call,
and nothing afterwards. -/
def streamDelivering (chunks : List Bytes) : Stream where
  connected := true
  connects := []
  polls := []
  reads := chunks.map fun c => { data := c, last_error := .OK, connected := true }
  puts := []
  written := []

/-- A session on the given stream with the given negotiated client capabilities and
authentication flag; every other member is empty. -/
def sessionOn (st : Stream) (caps : Nat) (auth : Bool) : Session where
  _stream := st
  _stream_mutex := 0
  _authenticated := auth
  _last_error := .OK
  _client_auth_type := .AUTH_TYPE_MYSQL_NATIVE
  _client_capabilities := caps
  _server_capabilities := 0
  _srvr_major_ver := 0
  _srvr_minor_ver := 0
  _server_ver_str := []
  _dbl_to_string := false
  _ip := []
  _port := 0
  _username := []
  _password_hashed := []
  _dbname := []
  _last_query_converted := []
  _last_response := []
  _last_transmitted := []
  _prep_column_data := []

/-- A column-definition packet with sequence byte `seq` for a column named `name` of
field type `ft` (catalog `def`, the other names empty, 12 fixed bytes). -/
def columnPacket (seq : Nat) (name : Bytes) (ft : Nat) : Bytes :=
  _add_packet_header
    ([3] ++ ascii "def" ++ [0, 0, 0] ++ [UInt8.ofNat name.length] ++ name ++ [0, 0x0C,
      0x3F, 0, 11, 0, 0, 0, UInt8.ofNat ft, 0x81, 0, 0, 0, 0]) seq

/-- The terminating packet of a result set under CLIENT_DEPRECATE_EOF: header byte `0xFE`
and a 7-byte payload. -/
def eofPacket (seq : Nat) : Bytes :=
  _add_packet_header [0xFE, 0, 0, 2, 0, 0, 0] seq

/-- The response to `SELECT 1`: one column named `1` of type LONGLONG, one row `"1"`. -/
def select1Response : Bytes :=
  _add_packet_header [1] 1 ++ columnPacket 2 (ascii "1") 8 ++
    _add_packet_header ([1] ++ ascii "1") 3 ++ eofPacket 4

/-- A protocol-10 greeting of a MariaDB 10.6 server: version string, connection id, salt
part 1, filler, capabilities `0x81FFF7FE` (no legacy-MySQL flag), collation, status, salt
length 21, filler, extended capabilities, salt part 2 with its NUL, and the plugin name
`mysql_native_password`. -/
def greetingV10 : Bytes :=
  _add_packet_header
    ([10] ++ ascii "5.5.5-10.6.12-MariaDB" ++ [0] ++ [7, 0, 0, 0] ++
      [1, 2, 3, 4, 5, 6, 7, 8] ++ [0] ++ [0xFE, 0xF7] ++ [0x2D] ++ [2, 0] ++ [0xFF, 0x81] ++
      [21] ++ [0, 0, 0, 0, 0, 0] ++ [0x1D, 0, 0, 0] ++
      [9, 10, 11, 12, 13, 14, 15, 16, 17, 18, 19, 20, 0] ++
      ascii "mysql_native_password" ++ [0]) 0

/-- The ERR packet `1045 #28000 Access denied` sent as reply number 2. -/
def accessDeniedReply : Bytes :=
  _add_packet_header ([0xFF, 0x15, 0x04] ++ ascii "#28000" ++ ascii "Access denied") 2

/-- A stream on which a connection attempt succeeds at the first poll of the waiting loop
and whose `_read_buffer` calls return the given buffers, one per call. -/
def streamConnecting (chunks : List Bytes) : Stream where
  connected := false
  connects := []
  polls := [(.OK, false), (.OK, true)]
  reads := chunks.map fun c => { data := c, last_error := .OK, connected := true }
  puts := []
  written := []

/-- A greeting packet with protocol version 9: declared length 1, sequence number 0. -/
def greetingV9 : Bytes := [1, 0, 0, 0, 9]

/-- A cached column definition of type TINY named `a`. -/
def tinyColumn : ColumnDef :=
  { name := ascii "a", char_set := 63, length := 4, field_type := 1, flags := 0, decimals := 0 }

/-- The first six bytes of a binary row packet of one TINY column: the header declares 3
payload bytes (header byte, null bitmap, value) and the value byte has not arrived yet. -/
def partialBinaryRow : Bytes := [3, 0, 0, 1, 0, 0]

/-- A text result set under CLIENT_DEPRECATE_EOF: one VAR_STRING column `a`, a row with a
20-byte field, a row with the 1-byte field `x`, and the terminating packet. -/
def twoRowResponse : Bytes :=
  _add_packet_header [1] 1 ++ columnPacket 2 (ascii "a") 253 ++
    _add_packet_header ([20] ++ ascii "abcdefghijklmnopqrst") 3 ++
    _add_packet_header ([1] ++ ascii "x") 4 ++ eofPacket 5

/-- The rows of a text result set of one column: a row packet whose only field is the NULL
marker `0xFB`, and the terminating packet. -/
def nullRowPackets : Bytes :=
  _add_packet_header [0xFB] 3 ++ eofPacket 4

/-- An OK packet with affected rows 1, last insert id 42, status flags `0x0002`, no
warnings and the info text `t`. -/
def okResponse (t : Bytes) : Bytes :=
  _add_packet_header ([0x00, 1, 42, 2, 0, 0, 0] ++ t) 1

/-- An ERR payload from its code on: code 1045, `#28000`, "Access denied". -/
def errPayload1045 : Bytes :=
  [0x15, 0x04] ++ ascii "#28000" ++ ascii "Access denied"

/-- A fresh session whose connection attempt succeeds and whose server then sends the one
buffer `g`. -/
def sessionGreeted (g : Bytes) : Session :=
  sessionOn (streamConnecting [g]) 0 false

/-- A first buffer of `n + 4` bytes: the bytes `05 00 00 01` followed by `n` zero bytes.
Its header declares a payload of 5 bytes and carries the sequence number 1. -/
def paddedGreeting (n : Nat) : Bytes :=
  [5, 0, 0, 1] ++ List.replicate n 0

/-- A parameter of the kind with value `kind`. -/
def paramOf (kind : Nat) (value : ParamValue) : ParamEntry :=
  .dict [(kind, value)]

/-- The integer `n` as a parameter value; its conversions to floating point are not
given. -/
def intValue (n : Nat) : ParamValue where
  is_nil := false
  to_uint8 := n % 2 ^ 8
  to_uint16 := n % 2 ^ 16
  to_uint32 := n % 2 ^ 32
  to_uint64 := n % 2 ^ 64
  float_bytes := []
  double_bytes := []
  to_string := (toString n).toList

/-- The text `t` as a parameter value; its conversions to numbers are not given. -/
def textValue (t : List Char) : ParamValue where
  is_nil := false
  to_uint8 := 0
  to_uint16 := 0
  to_uint32 := 0
  to_uint64 := 0
  float_bytes := []
  double_bytes := []
  to_string := t

/-- The names of a computed column without table. -/
def noNames : ColumnNames :=
  { schema := [], table := [], org_table := [], org_name := [] }

/-- The definition of a parameter `?`, as a server describes it. -/
def placeholderColumn : ColumnDef :=
  { name := ascii "?", char_set := 63, length := 0, field_type := 253, flags := 128,
    decimals := 0 }

/-- The definition of a LONGLONG column named `n`. -/
def bigintColumn (n : String) : ColumnDef :=
  { name := ascii n, char_set := 63, length := 21, field_type := 8, flags := 129,
    decimals := 0 }

/-- The response to the preparation of `SELECT ? + ?`: statement 1, two parameters, one
column. -/
def prepareSumResponse : Bytes :=
  prepare_response 1
    [column_def_payload noNames placeholderColumn, column_def_payload noNames placeholderColumn]
    [(noNames, bigintColumn "? + ?")]

/-- The response to the preparation of `SELECT 1`: statement 2, no parameter, one
column. -/
def prepareOneResponse : Bytes :=
  prepare_response 2 [] [(noNames, bigintColumn "1")]

/-- The response to the preparation of `SELECT ? + ?` on a connection without
`CLIENT_DEPRECATE_EOF`: the packets of `prepareSumResponse` with an EOF packet after the
two parameter packets and one after the column-definition packet. -/
def prepareSumResponseWithEof : Bytes :=
  prepare_response_with_eof 1
    [column_def_payload noNames placeholderColumn, column_def_payload noNames placeholderColumn]
    [(noNames, bigintColumn "? + ?")]

/-- The OK packet that answers the execution of a statement without result set: no
affected row, status flags `0x0002`. -/
def execOkResponse : Bytes :=
  _add_packet_header [0x00, 0, 0, 2, 0, 0, 0] 1

/-- An authenticated session whose server answers the next request with
`execOkResponse`. -/
def sessionExec : Session :=
  sessionOn (streamDelivering [execOkResponse]) 16777216 true

/-- The session `sessionExec` after `prepared_stmt_exec_select` has locked the mutex and
sent the execute packet of statement 1 without parameters. -/
def sessionExecSent : Session :=
  (send_execute { sessionExec with _stream_mutex := sessionExec._stream_mutex + 1 }
    (execute_header 1)).2

/-- The session `sessionExecSent` after the response has been read. -/
def sessionExecRead : Session :=
  (_read_buffer { sessionExecSent with _last_error := .OK }).2

/-- A cached column definition of type BLOB (252) named `a`. -/
def blobColumn : ColumnDef :=
  { name := ascii "a", char_set := 63, length := 65535, field_type := 252, flags := 0,
    decimals := 0 }

/-- A binary row packet whose only column holds the two bytes `hi` as a length-encoded
string, and the terminating packet. -/
def blobRowPackets : Bytes :=
  _add_packet_header ([0x00, 0x00, 2] ++ ascii "hi") 1 ++ eofPacket 2

/-- A cached column definition of type DATETIME (12) named `d`. -/
def datetimeColumn : ColumnDef :=
  { name := ascii "d", char_set := 63, length := 19, field_type := 12, flags := 128,
    decimals := 0 }

/-- A binary row packet whose only column holds the date 2024-01-02 at midnight, which the
protocol sends with length 4 (year, month, day), and the terminating packet. -/
def dateOnlyRowPackets : Bytes :=
  _add_packet_header [0x00, 0x00, 4, 0xE8, 0x07, 1, 2] 1 ++ eofPacket 2

/-- A binary row packet whose only column holds the TINY value 42, and the terminating
packet. -/
def tinyRowPackets : Bytes :=
  _add_packet_header [0x00, 0x00, 42] 1 ++ eofPacket 2

/-- A session that holds the column definitions of statement 1 and whose stream is not
connected. -/
def sessionWithStatement : Session :=
  { sessionOn (streamConnecting []) 0 true with _prep_column_data := [(1, [tinyColumn])] }

/-- A session whose stream is connecting: the first `poll()` leaves it unconnected, the
second one finds the connection established. -/
def sessionConnecting : Session :=
  sessionOn (streamConnecting []) 0 false

/-- A connected stream whose next `put_data` fails. -/
def streamRefusing : Stream :=
  { streamDelivering [] with puts := [.ERR_CONNECTION_ERROR] }

/-- A stream whose connection attempt is under way and whose next `poll()` fails. -/
def streamPollFailing : Stream :=
  { streamConnecting [] with polls := [(.OK, false), (.ERR_CONNECTION_ERROR, false)] }

/-- The greeting `greetingV10` with the version string `5.5.5-11.0.2-MariaDB`. -/
def greetingV11 : Bytes :=
  _add_packet_header
    ([10] ++ ascii "5.5.5-11.0.2-MariaDB" ++ [0] ++ [7, 0, 0, 0] ++
      [1, 2, 3, 4, 5, 6, 7, 8] ++ [0] ++ [0xFE, 0xF7] ++ [0x2D] ++ [2, 0] ++ [0xFF, 0x81] ++
      [21] ++ [0, 0, 0, 0, 0, 0] ++ [0x1D, 0, 0, 0] ++
      [9, 10, 11, 12, 13, 14, 15, 16, 17, 18, 19, 20, 0] ++
      ascii "mysql_native_password" ++ [0]) 0

/-- The ERR packet `1045 #28000 Access denied` sent as the response to a query. -/
def errResponse1045 : Bytes :=
  _add_packet_header ([0xFF] ++ errPayload1045) 1

/-- The response to `SELECT 1` on a connection without `CLIENT_DEPRECATE_EOF`: the column
count, the column-definition packet, an EOF packet, the row `"1"` and a final EOF
packet. -/
def select1ResponseWithEof : Bytes :=
  _add_packet_header [1] 1 ++ columnPacket 2 (ascii "1") 8 ++ _add_packet_header eof_payload 3 ++
    _add_packet_header ([1] ++ ascii "1") 4 ++ _add_packet_header eof_payload 5

/-- An authentication switch request (status `0xFE`) that names the plugin `name` and
carries a 32-byte message, sent as reply number 2. -/
def switchRequest (name : String) : Bytes :=
  _add_packet_header ([0xFE] ++ ascii name ++ [0] ++ List.replicate 32 7) 2

/-- A session of the user `root` configured for `auth` whose server has the capabilities
`0x81FFF7FE` and answers the handshake response with `reply`. -/
def sessionAuth (auth : AuthType) (reply : Bytes) : Session :=
  { sessionOn (streamDelivering [reply]) 0 false with
    _client_auth_type := auth
    _server_capabilities := 0x81FFF7FE
    _username := ascii "root"
    _password_hashed := List.replicate 64 1 }

/-- A binary row packet of a DATETIME column, sent as the bytes `l` (the length byte and
the fields), and a TINY column with the value 42, and the terminating packet. In the row
packet the header byte is byte 4, the null bitmap byte 5, and the values start at
byte 6. -/
def dateTinyRowPackets (l : Bytes) : Bytes :=
  _add_packet_header ([0x00, 0x00] ++ l ++ [42]) 1 ++ eofPacket 2

end MariaDB

namespace MariaDB

theorem byteAt_lt (p_buf : Bytes) (i v : Nat) (h : byteAt p_buf i = some v) : v < 256 := by
  unfold byteAt at h
  cases hb : p_buf[i]? with
  | none => simp [hb] at h
  | some b =>
    simp [hb] at h
    subst h
    exact UInt8.toNat_lt b

theorem byteAt_exists (p_buf : Bytes) (i : Nat) (h : i < p_buf.length) :
    ∃ v, byteAt p_buf i = some v ∧ v < 256 := by
  refine ⟨(p_buf[i]).toNat, ?_, UInt8.toNat_lt _⟩
  simp [byteAt, List.getElem?_eq_getElem h]

theorem byteAt_none (p_buf : Bytes) (i : Nat) (h : p_buf.length ≤ i) : byteAt p_buf i = none := by
  simp [byteAt, List.getElem?_eq_none h]

theorem byteAt_bound (p_buf : Bytes) (i v : Nat) (h : byteAt p_buf i = some v) :
    i < p_buf.length := by
  by_contra hc
  rw [byteAt_none p_buf i (by omega)] at h
  cases h

theorem or_shift (k a b : Nat) (ha : a < 2 ^ k) : a ||| (b <<< k) = a + 2 ^ k * b := by
  rw [Nat.shiftLeft_eq, Nat.mul_comm, Nat.or_comm, Nat.add_comm]
  exact (Nat.mul_add_lt_is_or ha b).symm

theorem leValue_take_drop (l : Bytes) (i n a : Nat) (h : byteAt l i = some a) :
    leValue ((l.drop i).take (n + 1)) = a + 256 * leValue ((l.drop (i + 1)).take n) := by
  have hi := byteAt_bound l i a h
  rw [List.drop_eq_getElem_cons hi, List.take_succ_cons, leValue]
  simp [byteAt, List.getElem?_eq_getElem hi] at h
  rw [h]

theorem leValue_take_zero (l : Bytes) : leValue (l.take 0) = 0 := by
  simp [leValue]

theorem decode_FC (p_buf : Bytes) (idx a b : Nat) (hm : byteAt p_buf idx = some 0xFC)
    (ha : byteAt p_buf (idx + 1) = some a) (hb : byteAt p_buf (idx + 2) = some b) :
    _decode_lenenc_adv_itr p_buf idx = some (a + 256 * b, idx + 3) := by
  have la := byteAt_lt _ _ _ ha
  unfold _decode_lenenc_adv_itr
  rw [hm]
  simp only [Option.bind_eq_bind, Option.some_bind, ha, hb, Nat.add_assoc]
  rw [or_shift 8 _ _ (by omega)]
  simp

theorem decode_FD (p_buf : Bytes) (idx a b c : Nat) (hm : byteAt p_buf idx = some 0xFD)
    (ha : byteAt p_buf (idx + 1) = some a) (hb : byteAt p_buf (idx + 2) = some b)
    (hc : byteAt p_buf (idx + 3) = some c) :
    _decode_lenenc_adv_itr p_buf idx = some (a + 256 * (b + 256 * c), idx + 4) := by
  have la := byteAt_lt _ _ _ ha
  have lb := byteAt_lt _ _ _ hb
  unfold _decode_lenenc_adv_itr
  rw [hm]
  simp only [Option.bind_eq_bind, Option.some_bind, ha, hb, hc, Nat.add_assoc]
  rw [or_shift 8 _ _ (by omega), or_shift 16 _ _ (by omega)]
  simp
  omega

theorem decode_FE (p_buf : Bytes) (idx b0 b1 b2 b3 b4 b5 b6 b7 : Nat)
    (hm : byteAt p_buf idx = some 0xFE)
    (h0 : byteAt p_buf (idx + 1) = some b0) (h1 : byteAt p_buf (idx + 2) = some b1)
    (h2 : byteAt p_buf (idx + 3) = some b2) (h3 : byteAt p_buf (idx + 4) = some b3)
    (h4 : byteAt p_buf (idx + 5) = some b4) (h5 : byteAt p_buf (idx + 6) = some b5)
    (h6 : byteAt p_buf (idx + 7) = some b6) (h7 : byteAt p_buf (idx + 8) = some b7) :
    _decode_lenenc_adv_itr p_buf idx
      = some (b0 + 256 * (b1 + 256 * (b2 + 256 * (b3 + 256 * (b4 + 256 * (b5 + 256 *
          (b6 + 256 * b7)))))), idx + 9) := by
  have l0 := byteAt_lt _ _ _ h0
  have l1 := byteAt_lt _ _ _ h1
  have l2 := byteAt_lt _ _ _ h2
  have l3 := byteAt_lt _ _ _ h3
  have l4 := byteAt_lt _ _ _ h4
  have l5 := byteAt_lt _ _ _ h5
  have l6 := byteAt_lt _ _ _ h6
  unfold _decode_lenenc_adv_itr
  rw [hm]
  simp only [Option.bind_eq_bind, Option.some_bind, h0, h1, h2, h3, h4, h5, h6, h7,
    Nat.add_assoc, Nat.reduceLT, Nat.reduceEqDiff, if_false, if_true, Nat.reduceAdd]
  rw [or_shift 8 b0 b1 (by omega), or_shift 16 _ b2 (by omega), or_shift 24 _ b3 (by omega),
    or_shift 8 b4 b5 (by omega), or_shift 16 _ b6 (by omega), or_shift 24 _ b7 (by omega),
    Nat.or_comm, or_shift 32 _ _ (by omega)]
  simp only [pure, Option.some.injEq, Prod.mk.injEq, and_true]
  omega

theorem decode_small (p_buf : Bytes) (idx marker : Nat) (hm : byteAt p_buf idx = some marker)
    (hlt : marker < 0xFB) : _decode_lenenc_adv_itr p_buf idx = some (marker, idx + 1) := by
  simp [_decode_lenenc_adv_itr, hm, hlt]

theorem decode_FB (p_buf : Bytes) (idx : Nat) (hm : byteAt p_buf idx = some 0xFB) :
    _decode_lenenc_adv_itr p_buf idx = some (UINT64_MAX, idx + 1) := by
  simp [_decode_lenenc_adv_itr, hm]

theorem decode_FF (p_buf : Bytes) (idx : Nat) (hm : byteAt p_buf idx = some 0xFF) :
    _decode_lenenc_adv_itr p_buf idx = some (0xFF, idx + 1) := by
  simp [_decode_lenenc_adv_itr, hm]

/-- C1. With at least 9 bytes left at the cursor, `_decode_lenenc_adv_itr` returns the
marker itself below `0xFB` (cursor + 1), `2 ^ 64 - 1` for `0xFB` (cursor + 1), and the
little-endian value of the next 2, 3 or 8 bytes for `0xFC`, `0xFD`, `0xFE` (cursor + 3,
+ 4, + 9). -/
theorem decode_lenenc_adv_itr_cases (p_buf : Bytes) (idx : Nat)
    (h : idx + 9 ≤ p_buf.length) :
    ∃ marker, byteAt p_buf idx = some marker ∧
      (marker < 0xFB → _decode_lenenc_adv_itr p_buf idx = some (marker, idx + 1)) ∧
      (marker = 0xFB → _decode_lenenc_adv_itr p_buf idx = some (2 ^ 64 - 1, idx + 1)) ∧
      (marker = 0xFC → _decode_lenenc_adv_itr p_buf idx
          = some (leValue ((p_buf.drop (idx + 1)).take 2), idx + 3)) ∧
      (marker = 0xFD → _decode_lenenc_adv_itr p_buf idx
          = some (leValue ((p_buf.drop (idx + 1)).take 3), idx + 4)) ∧
      (marker = 0xFE → _decode_lenenc_adv_itr p_buf idx
          = some (leValue ((p_buf.drop (idx + 1)).take 8), idx + 9)) := by
  obtain ⟨marker, hm, -⟩ := byteAt_exists p_buf idx (by omega)
  obtain ⟨b0, h0, -⟩ := byteAt_exists p_buf (idx + 1) (by omega)
  obtain ⟨b1, h1, -⟩ := byteAt_exists p_buf (idx + 2) (by omega)
  obtain ⟨b2, h2, -⟩ := byteAt_exists p_buf (idx + 3) (by omega)
  obtain ⟨b3, h3, -⟩ := byteAt_exists p_buf (idx + 4) (by omega)
  obtain ⟨b4, h4, -⟩ := byteAt_exists p_buf (idx + 5) (by omega)
  obtain ⟨b5, h5, -⟩ := byteAt_exists p_buf (idx + 6) (by omega)
  obtain ⟨b6, h6, -⟩ := byteAt_exists p_buf (idx + 7) (by omega)
  obtain ⟨b7, h7, -⟩ := byteAt_exists p_buf (idx + 8) (by omega)
  refine ⟨marker, hm, decode_small p_buf idx marker hm, ?_, ?_, ?_, ?_⟩
  · intro heq
    subst heq
    exact decode_FB p_buf idx hm
  · intro heq
    subst heq
    rw [leValue_take_drop _ _ _ _ h0, leValue_take_drop _ _ _ _ h1, leValue_take_zero]
    exact decode_FC p_buf idx b0 b1 hm h0 h1
  · intro heq
    subst heq
    rw [leValue_take_drop _ _ _ _ h0, leValue_take_drop _ _ _ _ h1,
      leValue_take_drop _ _ _ _ h2, leValue_take_zero]
    exact decode_FD p_buf idx b0 b1 b2 hm h0 h1 h2
  · intro heq
    subst heq
    rw [leValue_take_drop _ _ _ _ h0, leValue_take_drop _ _ _ _ h1,
      leValue_take_drop _ _ _ _ h2, leValue_take_drop _ _ _ _ h3,
      leValue_take_drop _ _ _ _ h4, leValue_take_drop _ _ _ _ h5,
      leValue_take_drop _ _ _ _ h6, leValue_take_drop _ _ _ _ h7, leValue_take_zero]
    exact decode_FE p_buf idx b0 b1 b2 b3 b4 b5 b6 b7 hm h0 h1 h2 h3 h4 h5 h6 h7

/-- C1, at the buffer `FC 34 12 00 00 00 00 00 00` and cursor 0. -/
theorem decode_lenenc_adv_itr_cases_witness :
    0 + 9 ≤ ([0xFC, 0x34, 0x12, 0, 0, 0, 0, 0, 0] : Bytes).length ∧
    ∃ marker, byteAt [0xFC, 0x34, 0x12, 0, 0, 0, 0, 0, 0] 0 = some marker ∧
      (marker < 0xFB →
        _decode_lenenc_adv_itr [0xFC, 0x34, 0x12, 0, 0, 0, 0, 0, 0] 0 = some (marker, 0 + 1)) ∧
      (marker = 0xFB →
        _decode_lenenc_adv_itr [0xFC, 0x34, 0x12, 0, 0, 0, 0, 0, 0] 0
          = some (2 ^ 64 - 1, 0 + 1)) ∧
      (marker = 0xFC → _decode_lenenc_adv_itr [0xFC, 0x34, 0x12, 0, 0, 0, 0, 0, 0] 0
          = some (leValue ((List.drop (0 + 1)
              ([0xFC, 0x34, 0x12, 0, 0, 0, 0, 0, 0] : Bytes)).take 2), 0 + 3)) ∧
      (marker = 0xFD → _decode_lenenc_adv_itr [0xFC, 0x34, 0x12, 0, 0, 0, 0, 0, 0] 0
          = some (leValue ((List.drop (0 + 1)
              ([0xFC, 0x34, 0x12, 0, 0, 0, 0, 0, 0] : Bytes)).take 3), 0 + 4)) ∧
      (marker = 0xFE → _decode_lenenc_adv_itr [0xFC, 0x34, 0x12, 0, 0, 0, 0, 0, 0] 0
          = some (leValue ((List.drop (0 + 1)
              ([0xFC, 0x34, 0x12, 0, 0, 0, 0, 0, 0] : Bytes)).take 8), 0 + 9)) :=
  ⟨by decide, decode_lenenc_adv_itr_cases _ 0 (by decide)⟩

theorem toNat_ofNat_byte (n : Nat) : (UInt8.ofNat n).toNat = n % 256 := by
  simp [UInt8.ofNat, UInt8.toNat]

theorem leValue_le3 (n : Nat) : leValue (little_endian_to_vbytes n 3 0) = n % 2 ^ 24 := by
  have h3 : List.range 3 = [0, 1, 2] := by decide
  simp only [little_endian_to_vbytes, h3, List.map, leValue, toNat_ofNat_byte,
    Nat.shiftRight_eq_div_pow]
  norm_num
  omega

theorem length_le_vbytes (v n k : Nat) : (little_endian_to_vbytes v n k).length = n := by
  simp [little_endian_to_vbytes]

theorem add_packet_header_eq (p : Bytes) (s : Nat) :
    _add_packet_header p s
      = little_endian_to_vbytes p.length 3 0 ++ (UInt8.ofNat (s % 256) :: p) := by
  simp [_add_packet_header]

theorem add_packet_header_take3 (p : Bytes) (s : Nat) :
    (_add_packet_header p s).take 3 = little_endian_to_vbytes p.length 3 0 := by
  rw [add_packet_header_eq, List.take_append_of_le_length (by simp [length_le_vbytes])]
  exact List.take_of_length_le (by simp [length_le_vbytes])

theorem uint8_ofNat_toNat (s : UInt8) : UInt8.ofNat (s.toNat % 256) = s := by
  cases s with
  | mk v =>
    apply UInt8.ext
    simp [UInt8.ofNat, UInt8.toNat]
    omega

/-- C2 as stated fails for a payload of `2 ^ 24` bytes: the three length bytes of the
header decode to 0. -/
theorem add_packet_header_length_overflow :
    ¬ leValue ((_add_packet_header (List.replicate (2 ^ 24) 0) 0).take 3)
        = (List.replicate (2 ^ 24) (0 : UInt8)).length := by
  rw [add_packet_header_take3, leValue_le3, List.length_replicate]
  decide

/-- C2, amended. For a payload `p` shorter than `2 ^ 24` bytes and a sequence byte `s`,
`_add_packet_header p s` has length `len p + 4`, its first 3 bytes decode little-endian to
`len p`, its 4th byte is `s`, and the bytes from offset 4 on are `p`. -/
theorem add_packet_header_frame (p : Bytes) (s : UInt8) (h : p.length < 2 ^ 24) :
    (_add_packet_header p s.toNat).length = p.length + 4 ∧
    leValue ((_add_packet_header p s.toNat).take 3) = p.length ∧
    (_add_packet_header p s.toNat)[3]? = some s ∧
    (_add_packet_header p s.toNat).drop 4 = p := by
  refine ⟨?_, ?_, ?_, ?_⟩
  · simp [add_packet_header_eq, length_le_vbytes]; omega
  · rw [add_packet_header_take3, leValue_le3]
    exact Nat.mod_eq_of_lt h
  · rw [add_packet_header_eq, uint8_ofNat_toNat,
      List.getElem?_append_right (by simp [length_le_vbytes])]
    simp [length_le_vbytes]
  · rw [add_packet_header_eq, uint8_ofNat_toNat]
    have : (4 : Nat) = (little_endian_to_vbytes p.length 3 0).length + 1 := by
      simp [length_le_vbytes]
    rw [this, List.drop_append]
    simp

/-- C2 amended, at the COM_QUIT payload `01` with sequence byte 0. -/
theorem add_packet_header_frame_witness :
    ([0x01] : Bytes).length < 2 ^ 24 ∧
    ((_add_packet_header [0x01] (0 : UInt8).toNat).length = ([0x01] : Bytes).length + 4 ∧
      leValue ((_add_packet_header [0x01] (0 : UInt8).toNat).take 3)
        = ([0x01] : Bytes).length ∧
      (_add_packet_header [0x01] (0 : UInt8).toNat)[3]? = some 0 ∧
      (_add_packet_header [0x01] (0 : UInt8).toNat).drop 4 = [0x01]) :=
  ⟨by decide, add_packet_header_frame [0x01] 0 (by decide)⟩

/-- The two cases of `_rcv_bfr_chk`: enough bytes buffered, or one `_read_buffer` call and
a second comparison. -/
theorem rcv_bfr_chk_eq (s : Session) (p_bfr : Bytes) (p_cur_pos p_bytes_needed : Nat) :
    _rcv_bfr_chk s p_bfr p_cur_pos p_bytes_needed =
      if sub64 p_bfr.length p_cur_pos < p_bytes_needed % 2 ^ 64 then
        if sub64 (p_bfr ++ (_read_buffer s).1).length p_cur_pos < p_bytes_needed % 2 ^ 64 then
          (.ERR_PACKET_LENGTH_MISMATCH, p_bfr ++ (_read_buffer s).1,
            (p_bfr ++ (_read_buffer s).1).length, (_read_buffer s).2)
        else
          (.OK, p_bfr ++ (_read_buffer s).1, (p_bfr ++ (_read_buffer s).1).length,
            (_read_buffer s).2)
      else (.OK, p_bfr, p_bfr.length, s) := by
  unfold _rcv_bfr_chk
  by_cases h : sub64 p_bfr.length p_cur_pos < p_bytes_needed % 2 ^ 64
  · simp only [h, if_true]
  · simp only [h, if_false]

/-- C3, the failing input. With 5 bytes buffered, cursor 6 and 24 bytes needed (the call
made by `_read_columns_data` when `_com_query_response` has skipped the metadata byte of
the response `01 00 00 01 01`), `_rcv_bfr_chk` returns `OK` without asking the transport
for more: `5 - 6` wraps around as a `size_t`. -/
theorem rcv_bfr_chk_ok_past_end (s : Session) :
    _rcv_bfr_chk s [1, 0, 0, 1, 1] 6 24 = (.OK, [1, 0, 0, 1, 1], 5, s) := by
  have h : ¬ sub64 ([1, 0, 0, 1, 1] : Bytes).length 6 < 24 % 2 ^ 64 := by decide
  rw [rcv_bfr_chk_eq, if_neg h]
  rfl

/-- While the cursor is inside the buffer, `_rcv_bfr_chk` answers `OK` only with
`p_cur_pos + p_bytes_needed` bytes buffered. -/
theorem rcv_bfr_chk_ok_inside (s : Session) (p_bfr : Bytes) (p_cur_pos p_bytes_needed : Nat)
    (hc : p_cur_pos ≤ p_bfr.length) (hn : p_bytes_needed < 2 ^ 64)
    (hs : (_rcv_bfr_chk s p_bfr p_cur_pos p_bytes_needed).2.1.length < 2 ^ 64)
    (hok : (_rcv_bfr_chk s p_bfr p_cur_pos p_bytes_needed).1 = .OK) :
    p_cur_pos + p_bytes_needed ≤ (_rcv_bfr_chk s p_bfr p_cur_pos p_bytes_needed).2.1.length := by
  have key : ∀ a : Nat, p_cur_pos ≤ a → a < 2 ^ 64 →
      ¬ sub64 a p_cur_pos < p_bytes_needed % 2 ^ 64 → p_cur_pos + p_bytes_needed ≤ a := by
    intro a h1 h2 h3
    unfold sub64 at h3
    omega
  rw [rcv_bfr_chk_eq] at hs hok ⊢
  by_cases h1 : sub64 p_bfr.length p_cur_pos < p_bytes_needed % 2 ^ 64
  · rw [if_pos h1] at hs hok ⊢
    by_cases h2 : sub64 (p_bfr ++ (_read_buffer s).1).length p_cur_pos < p_bytes_needed % 2 ^ 64
    · rw [if_pos h2] at hok
      cases hok
    · rw [if_neg h2] at hs ⊢
      exact key _ (by simp; omega) hs h2
  · rw [if_neg h1] at hs ⊢
    exact key _ hc hs h1

/-! ## Binary rows, text rows, OK and ERR packets at concrete inputs -/

/-- C4. Binary row decoding reads past the buffered bytes: on the first six bytes of a row
packet of one TINY column (declared payload length 3, the value byte not yet received)
`_parse_prepared_exec` reads index 6 of a 6-byte buffer, although the transport has the
missing byte ready. -/
theorem parse_prepared_exec_reads_past_end :
    _parse_prepared_exec protocolEnv 10
        (sessionOn (streamDelivering [[42] ++ eofPacket 2]) 0 true)
        partialBinaryRow 0 [tinyColumn] true
      = .out_of_bounds := by
  decide

/-- C5. With CLIENT_DEPRECATE_EOF negotiated, a complete text result set of one column
whose first row holds a 20-byte field and whose second row holds a 1-byte field is not
decoded: `_com_query_response` returns no rows and leaves `ERR_PACKET_LENGTH_MISMATCH` in
`_last_error`, while the `SELECT 1` response gives the one row mapping `1` to 1. -/
theorem com_query_response_stale_length :
    (fun r => (r.1, r.2._last_error)) <$> _com_query_response protocolEnv 10
        (sessionOn (streamDelivering [twoRowResponse]) 16777216 true) false
      = .ok (.rows [], .ERR_PACKET_LENGTH_MISMATCH) ∧
    (fun r => (r.1, r.2._last_error)) <$> _com_query_response protocolEnv 10
        (sessionOn (streamDelivering [select1Response]) 16777216 true) false
      = .ok (.rows [[(ascii "1", .int 1)]], .OK) := by
  constructor <;> decide

/-- C6. A text row whose only field is the NULL marker `0xFB` is decoded by
`_parse_string_rows` to a row without any entry: the column `a` is not in it. -/
theorem parse_string_rows_null_field_dropped :
    (fun r => r.1) <$> _parse_string_rows protocolEnv 10
        (sessionOn (streamDelivering []) 16777216 true) nullRowPackets 0 [tinyColumn] true
      = .ok [[]] := by
  decide

/-- C7. For the OK packet with affected rows 1, last insert id 42, status flags 2, no
warnings and info text `ab`, `_com_query_response` returns the info `b`: the first byte
of the trailing text is left out. With an empty info text the record is the expected
one. -/
theorem com_query_response_info_first_byte :
    (fun r => r.1) <$> _com_query_response protocolEnv 10
        (sessionOn (streamDelivering [okResponse (ascii "ab")]) 0 true) true
      = .ok (.info { affected_rows := 1, last_insert_id := 42, status_flags := 2,
                     warnings := 0, info := ascii "b" }) ∧
    (fun r => r.1) <$> _com_query_response protocolEnv 10
        (sessionOn (streamDelivering [okResponse []]) 0 true) true
      = .ok (.info { affected_rows := 1, last_insert_id := 42, status_flags := 2,
                     warnings := 0, info := [] }) := by
  constructor <;> decide

/-- C8. For the ERR payload with code 1045, `#28000` and message "Access denied",
`_handle_server_error` decodes the code 1045 and builds a message that ends with
"Access denie": the last byte of the message is not copied, so the message does not
contain "Access denied". -/
theorem handle_server_error_drops_last_byte :
    _handle_server_error errPayload1045 0
      = some (1045, ascii "1045 - SQL State:#28000 - Access denie", 20) ∧
    ¬ (ascii "Access denied" <:+: ascii "1045 - SQL State:#28000 - Access denie") := by
  constructor <;> decide

set_option maxRecDepth 100000 in
/-- C9. After a valid protocol-10 greeting and a reply to the handshake response with
status byte `0xFF`, `connect_db` returns `OK` and `_last_error` is `OK`;
the handshake itself returned `ERR_AUTH_FAILED`, which `_connect` does not look at. The
session is not authenticated and one packet was written. -/
theorem connect_db_auth_failure_returns_ok :
    (fun r => (r.1, r.2._last_error, r.2._authenticated, r.2._stream.written.length)) <$>
        connect_db protocolEnv
          (sessionOn (streamConnecting [greetingV10, accessDeniedReply]) 0 false)
          "127.0.0.1".toList 3306 "test".toList "root".toList "secret".toList
          .AUTH_TYPE_MYSQL_NATIVE false
      = .ok (.OK, .OK, false, 1) ∧
    (fun r => r.1) <$> _server_init_handshake_v10 protocolEnv
        (sessionOn (streamDelivering [accessDeniedReply]) 0 false) greetingV10
      = .ok .ERR_AUTH_FAILED := by
  constructor <;> decide

/-! ## `_connect`: the checks on the greeting packet -/

theorem disconnect_db_authenticated (s : Session) :
    (disconnect_db s)._authenticated = false := by
  unfold disconnect_db is_connected_db
  simp only

theorem connect_poll_loop_frame (n : Nat) (s : Session) :
    (connect_poll_loop n s).2._authenticated = s._authenticated ∧
    (connect_poll_loop n s).2._stream.written = s._stream.written ∧
    (connect_poll_loop n s).2._server_ver_str = s._server_ver_str ∧
    (connect_poll_loop n s).2._server_capabilities = s._server_capabilities := by
  induction n generalizing s with
  | zero => simp [connect_poll_loop]
  | succ n ih =>
    have hw : (s._stream.poll).2.written = s._stream.written := by
      unfold Stream.poll
      split <;> rfl
    unfold connect_poll_loop
    simp only
    split
    · exact ⟨rfl, hw, rfl, rfl⟩
    · split
      · exact ⟨rfl, hw, rfl, rfl⟩
      · obtain ⟨h1, h2, h3, h4⟩ :=
          ih { s with _last_error := s._stream.poll.1, _stream := s._stream.poll.2 }
        exact ⟨h1, h2.trans hw, h3, h4⟩

theorem read_buffer_frame (s : Session) :
    (_read_buffer s).2._authenticated = s._authenticated ∧
    (_read_buffer s).2._stream.written = s._stream.written ∧
    (_read_buffer s).2._server_ver_str = s._server_ver_str ∧
    (_read_buffer s).2._server_capabilities = s._server_capabilities := by
  unfold _read_buffer
  split <;> exact ⟨rfl, rfl, rfl, rfl⟩

theorem connect_to_host_written (st : Stream) :
    st.connect_to_host.2.written = st.written := by
  unfold Stream.connect_to_host
  split <;> rfl

theorem connect_begin_frame (s : Session) :
    (connect_begin s).2._authenticated = false ∧
    (connect_begin s).2._stream.written = (disconnect_db s)._stream.written ∧
    (connect_begin s).2._server_ver_str = (disconnect_db s)._server_ver_str ∧
    (connect_begin s).2._server_capabilities = (disconnect_db s)._server_capabilities :=
  ⟨disconnect_db_authenticated s, connect_to_host_written _, rfl, rfl⟩

/-- Nothing is written, and no member that the greeting is parsed into changes, between
`disconnect_db` and the checks on the greeting. -/
theorem connect_received_frame (s : Session) :
    (connect_received s).2._authenticated = false ∧
    (connect_received s).2._stream.written = (disconnect_db s)._stream.written ∧
    (connect_received s).2._server_ver_str = (disconnect_db s)._server_ver_str ∧
    (connect_received s).2._server_capabilities = (disconnect_db s)._server_capabilities := by
  obtain ⟨a1, a2, a3, a4⟩ := connect_begin_frame s
  obtain ⟨b1, b2, b3, b4⟩ := connect_poll_loop_frame 1000 (connect_begin s).2
  obtain ⟨c1, c2, c3, c4⟩ := read_buffer_frame (connect_poll_loop 1000 (connect_begin s).2).2
  unfold connect_received
  exact ⟨c1.trans (b1.trans a1), c2.trans (b2.trans a2), c3.trans (b3.trans a3),
    c4.trans (b4.trans a4)⟩

/-- Once the connection is established, `_connect` is its greeting checks on what
`_read_buffer` returned. -/
theorem connect_eq_greeting (E : Env) (s : Session)
    (hc : (connect_begin s).1 = .OK)
    (hp : (connect_poll_loop 1000 (connect_begin s).2).1 = none)
    (hs : (connect_poll_loop 1000 (connect_begin s).2).2._stream.connected = true) :
    _connect E s = connect_greeting E (connect_received s).2 (connect_received s).1 := by
  unfold _connect connect_received
  have h1 : connect_begin s = (.OK, (connect_begin s).2) := Prod.ext hc rfl
  have h2 : connect_poll_loop 1000 (connect_begin s).2
      = (none, (connect_poll_loop 1000 (connect_begin s).2).2) := Prod.ext hp rfl
  rw [h1]
  simp only [ne_eq, not_true_eq_false, if_false]
  rw [h2]
  simp only [hs, not_true_eq_false, if_false]

theorem leValue_take3 (g : Bytes) (r0 r1 r2 : Nat) (h0 : byteAt g 0 = some r0)
    (h1 : byteAt g 1 = some r1) (h2 : byteAt g 2 = some r2) :
    leValue (g.take 3) = r0 + 256 * (r1 + 256 * r2) := by
  have := leValue_take_drop g 0 2 r0 h0
  rw [List.drop_zero] at this
  rw [this, leValue_take_drop g 1 1 r1 h1, leValue_take_drop g 2 0 r2 h2, leValue_take_zero,
    Nat.mul_zero, Nat.add_zero]

theorem connect_greeting_version (E : Env) (s : Session) (g : Bytes) (v : Nat)
    (hlen : 4 < g.length) (hpl : leValue (g.take 3) = g.length - 4)
    (hseq : byteAt g 3 = some 0) (hver : byteAt g 4 = some v) (hv : v ≠ 10) :
    connect_greeting E s g
      = .ok (.ERR_PROTOCOL_MISMATCH, { s with _stream_mutex := s._stream_mutex - 1 }) := by
  obtain ⟨r0, hr0, -⟩ := byteAt_exists g 0 (by omega)
  obtain ⟨r1, hr1, -⟩ := byteAt_exists g 1 (by omega)
  obtain ⟨r2, hr2, -⟩ := byteAt_exists g 2 (by omega)
  have hle := leValue_take3 g r0 r1 r2 hr0 hr1 hr2
  have hp : (r0 + (r1 <<< 8) + (r2 <<< 16)) % 2 ^ 32
      = sub64 (g.length % 2 ^ 32) 4 % 2 ^ 32 := by
    simp only [Nat.shiftLeft_eq, sub64]
    omega
  have hg : ¬ g.length ≤ 4 := by omega
  unfold connect_greeting
  rw [if_neg hg, hr0, hr1, hr2, hseq, hver]
  simp only [Run.ofOption, bind, Run.bind, pure, hp, ne_eq, not_true_eq_false, if_false, hv]

theorem connect_greeting_length (E : Env) (s : Session) (g : Bytes)
    (hlen : 4 < g.length) (hbig : g.length < 2 ^ 32)
    (hpl : leValue (g.take 3) ≠ g.length - 4) :
    connect_greeting E s g
      = .ok (.ERR_PACKET_LENGTH_MISMATCH,
          { s with _stream_mutex := s._stream_mutex - 1 }) := by
  obtain ⟨r0, hr0, -⟩ := byteAt_exists g 0 (by omega)
  obtain ⟨r1, hr1, -⟩ := byteAt_exists g 1 (by omega)
  obtain ⟨r2, hr2, -⟩ := byteAt_exists g 2 (by omega)
  have hle := leValue_take3 g r0 r1 r2 hr0 hr1 hr2
  have b0 := byteAt_lt g 0 r0 hr0
  have b1 := byteAt_lt g 1 r1 hr1
  have b2 := byteAt_lt g 2 r2 hr2
  have hp : (r0 + (r1 <<< 8) + (r2 <<< 16)) % 2 ^ 32
      ≠ sub64 (g.length % 2 ^ 32) 4 % 2 ^ 32 := by
    simp only [Nat.shiftLeft_eq, sub64]
    omega
  have hg : ¬ g.length ≤ 4 := by omega
  unfold connect_greeting
  rw [if_neg hg, hr0, hr1, hr2]
  simp only [Run.ofOption, bind, Run.bind, pure, hp, ne_eq, not_false_eq_true, if_true]

theorem connect_greeting_sequence (E : Env) (s : Session) (g : Bytes) (q : Nat)
    (hlen : 4 < g.length)
    (hpl : leValue (g.take 3) % 2 ^ 32 = sub64 (g.length % 2 ^ 32) 4 % 2 ^ 32)
    (hseq : byteAt g 3 = some q) (hq : q ≠ 0) :
    connect_greeting E s g
      = .ok (.ERR_SEQUENCE_MISMATCH, { s with _stream_mutex := s._stream_mutex - 1 }) := by
  obtain ⟨r0, hr0, -⟩ := byteAt_exists g 0 (by omega)
  obtain ⟨r1, hr1, -⟩ := byteAt_exists g 1 (by omega)
  obtain ⟨r2, hr2, -⟩ := byteAt_exists g 2 (by omega)
  have hle := leValue_take3 g r0 r1 r2 hr0 hr1 hr2
  have hp : (r0 + (r1 <<< 8) + (r2 <<< 16)) % 2 ^ 32
      = sub64 (g.length % 2 ^ 32) 4 % 2 ^ 32 := by
    rw [← hpl, hle]
    simp only [Nat.shiftLeft_eq]
    omega
  have hg : ¬ g.length ≤ 4 := by omega
  unfold connect_greeting
  rw [if_neg hg, hr0, hr1, hr2, hseq]
  simp only [Run.ofOption, bind, Run.bind, pure, hp, ne_eq, not_true_eq_false, if_false, hq,
    not_false_eq_true, if_true]

theorem paddedGreeting_length (n : Nat) : (paddedGreeting n).length = n + 4 := by
  simp [paddedGreeting]

theorem paddedGreeting_declared (n : Nat) : leValue ((paddedGreeting n).take 3) = 5 := by
  simp [paddedGreeting, leValue]

theorem paddedGreeting_sequence (n : Nat) : byteAt (paddedGreeting n) 3 = some 1 := by
  simp [paddedGreeting, byteAt]

theorem connect_received_greeted (g : Bytes) : (connect_received (sessionGreeted g)).1 = g :=
  rfl

theorem connect_greeted (E : Env) (g : Bytes) :
    _connect E (sessionGreeted g)
      = connect_greeting E (connect_received (sessionGreeted g)).2 g :=
  connect_eq_greeting E (sessionGreeted g) rfl rfl rfl

/-- C10. When the connection gets established and the buffer that `_connect` receives has
more than 4 bytes, a declared length equal to its length minus 4, sequence byte 0 and a
protocol-version byte `v` other than 10, `_connect` returns `ERR_PROTOCOL_MISMATCH` and
only releases the mutex: the session is not authenticated and nothing has been handed to
`put_data` since `disconnect_db`. -/
theorem connect_protocol_mismatch (E : Env) (s : Session) (v : Nat)
    (hc : (connect_begin s).1 = .OK)
    (hp : (connect_poll_loop 1000 (connect_begin s).2).1 = none)
    (hs : (connect_poll_loop 1000 (connect_begin s).2).2._stream.connected = true)
    (hlen : 4 < (connect_received s).1.length ∧
      leValue ((connect_received s).1.take 3) = (connect_received s).1.length - 4)
    (hseq : byteAt (connect_received s).1 3 = some 0)
    (hver : byteAt (connect_received s).1 4 = some v ∧ v ≠ 10) :
    _connect E s
      = .ok (.ERR_PROTOCOL_MISMATCH,
          { (connect_received s).2 with
            _stream_mutex := (connect_received s).2._stream_mutex - 1 }) ∧
    (connect_received s).2._authenticated = false ∧
    (connect_received s).2._stream.written = (disconnect_db s)._stream.written := by
  obtain ⟨f1, f2, -, -⟩ := connect_received_frame s
  refine ⟨?_, f1, f2⟩
  rw [connect_eq_greeting E s hc hp hs]
  exact connect_greeting_version E _ _ v hlen.1 hlen.2 hseq hver.1 hver.2

/-- C10, for a fresh session whose server greets with protocol version 9. -/
theorem connect_protocol_mismatch_witness :
    ((connect_begin (sessionGreeted greetingV9)).1 = .OK ∧
      (connect_poll_loop 1000 (connect_begin (sessionGreeted greetingV9)).2).1 = none ∧
      (connect_poll_loop 1000
        (connect_begin (sessionGreeted greetingV9)).2).2._stream.connected = true ∧
      (4 < (connect_received (sessionGreeted greetingV9)).1.length ∧
        leValue ((connect_received (sessionGreeted greetingV9)).1.take 3)
          = (connect_received (sessionGreeted greetingV9)).1.length - 4) ∧
      byteAt (connect_received (sessionGreeted greetingV9)).1 3 = some 0 ∧
      (byteAt (connect_received (sessionGreeted greetingV9)).1 4 = some 9 ∧ 9 ≠ 10)) ∧
    (_connect protocolEnv (sessionGreeted greetingV9)
      = .ok (.ERR_PROTOCOL_MISMATCH,
          { (connect_received (sessionGreeted greetingV9)).2 with
            _stream_mutex :=
              (connect_received (sessionGreeted greetingV9)).2._stream_mutex - 1 }) ∧
      (connect_received (sessionGreeted greetingV9)).2._authenticated = false ∧
      (connect_received (sessionGreeted greetingV9)).2._stream.written
        = (disconnect_db (sessionGreeted greetingV9))._stream.written) :=
  ⟨by decide,
    connect_protocol_mismatch protocolEnv (sessionGreeted greetingV9) 9 (by decide)
      (by decide) (by decide) (by decide) (by decide) (by decide)⟩

/-- C11, counterexample. A first buffer of `2 ^ 32 + 9` bytes whose header declares 5
payload bytes and carries sequence number 1: the declared length differs from the buffer
length minus 4, yet `_connect` returns `ERR_SEQUENCE_MISMATCH`, because the buffer length
is cut to 32 bits before 4 is subtracted. -/
theorem connect_length_check_wraps :
    leValue ((paddedGreeting (2 ^ 32 + 5)).take 3) ≠ (paddedGreeting (2 ^ 32 + 5)).length - 4 ∧
    _connect protocolEnv (sessionGreeted (paddedGreeting (2 ^ 32 + 5)))
      = .ok (.ERR_SEQUENCE_MISMATCH,
          { (connect_received (sessionGreeted (paddedGreeting (2 ^ 32 + 5)))).2 with
            _stream_mutex :=
              (connect_received
                (sessionGreeted (paddedGreeting (2 ^ 32 + 5)))).2._stream_mutex - 1 }) := by
  have hl := paddedGreeting_declared (2 ^ 32 + 5)
  have hn := paddedGreeting_length (2 ^ 32 + 5)
  refine ⟨by rw [hl, hn]; omega, ?_⟩
  rw [connect_greeted]
  refine connect_greeting_sequence protocolEnv _ _ 1 (by rw [hn]; omega) ?_
    (paddedGreeting_sequence _) (by decide)
  rw [hl, hn]
  decide

/-- C11, amended. When the connection gets established and the buffer that `_connect`
receives has more than 4 and fewer than `2 ^ 32` bytes: if its declared length differs
from its length minus 4, `_connect` returns `ERR_PACKET_LENGTH_MISMATCH`; otherwise, if
its byte 3 is not 0, `_connect` returns `ERR_SEQUENCE_MISMATCH`. In both cases it only
releases the mutex: nothing has been handed to `put_data` since `disconnect_db`, and the
server version string and the server capabilities are as `disconnect_db` left them. -/
theorem connect_greeting_rejected (E : Env) (s : Session)
    (hc : (connect_begin s).1 = .OK)
    (hp : (connect_poll_loop 1000 (connect_begin s).2).1 = none)
    (hs : (connect_poll_loop 1000 (connect_begin s).2).2._stream.connected = true)
    (hlen : 4 < (connect_received s).1.length ∧ (connect_received s).1.length < 2 ^ 32) :
    (leValue ((connect_received s).1.take 3) ≠ (connect_received s).1.length - 4 →
      _connect E s
        = .ok (.ERR_PACKET_LENGTH_MISMATCH,
            { (connect_received s).2 with
              _stream_mutex := (connect_received s).2._stream_mutex - 1 })) ∧
    (leValue ((connect_received s).1.take 3) = (connect_received s).1.length - 4 →
      ∀ q, byteAt (connect_received s).1 3 = some q → q ≠ 0 →
      _connect E s
        = .ok (.ERR_SEQUENCE_MISMATCH,
            { (connect_received s).2 with
              _stream_mutex := (connect_received s).2._stream_mutex - 1 })) ∧
    (connect_received s).2._stream.written = (disconnect_db s)._stream.written ∧
    (connect_received s).2._server_ver_str = (disconnect_db s)._server_ver_str ∧
    (connect_received s).2._server_capabilities = (disconnect_db s)._server_capabilities := by
  obtain ⟨-, f2, f3, f4⟩ := connect_received_frame s
  refine ⟨?_, ?_, f2, f3, f4⟩
  · intro hne
    rw [connect_eq_greeting E s hc hp hs]
    exact connect_greeting_length E _ _ hlen.1 hlen.2 hne
  · intro heq q hq hq0
    rw [connect_eq_greeting E s hc hp hs]
    refine connect_greeting_sequence E _ _ q hlen.1 ?_ hq hq0
    rw [heq]
    simp only [sub64]
    omega

/-- C11, amended, for a fresh session whose server sends the 5-byte buffer
`02 00 00 00 09` (declared length 2, one payload byte). -/
theorem connect_greeting_rejected_witness :
    ((connect_begin (sessionGreeted [2, 0, 0, 0, 9])).1 = .OK ∧
      (connect_poll_loop 1000 (connect_begin (sessionGreeted [2, 0, 0, 0, 9])).2).1 = none ∧
      (connect_poll_loop 1000
        (connect_begin (sessionGreeted [2, 0, 0, 0, 9])).2).2._stream.connected = true ∧
      (4 < (connect_received (sessionGreeted [2, 0, 0, 0, 9])).1.length ∧
        (connect_received (sessionGreeted [2, 0, 0, 0, 9])).1.length < 2 ^ 32) ∧
      leValue ((connect_received (sessionGreeted [2, 0, 0, 0, 9])).1.take 3)
        ≠ (connect_received (sessionGreeted [2, 0, 0, 0, 9])).1.length - 4) ∧
    _connect protocolEnv (sessionGreeted [2, 0, 0, 0, 9])
      = .ok (.ERR_PACKET_LENGTH_MISMATCH,
          { (connect_received (sessionGreeted [2, 0, 0, 0, 9])).2 with
            _stream_mutex :=
              (connect_received (sessionGreeted [2, 0, 0, 0, 9])).2._stream_mutex - 1 }) :=
  ⟨by decide,
    (connect_greeting_rejected protocolEnv (sessionGreeted [2, 0, 0, 0, 9]) (by decide)
      (by decide) (by decide) (by decide)).1 (by decide)⟩

/-! ## The native-password token -/

theorem resized_length (n : Nat) (bs : Bytes) : (resized n bs).length = n := by
  simp [resized]

theorem sha1_length (E : Env) (d : Bytes) : (_sha1 E d).length = 20 :=
  resized_length 20 _

theorem resized_getD (n i : Nat) (bs : Bytes) (h : i < n) :
    (resized n bs).getD i 0 = bs.getD i 0 := by
  unfold resized
  rw [List.getD_eq_getElem?_getD, List.getD_eq_getElem?_getD, List.getElem?_map,
    List.getElem?_range h]
  rfl

theorem resized_of_length (n : Nat) (bs : Bytes) (h : bs.length = n) : resized n bs = bs := by
  apply List.ext_getElem?
  intro i
  unfold resized
  rw [List.getElem?_map]
  by_cases hi : i < n
  · have hb : i < bs.length := by omega
    rw [List.getElem?_range hi]
    simp [List.getElem?_eq_getElem hb]
  · rw [List.getElem?_eq_none (by simp; omega), List.getElem?_eq_none (by omega)]
    rfl

theorem readBytes_zero (l : Bytes) (n : Nat) (h : n ≤ l.length) :
    readBytes l 0 n = some (l.take n) := by
  simp [readBytes, h]

theorem native_password_hash_eq (E : Env) (H salt : Bytes) (hH : 20 ≤ H.length)
    (hs : 20 ≤ salt.length) :
    get_mysql_native_password_hash E H salt
      = some (List.zipWith (fun a b => a ^^^ b) (H.take 20)
          (_sha1 E (salt.take 20 ++ _sha1 E H))) := by
  have h1 : (_sha1 E H).take 20 = _sha1 E H :=
    List.take_of_length_le (by rw [sha1_length])
  have h2 : (_sha1 E (salt.take 20 ++ _sha1 E H)).take 20
      = _sha1 E (salt.take 20 ++ _sha1 E H) :=
    List.take_of_length_le (by rw [sha1_length])
  have r1 := readBytes_zero (_sha1 E H) 20 (by rw [sha1_length])
  have r2 := readBytes_zero (_sha1 E (salt.take 20 ++ _sha1 E H)) 20 (by rw [sha1_length])
  rw [h1] at r1
  rw [h2] at r2
  unfold get_mysql_native_password_hash
  simp only [readBytes_zero salt 20 hs, readBytes_zero H 20 hH, r1, r2, Option.bind_eq_bind,
    Option.some_bind, Option.pure_def]

/-- C12. For a password hash `H` and a salt of at least 20 bytes each, SHA1 being the digest
function `E.sha1` of the library: `get_mysql_native_password_hash` returns 20 bytes, byte
`i` being `H[i] XOR SHA1(salt[0..20] ++ D)[i]`, where `D` is the 20-byte array into which
`_sha1` has had the digest of `H` written; when that digest has 20 bytes, as a SHA-1 digest
has, `D` is `SHA1(H)` and byte `i` is `H[i] XOR SHA1(salt[0..20] ++ SHA1(H))[i]`. A salt
with the same first 20 bytes gives the same token. -/
theorem native_password_hash_token (E : Env) (H salt : Bytes) (hH : 20 ≤ H.length)
    (hs : 20 ≤ salt.length) :
    ∃ token, get_mysql_native_password_hash E H salt = some token ∧
      token.length = 20 ∧
      (∀ i, i < 20 →
        token.getD i 0
          = H.getD i 0 ^^^ (E.sha1 (salt.take 20 ++ resized 20 (E.sha1 H))).getD i 0) ∧
      ((E.sha1 H).length = 20 → ∀ i, i < 20 →
        token.getD i 0 = H.getD i 0 ^^^ (E.sha1 (salt.take 20 ++ E.sha1 H)).getD i 0) ∧
      (∀ salt2 : Bytes, 20 ≤ salt2.length → salt2.take 20 = salt.take 20 →
        get_mysql_native_password_hash E H salt2 = some token) := by
  have key : ∀ i, i < 20 →
      (List.zipWith (fun a b => a ^^^ b) (H.take 20)
          (_sha1 E (salt.take 20 ++ _sha1 E H))).getD i 0
        = H.getD i 0 ^^^ (E.sha1 (salt.take 20 ++ resized 20 (E.sha1 H))).getD i 0 := by
    intro i hi
    have l1 : i < (H.take 20).length := by rw [List.length_take]; omega
    have l2 : i < (_sha1 E (salt.take 20 ++ _sha1 E H)).length := by rw [sha1_length]; omega
    have l3 : i < H.length := by omega
    have hout : (_sha1 E (salt.take 20 ++ _sha1 E H)).getD i 0
        = (E.sha1 (salt.take 20 ++ resized 20 (E.sha1 H))).getD i 0 := resized_getD 20 i _ hi
    rw [← hout]
    rw [List.getD_eq_getElem?_getD, List.getD_eq_getElem?_getD, List.getD_eq_getElem?_getD,
      List.getElem?_zipWith, List.getElem?_eq_getElem l1, List.getElem?_eq_getElem l2,
      List.getElem?_eq_getElem l3, List.getElem_take]
    rfl
  refine ⟨_, native_password_hash_eq E H salt hH hs, ?_, key, ?_, ?_⟩
  · rw [List.length_zipWith, List.length_take, sha1_length]
    omega
  · intro hsha i hi
    rw [key i hi, resized_of_length 20 _ hsha]
  · intro salt2 h2 heq
    rw [native_password_hash_eq E H salt2 hH h2, heq]

/-- C12, for the 20-byte hash `01 02 .. 14`, a 21-byte salt and the digest stand-in of
`digestEnv`, which gives 20 bytes that depend on every byte of its data: the token is not
the hash itself. -/
theorem native_password_hash_token_witness :
    (20 ≤ (List.map UInt8.ofNat (List.range' 1 20)).length ∧
      20 ≤ (List.replicate 21 (7 : UInt8)).length) ∧
    (∃ token, get_mysql_native_password_hash digestEnv
        (List.map UInt8.ofNat (List.range' 1 20)) (List.replicate 21 7) = some token ∧
      token.length = 20 ∧
      (∀ i, i < 20 →
        token.getD i 0 = (List.map UInt8.ofNat (List.range' 1 20)).getD i 0 ^^^
          (digestEnv.sha1 ((List.replicate 21 (7 : UInt8)).take 20 ++
            resized 20 (digestEnv.sha1 (List.map UInt8.ofNat (List.range' 1 20))))).getD i
              0) ∧
      ((digestEnv.sha1 (List.map UInt8.ofNat (List.range' 1 20))).length = 20 →
        ∀ i, i < 20 →
        token.getD i 0 = (List.map UInt8.ofNat (List.range' 1 20)).getD i 0 ^^^
          (digestEnv.sha1 ((List.replicate 21 (7 : UInt8)).take 20 ++
            digestEnv.sha1 (List.map UInt8.ofNat (List.range' 1 20)))).getD i 0) ∧
      (∀ salt2 : Bytes, 20 ≤ salt2.length →
        salt2.take 20 = (List.replicate 21 (7 : UInt8)).take 20 →
        get_mysql_native_password_hash digestEnv
          (List.map UInt8.ofNat (List.range' 1 20)) salt2 = some token)) ∧
    (digestEnv.sha1 (List.map UInt8.ofNat (List.range' 1 20))).length = 20 ∧
    get_mysql_native_password_hash digestEnv
        (List.map UInt8.ofNat (List.range' 1 20)) (List.replicate 21 7)
      = some [179, 177, 183, 177, 179, 177, 191, 177, 179, 177, 183, 177, 179, 177, 207, 209,
          211, 209, 215, 209] :=
  ⟨by decide,
    native_password_hash_token digestEnv (List.map UInt8.ofNat (List.range' 1 20))
      (List.replicate 21 7) (by decide) (by decide),
    by decide, by decide⟩

/-! ## The NULL sentinel and the length prefix of string parameters -/

/-- C15, counterexample. The marker `0xFE` followed by eight bytes `0xFF` is not the NULL
marker, and `_decode_lenenc_adv_itr` returns the sentinel `2 ^ 64 - 1` for it. -/
theorem decode_lenenc_sentinel_collision :
    byteAt [0xFE, 0xFF, 0xFF, 0xFF, 0xFF, 0xFF, 0xFF, 0xFF, 0xFF] 0 ≠ some 0xFB ∧
    _decode_lenenc_adv_itr [0xFE, 0xFF, 0xFF, 0xFF, 0xFF, 0xFF, 0xFF, 0xFF, 0xFF] 0
      = some (UINT64_MAX, 9) := by
  constructor <;> decide

theorem leValue_lt (l : Bytes) : leValue l < 256 ^ l.length := by
  induction l with
  | nil => simp [leValue]
  | cons b bs ih =>
    have hb := b.toNat_lt
    rw [leValue, List.length_cons, pow_succ]
    omega

theorem readLE_eq_leValue (p_src : Bytes) (n idx v : Nat) (h : readLE p_src idx n = some v) :
    v = leValue ((p_src.drop idx).take n) := by
  induction n generalizing idx v with
  | zero =>
    simp only [readLE, Option.some.injEq] at h
    rw [← h, List.take_zero]
    rfl
  | succ n ih =>
    unfold readLE at h
    cases hb : byteAt p_src idx with
    | none => rw [hb] at h; cases h
    | some b =>
      rw [hb] at h
      cases hr : readLE p_src (idx + 1) n with
      | none => rw [hr] at h; cases h
      | some r =>
        rw [hr] at h
        simp only [Option.bind_eq_bind, Option.some_bind, Option.pure_def,
          Option.some.injEq] at h
        rw [leValue_take_drop p_src idx n b hb, ← ih (idx + 1) r hr, ← h]

theorem leValue_eq_max_iff (l : Bytes) :
    leValue l = 256 ^ l.length - 1 ↔ l = List.replicate l.length 0xFF := by
  induction l with
  | nil => simp [leValue]
  | cons b bs ih =>
    have hb := b.toNat_lt
    have hl := leValue_lt bs
    have hp : 0 < 256 ^ bs.length := by positivity
    rw [leValue, List.length_cons, pow_succ, List.replicate_succ, List.cons.injEq, ← ih]
    constructor
    · intro h
      have h1 : b.toNat = 255 := by omega
      refine ⟨?_, by omega⟩
      rw [← uint8_ofNat_toNat b, h1]
      rfl
    · rintro ⟨h1, h2⟩
      rw [h1, h2]
      have : (0xFF : UInt8).toNat = 255 := rfl
      rw [this]
      omega

theorem decode_FE_value (p_buf : Bytes) (idx v idx2 : Nat)
    (hm : byteAt p_buf idx = some 0xFE)
    (hd : _decode_lenenc_adv_itr p_buf idx = some (v, idx2)) :
    v = leValue ((p_buf.drop (idx + 1)).take 8) ∧ idx + 8 < p_buf.length := by
  have hd2 := hd
  simp only [_decode_lenenc_adv_itr, hm, Option.bind_eq_bind, Option.some_bind,
    Nat.reduceLT, Nat.reduceEqDiff, if_false, if_true, Option.bind_eq_some,
    Option.pure_def, Option.some.injEq, Prod.mk.injEq] at hd2
  obtain ⟨b0, h0, b1, h1, b2, h2, b3, h3, b4, h4, b5, h5, b6, h6, b7, h7, -, -⟩ := hd2
  simp only [Nat.add_assoc, Nat.reduceAdd] at h1 h2 h3 h4 h5 h6 h7
  rw [decode_FE p_buf idx b0 b1 b2 b3 b4 b5 b6 b7 hm h0 h1 h2 h3 h4 h5 h6 h7] at hd
  simp only [Option.some.injEq, Prod.mk.injEq] at hd
  refine ⟨?_, byteAt_bound p_buf _ _ h7⟩
  rw [leValue_take_drop p_buf (idx + 1) 7 b0 h0, leValue_take_drop p_buf (idx + 2) 6 b1 h1,
    leValue_take_drop p_buf (idx + 3) 5 b2 h2, leValue_take_drop p_buf (idx + 4) 4 b3 h3,
    leValue_take_drop p_buf (idx + 5) 3 b4 h4, leValue_take_drop p_buf (idx + 6) 2 b5 h5,
    leValue_take_drop p_buf (idx + 7) 1 b6 h6, leValue_take_drop p_buf (idx + 8) 0 b7 h7,
    leValue_take_zero, ← hd.1, Nat.mul_zero, Nat.add_zero]

/-- C15, amended. When the marker byte at the cursor is neither `0xFB` nor `0xFE`, the
value that `_decode_lenenc_adv_itr` returns is below `2 ^ 24`, hence below the sentinel;
for the marker `0xFE` it is the little-endian value of the next eight bytes, so it is the
sentinel exactly when these eight bytes are all `0xFF`. -/
theorem decode_lenenc_below_sentinel (p_buf : Bytes) (idx marker v idx2 : Nat)
    (hm : byteAt p_buf idx = some marker)
    (hd : _decode_lenenc_adv_itr p_buf idx = some (v, idx2)) :
    (marker ≠ 0xFB → marker ≠ 0xFE → v < 2 ^ 24 ∧ v < UINT64_MAX) ∧
    (marker = 0xFE →
      v = leValue ((p_buf.drop (idx + 1)).take 8) ∧
      (v = UINT64_MAX ↔ (p_buf.drop (idx + 1)).take 8 = List.replicate 8 0xFF)) := by
  have hlt := byteAt_lt p_buf idx marker hm
  constructor
  · intro hb he
    have hv : v < 2 ^ 24 := by
      by_cases h1 : marker < 0xFB
      · rw [decode_small p_buf idx marker hm h1] at hd
        simp only [Option.some.injEq, Prod.mk.injEq] at hd
        omega
      · by_cases h2 : marker = 0xFC
        · subst h2
          have hd2 := hd
          simp only [_decode_lenenc_adv_itr, hm, Option.bind_eq_bind, Option.some_bind,
            Nat.reduceLT, Nat.reduceEqDiff, if_false, if_true, Option.bind_eq_some,
            Option.pure_def, Option.some.injEq, Prod.mk.injEq] at hd2
          obtain ⟨a, ha, b, hb2, -, -⟩ := hd2
          simp only [Nat.add_assoc, Nat.reduceAdd] at hb2
          rw [decode_FC p_buf idx a b hm ha hb2] at hd
          simp only [Option.some.injEq, Prod.mk.injEq] at hd
          have := byteAt_lt _ _ _ ha
          have := byteAt_lt _ _ _ hb2
          omega
        · by_cases h3 : marker = 0xFD
          · subst h3
            have hd2 := hd
            simp only [_decode_lenenc_adv_itr, hm, Option.bind_eq_bind, Option.some_bind,
              Nat.reduceLT, Nat.reduceEqDiff, if_false, if_true, Option.bind_eq_some,
              Option.pure_def, Option.some.injEq, Prod.mk.injEq] at hd2
            obtain ⟨a, ha, b, hb2, c, hc, -, -⟩ := hd2
            simp only [Nat.add_assoc, Nat.reduceAdd] at hb2 hc
            rw [decode_FD p_buf idx a b c hm ha hb2 hc] at hd
            simp only [Option.some.injEq, Prod.mk.injEq] at hd
            have := byteAt_lt _ _ _ ha
            have := byteAt_lt _ _ _ hb2
            have := byteAt_lt _ _ _ hc
            omega
          · have h4 : marker = 0xFF := by omega
            subst h4
            rw [decode_FF p_buf idx hm] at hd
            simp only [Option.some.injEq, Prod.mk.injEq] at hd
            omega
    refine ⟨hv, ?_⟩
    unfold UINT64_MAX
    omega
  · intro he
    subst he
    obtain ⟨hv, hl⟩ := decode_FE_value p_buf idx v idx2 hm hd
    refine ⟨hv, ?_⟩
    have hlen : ((p_buf.drop (idx + 1)).take 8).length = 8 := by
      rw [List.length_take, List.length_drop]
      omega
    have key := leValue_eq_max_iff ((p_buf.drop (idx + 1)).take 8)
    rw [hlen] at key
    rw [hv]
    exact key

/-- C15, amended, at the buffer `FC 34 12` and cursor 0. -/
theorem decode_lenenc_below_sentinel_witness :
    (byteAt [0xFC, 0x34, 0x12] 0 = some 0xFC ∧
      _decode_lenenc_adv_itr [0xFC, 0x34, 0x12] 0 = some (0x1234, 3)) ∧
    ((0xFC ≠ 0xFB → 0xFC ≠ 0xFE → 0x1234 < 2 ^ 24 ∧ 0x1234 < UINT64_MAX) ∧
      (0xFC = 0xFE →
        0x1234 = leValue ((([0xFC, 0x34, 0x12] : Bytes).drop (0 + 1)).take 8) ∧
        (0x1234 = UINT64_MAX ↔
          (([0xFC, 0x34, 0x12] : Bytes).drop (0 + 1)).take 8 = List.replicate 8 0xFF))) :=
  ⟨by decide,
    decode_lenenc_below_sentinel [0xFC, 0x34, 0x12] 0 0xFC 0x1234 3 (by decide) (by decide)⟩

theorem byteAt_cons_zero (b : UInt8) (l : Bytes) : byteAt (b :: l) 0 = some b.toNat := by
  simp [byteAt]

theorem byteAt_cons_succ (b : UInt8) (l : Bytes) (i : Nat) :
    byteAt (b :: l) (i + 1) = byteAt l i := by
  simp [byteAt]

/-- Below `2 ^ 16` the length prefix of a string parameter decodes to the length, with the
cursor left on the first byte after the prefix. -/
theorem string_length_code_round_trip (len : Nat) (rest : Bytes) (h : len < 2 ^ 16) :
    _decode_lenenc_adv_itr (string_length_code len ++ rest) 0
      = some (len, (string_length_code len).length) := by
  unfold string_length_code
  by_cases h1 : len < 251
  · rw [if_pos h1]
    have hm : byteAt ([UInt8.ofNat len] ++ rest) 0 = some len := by
      rw [List.singleton_append, byteAt_cons_zero, toNat_ofNat_byte]
      congr 1
      omega
    rw [decode_small _ 0 len hm h1]
    rfl
  · rw [if_neg h1]
    have e1 : len &&& 0xFF = len % 256 := Nat.and_pow_two_sub_one_eq_mod len 8
    have e2 : (len >>> 8) &&& 0xFF = (len / 256) % 256 := by
      rw [Nat.and_pow_two_sub_one_eq_mod _ 8, Nat.shiftRight_eq_div_pow]
    have hm : byteAt ([0xFC, UInt8.ofNat (len &&& 0xFF), UInt8.ofNat ((len >>> 8) &&& 0xFF)]
        ++ rest) 0 = some 0xFC := rfl
    have ha : byteAt ([0xFC, UInt8.ofNat (len &&& 0xFF), UInt8.ofNat ((len >>> 8) &&& 0xFF)]
        ++ rest) (0 + 1) = some (len % 256) := by
      simp only [List.cons_append, Nat.zero_add]
      rw [byteAt_cons_succ, byteAt_cons_zero, toNat_ofNat_byte, e1]
      congr 1
      omega
    have hb : byteAt ([0xFC, UInt8.ofNat (len &&& 0xFF), UInt8.ofNat ((len >>> 8) &&& 0xFF)]
        ++ rest) (0 + 2) = some (len / 256 % 256) := by
      simp only [List.cons_append, Nat.zero_add]
      rw [byteAt_cons_succ, byteAt_cons_succ, byteAt_cons_zero, toNat_ofNat_byte, e2]
      congr 1
      omega
    rw [decode_FC _ 0 _ _ hm ha hb]
    simp only [List.length_cons, List.length_nil, Option.some.injEq, Prod.mk.injEq, and_true]
    omega

theorem string_length_code_65536 (rest : Bytes) :
    _decode_lenenc_adv_itr (string_length_code 65536 ++ rest) 0 = some (0, 3) := by
  have hp : string_length_code 65536 = [0xFC, 0, 0] := by decide
  rw [hp]
  have h1 : byteAt ([0xFC, 0, 0] ++ rest) (0 + 1) = some 0 := by simp [byteAt]
  have h2 : byteAt ([0xFC, 0, 0] ++ rest) (0 + 2) = some 0 := by simp [byteAt]
  exact decode_FC _ 0 0 0 rfl h1 h2

/-- C16. For a string parameter of 65536 bytes the length prefix that
`_prepared_params_send` emits is `FC 00 00`, which `_decode_lenenc_adv_itr` decodes to 0
and not to 65536: only the low 16 bits of the length are written. -/
theorem string_length_code_truncated :
    string_length_code (List.replicate 65536 (0x61 : UInt8)).length = [0xFC, 0, 0] ∧
    _decode_lenenc_adv_itr
        (string_length_code (List.replicate 65536 (0x61 : UInt8)).length ++
          List.replicate 65536 0x61) 0
      = some (0, 3) := by
  rw [List.length_replicate]
  exact ⟨by decide, string_length_code_65536 _⟩

/-! ## `connect_db`: the stored password hash -/

/-- C13. With any digests `sha1` and `sha512`: a connector that held `AUTH_TYPE_ED25519`
and is asked to connect with `AUTH_TYPE_MYSQL_NATIVE` and the password `secret` stores the
SHA-512 digest, and a connector that held `AUTH_TYPE_MYSQL_NATIVE` and is asked for
`AUTH_TYPE_ED25519` stores the SHA-1 digest: `_hash_password` runs before the requested
type is assigned. With `AUTH_TYPE_ED25519` held and requested, the password `é` (one
character, two bytes) is hashed from its first byte only. -/
theorem connect_db_hash_follows_previous_auth_type (sha1 sha512 : Bytes → Bytes) :
    (connect_db_args { protocolEnv with sha1 := sha1, sha512 := sha512 }
        { sessionOn (streamConnecting []) 0 false with _client_auth_type := .AUTH_TYPE_ED25519 }
        "127.0.0.1".toList 3306 "test".toList "root".toList "secret".toList
        .AUTH_TYPE_MYSQL_NATIVE false).2._password_hashed
      = sha512 (ascii "secret") ∧
    (connect_db_args { protocolEnv with sha1 := sha1, sha512 := sha512 }
        { sessionOn (streamConnecting []) 0 false with
          _client_auth_type := .AUTH_TYPE_MYSQL_NATIVE }
        "127.0.0.1".toList 3306 "test".toList "root".toList "secret".toList
        .AUTH_TYPE_ED25519 false).2._password_hashed
      = sha1 (ascii "secret") ∧
    (connect_db_args { protocolEnv with sha1 := sha1, sha512 := sha512 }
        { sessionOn (streamConnecting []) 0 false with _client_auth_type := .AUTH_TYPE_ED25519 }
        "127.0.0.1".toList 3306 "test".toList "root".toList "é".toList
        .AUTH_TYPE_ED25519 false).2._password_hashed
      = sha512 [0xC3] ∧
    to_utf8_buffer "é".toList = [0xC3, 0xA9] := by
  refine ⟨?_, ?_, ?_, ?_⟩
  · rfl
  · rfl
  · rfl
  · decide

/-- The number of hexadecimal digits that `connect_db` asks of a pre-hashed password. -/
theorem is_valid_hex_iff (p_string : List Char) (n : Nat) (hn : 0 < n) :
    is_valid_hex p_string n = true ↔
      p_string.length = n ∧
        ∀ c ∈ p_string, ('0' ≤ c ∧ c ≤ '9') ∨ ('A' ≤ c ∧ c ≤ 'F') ∨ ('a' ≤ c ∧ c ≤ 'f') := by
  unfold is_valid_hex
  by_cases hl : p_string.length = n
  · have h0 : ¬ ((n : Int) > 0 ∧ (p_string.length : Int) ≠ n) := by omega
    rw [if_neg h0, List.all_eq_true]
    simp only [hl, true_and, decide_eq_true_eq]
  · have h0 : (n : Int) > 0 ∧ (p_string.length : Int) ≠ n := by omega
    rw [if_pos h0]
    simp [hl]

/-- C14, counterexample. With `is_prehashed` set, a valid host and port, the user `root`
and the password `zz` (no 40 hexadecimal digits), but an empty database name while
`CONNECT_WITH_DB` is among the client capabilities, `connect_db` returns
`ERR_DB_NAME_EMPTY`, not `ERR_PASSWORD_HASH_LENGTH`. -/
theorem connect_db_prehashed_db_name_first :
    is_valid_hex "zz".toList 40 = false ∧
    connect_db protocolEnv (sessionOn (streamConnecting []) 8 false)
        "127.0.0.1".toList 3306 [] "root".toList "zz".toList .AUTH_TYPE_MYSQL_NATIVE true
      = .ok (.ERR_DB_NAME_EMPTY,
          { sessionOn (streamConnecting []) 8 false with
            _ip := "127.0.0.1".toList, _port := 3306 }) := by
  constructor <;> decide

theorem connect_db_args_prehashed (E : Env) (s : Session) (p_host : List Char) (p_port : Int)
    (p_dbname p_username p_password : List Char) (p_authtype : AuthType)
    (hhost : E.is_valid_ip_address
      (if E.is_valid_ip_address p_host then p_host else E.resolve_hostname p_host) = true)
    (hport : 0 < p_port ∧ p_port ≤ 65535)
    (hdb : p_dbname ≠ [] ∨ s._client_capabilities &&& E.CONNECT_WITH_DB = 0)
    (huser : p_username ≠ []) (hpw : p_password ≠ []) :
    connect_db_args E s p_host p_port p_dbname p_username p_password p_authtype true
      = if is_valid_hex p_password (if p_authtype = .AUTH_TYPE_MYSQL_NATIVE then 40 else 128)
        then
          (none, { s with
            _ip := if E.is_valid_ip_address p_host then p_host else E.resolve_hostname p_host,
            _port := p_port, _dbname := to_utf8_buffer p_dbname,
            _password_hashed := hex_decode p_password,
            _username := to_utf8_buffer p_username, _client_auth_type := p_authtype })
        else
          (some .ERR_PASSWORD_HASH_LENGTH, { s with
            _ip := if E.is_valid_ip_address p_host then p_host else E.resolve_hostname p_host,
            _port := p_port, _dbname := to_utf8_buffer p_dbname }) := by
  have hu : ¬ p_username.length ≤ 0 := by
    cases p_username with
    | nil => exact absurd rfl huser
    | cons a l => simp
  have hp : ¬ p_password.length ≤ 0 := by
    cases p_password with
    | nil => exact absurd rfl hpw
    | cons a l => simp
  have hpo : ¬ (p_port ≤ 0 ∨ p_port > 65535) := by omega
  have hd : ¬ (p_dbname.length ≤ 0 ∧ s._client_capabilities &&& E.CONNECT_WITH_DB ≠ 0) := by
    rintro ⟨h1, h2⟩
    rcases hdb with h | h
    · cases p_dbname with
      | nil => exact h rfl
      | cons a l => simp at h1
    · exact h2 h
  have hd2 : p_dbname = [] → s._client_capabilities &&& E.CONNECT_WITH_DB = 0 := by
    intro h
    rcases hdb with h1 | h1
    · exact absurd h h1
    · exact h1
  have hu2 : p_username.length ≠ 0 := by omega
  have hp2 : p_password.length ≠ 0 := by omega
  unfold connect_db_args
  by_cases hv : E.is_valid_ip_address p_host = true
  · rw [if_pos hv] at hhost
    cases p_authtype <;> by_cases hx40 : is_valid_hex p_password 40 = true <;>
      by_cases hx128 : is_valid_hex p_password 128 = true <;>
      simp [hv, hhost, hpo, huser, hpw, hx40, hx128] <;> exact hd2
  · rw [if_neg hv] at hhost
    cases p_authtype <;> by_cases hx40 : is_valid_hex p_password 40 = true <;>
      by_cases hx128 : is_valid_hex p_password 128 = true <;>
      simp [hv, hhost, hpo, huser, hpw, hx40, hx128] <;> exact hd2

/-- C14, amended. For `connect_db` with `is_prehashed` set, a host that is or resolves to
a valid address, a port in 1..65535, a database name that is not empty or not required
(`CONNECT_WITH_DB` not among the client capabilities), and a non-empty user name and
password: if the password has exactly 40 (`AUTH_TYPE_MYSQL_NATIVE`) or 128
(`AUTH_TYPE_ED25519`) characters, all of them in `[0-9A-Fa-f]`, `connect_db` goes on to
`_connect` with the hex decoding of the password as stored hash and the stream untouched;
otherwise it returns `ERR_PASSWORD_HASH_LENGTH` and neither the stream nor the stored hash
has changed. -/
theorem connect_db_prehashed (E : Env) (s : Session) (p_host : List Char) (p_port : Int)
    (p_dbname p_username p_password : List Char) (p_authtype : AuthType)
    (hhost : E.is_valid_ip_address
      (if E.is_valid_ip_address p_host then p_host else E.resolve_hostname p_host) = true)
    (hport : 0 < p_port ∧ p_port ≤ 65535)
    (hdb : p_dbname ≠ [] ∨ s._client_capabilities &&& E.CONNECT_WITH_DB = 0)
    (huser : p_username ≠ []) (hpw : p_password ≠ []) :
    ((p_password.length = (if p_authtype = .AUTH_TYPE_MYSQL_NATIVE then 40 else 128) ∧
        ∀ c ∈ p_password,
          ('0' ≤ c ∧ c ≤ '9') ∨ ('A' ≤ c ∧ c ≤ 'F') ∨ ('a' ≤ c ∧ c ≤ 'f')) →
      ∃ s2, connect_db E s p_host p_port p_dbname p_username p_password p_authtype true
          = _connect E s2 ∧
        s2._password_hashed = hex_decode p_password ∧ s2._stream = s._stream) ∧
    (¬ (p_password.length = (if p_authtype = .AUTH_TYPE_MYSQL_NATIVE then 40 else 128) ∧
        ∀ c ∈ p_password,
          ('0' ≤ c ∧ c ≤ '9') ∨ ('A' ≤ c ∧ c ≤ 'F') ∨ ('a' ≤ c ∧ c ≤ 'f')) →
      ∃ s2, connect_db E s p_host p_port p_dbname p_username p_password p_authtype true
          = .ok (.ERR_PASSWORD_HASH_LENGTH, s2) ∧
        s2._password_hashed = s._password_hashed ∧ s2._stream = s._stream) := by
  have hargs := connect_db_args_prehashed E s p_host p_port p_dbname p_username p_password
    p_authtype hhost hport hdb huser hpw
  have hn : 0 < (if p_authtype = .AUTH_TYPE_MYSQL_NATIVE then 40 else 128) := by
    split <;> omega
  have hiff := is_valid_hex_iff p_password _ hn
  have hcast : (((if p_authtype = .AUTH_TYPE_MYSQL_NATIVE then 40 else 128 : Nat) : Nat) : Int)
      = (if p_authtype = .AUTH_TYPE_MYSQL_NATIVE then 40 else 128 : Int) := by
    split <;> rfl
  rw [hcast] at hiff
  constructor
  · intro h
    rw [if_pos (hiff.mpr h)] at hargs
    refine ⟨(connect_db_args E s p_host p_port p_dbname p_username p_password p_authtype
      true).2, ?_, ?_, ?_⟩
    · unfold connect_db
      rw [hargs]
    · rw [hargs]
    · rw [hargs]
  · intro h
    have hx : ¬ is_valid_hex p_password
        (if p_authtype = .AUTH_TYPE_MYSQL_NATIVE then 40 else 128) = true :=
      fun hc => h (hiff.mp hc)
    rw [if_neg hx] at hargs
    refine ⟨(connect_db_args E s p_host p_port p_dbname p_username p_password p_authtype
      true).2, ?_, ?_, ?_⟩
    · unfold connect_db
      rw [hargs]
      rfl
    · rw [hargs]
    · rw [hargs]

/-- C14, amended, for the 40 hexadecimal digits `00112233445566778899aabbccddeeff00112233`
and `AUTH_TYPE_MYSQL_NATIVE`. -/
theorem connect_db_prehashed_witness :
    (protocolEnv.is_valid_ip_address
        (if protocolEnv.is_valid_ip_address "127.0.0.1".toList then "127.0.0.1".toList
          else protocolEnv.resolve_hostname "127.0.0.1".toList) = true ∧
      ((0 : Int) < 3306 ∧ (3306 : Int) ≤ 65535) ∧
      ("test".toList ≠ [] ∨
        (sessionGreeted greetingV9)._client_capabilities &&& protocolEnv.CONNECT_WITH_DB = 0) ∧
      "root".toList ≠ [] ∧ "00112233445566778899aabbccddeeff00112233".toList ≠ [] ∧
      ("00112233445566778899aabbccddeeff00112233".toList.length
          = (if AuthType.AUTH_TYPE_MYSQL_NATIVE = .AUTH_TYPE_MYSQL_NATIVE then 40 else 128) ∧
        ∀ c ∈ "00112233445566778899aabbccddeeff00112233".toList,
          ('0' ≤ c ∧ c ≤ '9') ∨ ('A' ≤ c ∧ c ≤ 'F') ∨ ('a' ≤ c ∧ c ≤ 'f'))) ∧
    ∃ s2, connect_db protocolEnv (sessionGreeted greetingV9) "127.0.0.1".toList 3306
          "test".toList "root".toList "00112233445566778899aabbccddeeff00112233".toList
          .AUTH_TYPE_MYSQL_NATIVE true
        = _connect protocolEnv s2 ∧
      s2._password_hashed = hex_decode "00112233445566778899aabbccddeeff00112233".toList ∧
      s2._stream = (sessionGreeted greetingV9)._stream :=
  ⟨by decide,
    (connect_db_prehashed protocolEnv (sessionGreeted greetingV9) "127.0.0.1".toList 3306
      "test".toList "root".toList "00112233445566778899aabbccddeeff00112233".toList
      .AUTH_TYPE_MYSQL_NATIVE (by decide) (by decide) (by decide) (by decide)
      (by decide)).1 (by decide)⟩

/-! ## `_prepared_params_send` -/

theorem param_type_bytes_none (E : Env) (k : Nat) :
    param_type_bytes E k = none ↔ E.field_type_of k = none := by
  unfold param_type_bytes
  cases h : E.field_type_of k with
  | none => simp
  | some ft => cases ft <;> simp

theorem param_value_bytes_none (ft : FieldType) (v : ParamValue) :
    param_value_bytes (some ft) v = none ↔ ft ∉ valueKinds := by
  cases ft <;> simp [param_value_bytes, valueKinds]

theorem param_value_bytes_none_none (v : ParamValue) : param_value_bytes none v = none := by
  simp [param_value_bytes]

/-- The first loop fails exactly when some parameter is no dictionary with one entry
whose key is the value of a kind. -/
theorem params_type_loop_none_iff (E : Env) (off : Nat) (l : List ParamEntry) (i : Nat)
    (buf : Bytes) :
    params_type_loop E off l i buf = none ↔
      ∃ p ∈ l, ∀ k w, p = ParamEntry.dict [(k, w)] → E.field_type_of (k % 2 ^ 16) = none := by
  induction l generalizing i buf with
  | nil => simp [params_type_loop]
  | cons p rest ih =>
    cases p with
    | not_dictionary =>
      simp only [params_type_loop, List.mem_cons, true_iff]
      exact ⟨_, Or.inl rfl, fun k w h => by cases h⟩
    | dict param =>
      match param with
      | [] =>
        simp only [params_type_loop, List.mem_cons, true_iff]
        exact ⟨_, Or.inl rfl, fun k w h => by cases h⟩
      | _ :: _ :: _ =>
        simp only [params_type_loop, List.mem_cons, true_iff]
        exact ⟨_, Or.inl rfl, fun k w h => by cases h⟩
      | [(key, v)] =>
        simp only [params_type_loop]
        cases ht : param_type_bytes E (key % 2 ^ 16) with
        | none =>
          simp only [true_iff]
          refine ⟨_, List.mem_cons_self _ _, fun k w h => ?_⟩
          simp only [ParamEntry.dict.injEq, List.cons.injEq, Prod.mk.injEq, and_true] at h
          rw [← h.1]
          exact (param_type_bytes_none E _).mp ht
        | some t =>
          simp only [ih]
          constructor
          · rintro ⟨p, hp, h⟩
            exact ⟨p, List.mem_cons_of_mem _ hp, h⟩
          · rintro ⟨p, hp, h⟩
            rcases List.mem_cons.mp hp with rfl | hp
            · have := h key v rfl
              rw [(param_type_bytes_none E _).mpr this] at ht
              cases ht
            · exact ⟨p, hp, h⟩

/-- The second loop ends with `ERR_PREPARE_FAILED` when every parameter is a dictionary
with one entry and one of them has a value that is not NIL and a kind without a case. -/
theorem params_value_loop_fails (E : Env) (l : List ParamEntry) (buf : Bytes) (key : Nat)
    (v : ParamValue)
    (hall : ∀ p ∈ l, ∃ k w, p = ParamEntry.dict [(k, w)])
    (hmem : ParamEntry.dict [(key, v)] ∈ l) (hnil : v.is_nil = false)
    (hkind : ∀ ft, E.field_type_of (key % 2 ^ 8) = some ft → ft ∉ valueKinds) :
    params_value_loop E l buf = .ok none := by
  induction l generalizing buf with
  | nil => cases hmem
  | cons p rest ih =>
    obtain ⟨k, w, hp⟩ := hall p (List.mem_cons_self _ _)
    subst hp
    have hrest : ∀ q ∈ rest, ∃ k w, q = ParamEntry.dict [(k, w)] :=
      fun q hq => hall q (List.mem_cons_of_mem _ hq)
    simp only [params_value_loop]
    by_cases hw : w.is_nil = true
    · rw [if_pos hw]
      rcases List.mem_cons.mp hmem with h | h
      · simp only [ParamEntry.dict.injEq, List.cons.injEq, Prod.mk.injEq, and_true] at h
        rw [← h.2, hnil] at hw
        cases hw
      · exact ih buf hrest h
    · rw [if_neg hw]
      cases hb : param_value_bytes (E.field_type_of (k % 2 ^ 8)) w with
      | none => rfl
      | some bytes =>
        simp only
        rcases List.mem_cons.mp hmem with h | h
        · simp only [ParamEntry.dict.injEq, List.cons.injEq, Prod.mk.injEq, and_true] at h
          rw [← h.1, ← h.2] at hb
          cases hf : E.field_type_of (key % 2 ^ 8) with
          | none => rw [hf, param_value_bytes_none_none] at hb; cases hb
          | some ft =>
            rw [hf, (param_value_bytes_none ft v).mpr (hkind ft hf)] at hb
            cases hb
        · exact ih _ hrest h

theorem to_int32_small (n : Nat) (h : n < 2 ^ 31) : to_int32 n = (n : Int) := by
  unfold to_int32
  have h1 : n % 2 ^ 32 = n := Nat.mod_eq_of_lt (by omega)
  rw [h1, if_pos h]

theorem params_rejected_nonzero (s : Session) (p_stmt_id : Nat) (n : Int) (h : n ≠ 0) :
    params_rejected s p_stmt_id n = false := by
  unfold params_rejected
  split
  · simp [h]
  · rfl

/-- What `_prepared_params_send` is for a non-empty list of fewer than `2 ^ 31`
parameters. -/
theorem prepared_params_send_nonempty (E : Env) (s : Session) (p_stmt_id : Nat)
    (p_params : List ParamEntry) (hlen : p_params.length < 2 ^ 31)
    (hpos : 0 < p_params.length) :
    _prepared_params_send E s p_stmt_id p_params
      = params_block E s p_params (((p_params.length : Int) + 7) / 8)
          (execute_header (p_stmt_id % 2 ^ 32)) := by
  have hcnt := to_int32_small p_params.length hlen
  have hgt : (p_params.length : Int) > 0 := by omega
  have htake : p_params.take (p_params.length : Int).toNat = p_params := by
    rw [Int.toNat_ofNat, List.take_length]
  unfold _prepared_params_send
  simp only [hcnt, params_rejected_nonzero s _ _ (by omega : (p_params.length : Int) ≠ 0),
    Bool.false_eq_true, if_false, hgt, if_true, htake]

/-- C19, amended. For a parameter list of fewer than `2 ^ 31` entries that contains a
one-entry dictionary whose value is not NIL and whose key (taken modulo 256, as the second
loop does) is not the value of a kind with a case in the value switch,
`_prepared_params_send` returns an error and leaves the session as it was, so nothing is
written: the error is `ERR_INVALID_PARAMETER` if some entry of the list is no one-entry
dictionary with the value of a `FieldType` as key, and `ERR_PREPARE_FAILED` otherwise. -/
theorem prepared_params_unsupported_kind (E : Env) (s : Session) (p_stmt_id : Nat)
    (p_params : List ParamEntry) (key : Nat) (v : ParamValue)
    (hlen : p_params.length < 2 ^ 31)
    (hmem : ParamEntry.dict [(key, v)] ∈ p_params) (hnil : v.is_nil = false)
    (hkind : ∀ ft, E.field_type_of (key % 2 ^ 8) = some ft → ft ∉ valueKinds) :
    ((∃ p ∈ p_params, ∀ k w, p = ParamEntry.dict [(k, w)] →
        E.field_type_of (k % 2 ^ 16) = none) →
      _prepared_params_send E s p_stmt_id p_params = .ok (.ERR_INVALID_PARAMETER, s)) ∧
    (¬ (∃ p ∈ p_params, ∀ k w, p = ParamEntry.dict [(k, w)] →
        E.field_type_of (k % 2 ^ 16) = none) →
      _prepared_params_send E s p_stmt_id p_params = .ok (.ERR_PREPARE_FAILED, s)) := by
  have hpos : 0 < p_params.length := List.length_pos_of_mem hmem
  rw [prepared_params_send_nonempty E s p_stmt_id p_params hlen hpos]
  constructor
  · intro hbad
    unfold params_block
    split
    · rfl
    · simp only [(params_type_loop_none_iff E _ p_params 0 _).mpr hbad]
      rfl
  · intro hgood
    have hall : ∀ p ∈ p_params, ∃ k w, p = ParamEntry.dict [(k, w)] := by
      intro p hp
      by_contra hc
      exact hgood ⟨p, hp, fun k w h => absurd ⟨k, w, h⟩ hc⟩
    have hhead : ¬ p_params.head? = some ParamEntry.not_dictionary := by
      intro hh
      obtain ⟨k, w, h⟩ := hall _ (List.mem_of_mem_head? hh)
      cases h
    unfold params_block
    rw [if_neg hhead]
    simp only
    cases ht : params_type_loop E (execute_header (p_stmt_id % 2 ^ 32)).length p_params 0
        (execute_header (p_stmt_id % 2 ^ 32) ++
          List.replicate (((p_params.length : Int) + 7) / 8).toNat 0x00 ++ [0x01]) with
    | none => exact absurd ((params_type_loop_none_iff E _ p_params 0 _).mp ht) hgood
    | some t =>
      simp only [params_value_loop_fails E p_params t key v hall hmem hnil hkind, bind,
        Run.bind]
      rfl

/-- C19, counterexample. A parameter of kind `FT_TIMESTAMP` with a text value: the first
loop accepts the kind, the second loop has no case for it, and `_prepared_params_send`
returns `ERR_PREPARE_FAILED`, not `ERR_INVALID_PARAMETER` (nothing is written). -/
theorem prepared_params_timestamp_prepare_failed :
    protocolEnv.field_type_of 8 = some .FT_TIMESTAMP ∧
    _prepared_params_send protocolEnv (sessionOn (streamDelivering []) 16777216 true) 1
        [paramOf 8 (textValue "2024-01-01 00:00:00".toList)]
      = .ok (.ERR_PREPARE_FAILED, sessionOn (streamDelivering []) 16777216 true) := by
  constructor <;> decide

/-- C19, amended, for one parameter of kind `FT_TIMESTAMP` with a text value. -/
theorem prepared_params_unsupported_kind_witness :
    ([paramOf 8 (textValue "2024-01-01 00:00:00".toList)].length < 2 ^ 31 ∧
      ParamEntry.dict [(8, textValue "2024-01-01 00:00:00".toList)]
        ∈ [paramOf 8 (textValue "2024-01-01 00:00:00".toList)] ∧
      (textValue "2024-01-01 00:00:00".toList).is_nil = false ∧
      (∀ ft, protocolEnv.field_type_of (8 % 2 ^ 8) = some ft → ft ∉ valueKinds)) ∧
    ((∃ p ∈ [paramOf 8 (textValue "2024-01-01 00:00:00".toList)],
        ∀ k w, p = ParamEntry.dict [(k, w)] → protocolEnv.field_type_of (k % 2 ^ 16) = none) →
      _prepared_params_send protocolEnv (sessionOn (streamDelivering []) 16777216 true) 1
          [paramOf 8 (textValue "2024-01-01 00:00:00".toList)]
        = .ok (.ERR_INVALID_PARAMETER, sessionOn (streamDelivering []) 16777216 true)) ∧
    (¬ (∃ p ∈ [paramOf 8 (textValue "2024-01-01 00:00:00".toList)],
        ∀ k w, p = ParamEntry.dict [(k, w)] → protocolEnv.field_type_of (k % 2 ^ 16) = none) →
      _prepared_params_send protocolEnv (sessionOn (streamDelivering []) 16777216 true) 1
          [paramOf 8 (textValue "2024-01-01 00:00:00".toList)]
        = .ok (.ERR_PREPARE_FAILED, sessionOn (streamDelivering []) 16777216 true)) :=
  ⟨⟨by decide, by decide, by decide, by intro ft h; cases h; decide⟩,
    prepared_params_unsupported_kind protocolEnv (sessionOn (streamDelivering []) 16777216 true)
      1 [paramOf 8 (textValue "2024-01-01 00:00:00".toList)] 8
      (textValue "2024-01-01 00:00:00".toList) (by decide) (by decide) (by decide)
      (by intro ft h; cases h; decide)⟩

set_option maxRecDepth 100000 in
/-- C18. After `prepared_statement` on the response for `SELECT ? + ?` (statement 1, two
parameters, one column), `_prepared_params_send` with a single parameter returns `OK` and
writes the execute packet: the number of parameters is not compared with anything. After
`prepared_statement` on the response for `SELECT 1` (statement 2, no parameter, one
column), `_prepared_params_send` with the empty list returns `ERR_INVALID_PARAMETER` and
writes nothing more: the test is made on the cached column definitions. -/
theorem prepared_params_count_not_checked :
    (fun r => (r.1, r.2._stream.written.length)) <$>
        (prepared_statement (sessionOn (streamDelivering [prepareSumResponse]) 16777216 true)
          "SELECT ? + ?".toList >>= fun r =>
            _prepared_params_send protocolEnv r.2 1 [paramOf 4 (intValue 5)])
      = .ok (.OK, 2) ∧
    (fun r => (r.1, r.2._stream.written.length)) <$>
        (prepared_statement (sessionOn (streamDelivering [prepareOneResponse]) 16777216 true)
          "SELECT 1".toList >>= fun r => _prepared_params_send protocolEnv r.2 2 [])
      = .ok (.ERR_INVALID_PARAMETER, 1) ∧
    (fun r => (r.1, r.2._prep_column_data)) <$>
        prepared_statement (sessionOn (streamDelivering [prepareSumResponse]) 16777216 true)
          "SELECT ? + ?".toList
      = .ok (some { statement_id := 1, num_columns := 1, num_params := 2 },
          [(1, [bigintColumn "? + ?"])]) ∧
    (fun r => (r.1, r.2._prep_column_data)) <$>
        prepared_statement (sessionOn (streamDelivering [prepareOneResponse]) 16777216 true)
          "SELECT 1".toList
      = .ok (some { statement_id := 2, num_columns := 1, num_params := 0 },
          [(2, [bigintColumn "1"])]) := by
  refine ⟨?_, ?_, ?_, ?_⟩ <;> decide

/-- C20, counterexample. For a statement without cached column definitions and the
response `05 00 00 01 00` (status byte `0x00`, four of the five declared payload bytes
missing, nothing more delivered), `prepared_stmt_exec_select` returns no rows and leaves
`ERR_PACKET_LENGTH_MISMATCH` in `_last_error`, not `ERR_UNAVAILABLE`. -/
theorem exec_select_truncated_response :
    (fun r => (r.1, r.2._last_error)) <$>
        prepared_stmt_exec_select protocolEnv 10
          (sessionOn (streamDelivering [[5, 0, 0, 1, 0]]) 16777216 true) 1 []
      = .ok ([], .ERR_PACKET_LENGTH_MISMATCH) := by
  decide

theorem readLE_of_le (p_src : Bytes) (n idx : Nat) (h : idx + n ≤ p_src.length) :
    readLE p_src idx n = some (leValue ((p_src.drop idx).take n)) := by
  induction n generalizing idx with
  | zero => simp [readLE, leValue]
  | succ n ih =>
    obtain ⟨b, hb, -⟩ := byteAt_exists p_src idx (by omega)
    unfold readLE
    rw [hb, ih (idx + 1) (by omega), leValue_take_drop p_src idx n b hb]
    rfl

theorem bytes_to_num_of_le (bits : Nat) (p_src : Bytes) (n idx : Nat)
    (h : idx + n ≤ p_src.length) :
    bytes_to_num_adv_itr bits p_src n idx
      = some (leValue ((p_src.drop idx).take n) % 2 ^ bits, idx + n) := by
  unfold bytes_to_num_adv_itr
  rw [readLE_of_le p_src n idx h]
  rfl

theorem leValue_take_lt (l : Bytes) (n : Nat) : leValue (l.take n) < 256 ^ n := by
  have h1 := leValue_lt (l.take n)
  have h2 : (l.take n).length ≤ n := by
    rw [List.length_take]
    omega
  exact lt_of_lt_of_le h1 (Nat.pow_le_pow_right (by omega) h2)

theorem read_buffer_cache (s : Session) :
    (_read_buffer s).2._prep_column_data = s._prep_column_data := by
  unfold _read_buffer
  split <;> rfl

theorem rcv_bfr_chk_cache (s : Session) (p_bfr : Bytes) (p_cur_pos p_bytes_needed : Nat) :
    (_rcv_bfr_chk s p_bfr p_cur_pos p_bytes_needed).2.2.2._prep_column_data
      = s._prep_column_data := by
  rw [rcv_bfr_chk_eq]
  split
  · split <;> exact read_buffer_cache s
  · rfl

theorem send_execute_cache (s : Session) (tx_buf : Bytes) :
    (send_execute s tx_buf).2._prep_column_data = s._prep_column_data := by
  unfold send_execute
  rfl

theorem params_block_cache (E : Env) (s s1 : Session) (params : List ParamEntry) (m : Int)
    (tx_buf : Bytes) (e : ErrorCode) (h : params_block E s params m tx_buf = .ok (e, s1)) :
    s1._prep_column_data = s._prep_column_data := by
  unfold params_block at h
  split at h
  · cases h
    rfl
  · simp only at h
    split at h
    · cases h
      rfl
    · rename_i t ht
      cases hv : params_value_loop E params t with
      | out_of_bounds => rw [hv] at h; cases h
      | out_of_fuel => rw [hv] at h; cases h
      | ok r =>
        rw [hv] at h
        cases r with
        | none => cases h; rfl
        | some t2 =>
          simp only [bind, Run.bind, pure, Run.ok.injEq] at h
          rw [← send_execute_cache s t2, h]

theorem prepared_params_send_cache (E : Env) (s s1 : Session) (p_stmt_id : Nat)
    (p_params : List ParamEntry) (e : ErrorCode)
    (h : _prepared_params_send E s p_stmt_id p_params = .ok (e, s1)) :
    s1._prep_column_data = s._prep_column_data := by
  unfold _prepared_params_send at h
  simp only at h
  split at h
  · cases h
    rfl
  · split at h
    · exact params_block_cache E s s1 _ _ _ e h
    · simp only [pure, Run.ok.injEq] at h
      rw [← send_execute_cache s (execute_header (p_stmt_id % 2 ^ 32)), h]

/-- C20, amended. When `_prepared_params_send` has succeeded, the response `rx` has at
least 3 bytes, the availability check for the declared payload answers `OK` (with the
buffer `rx2`, which is `rx`, or `rx` topped up by one more read), `rx2` has at least 7
bytes, its status byte is not `0xFF`, and the statement has no cached column definition
or an empty list of them: `prepared_stmt_exec_select` returns no rows, sets `_last_error`
to `ERR_UNAVAILABLE` and releases the mutex. -/
theorem exec_select_no_columns (E : Env) (fuel : Nat) (s s1 s2 s3 : Session)
    (p_stmt_id n : Nat) (p_params : List ParamEntry) (rx rx2 : Bytes)
    (hsend : _prepared_params_send E { s with _stream_mutex := s._stream_mutex + 1 }
      (p_stmt_id % 2 ^ 32) p_params = .ok (.OK, s1))
    (hread : _read_buffer { s1 with _last_error := .OK } = (rx, s2))
    (hrx : 3 ≤ rx.length)
    (hchk : _rcv_bfr_chk s2 rx 3 (leValue (rx.take 3)) = (.OK, rx2, n, s3))
    (hlen : 7 ≤ rx2.length)
    (hstatus : byteAt rx2 4 ≠ some 0xFF)
    (hcols : (s._prep_column_data.lookup (p_stmt_id % 2 ^ 32)).getD [] = []) :
    prepared_stmt_exec_select E fuel s p_stmt_id p_params
      = .ok ([], { s3 with _last_error := .ERR_UNAVAILABLE,
                           _stream_mutex := s3._stream_mutex - 1 }) := by
  have hne : ¬ rx.length = 0 := by omega
  have hcache : s3._prep_column_data = s._prep_column_data := by
    have c1 := prepared_params_send_cache E _ s1 _ _ _ hsend
    have c2 := read_buffer_cache { s1 with _last_error := .OK }
    have c3 := rcv_bfr_chk_cache s2 rx 3 (leValue (rx.take 3))
    rw [hread] at c2
    rw [hchk] at c3
    exact c3.trans (c2.trans c1)
  rw [← hcache] at hcols
  have hnum : bytes_to_num_adv_itr 64 rx 3 0 = some (leValue (rx.take 3), 3) := by
    rw [bytes_to_num_of_le 64 rx 3 0 (by omega), List.drop_zero]
    have := leValue_take_lt rx 3
    rw [Nat.mod_eq_of_lt (by omega)]
  obtain ⟨b3, h3, -⟩ := byteAt_exists rx2 3 (by omega)
  obtain ⟨b4, h4, -⟩ := byteAt_exists rx2 4 (by omega)
  obtain ⟨b6, h6, -⟩ := byteAt_exists rx2 6 (by omega)
  have hb4 : ¬ b4 = 0xFF := by
    intro hc
    rw [h4, hc] at hstatus
    exact hstatus rfl
  unfold prepared_stmt_exec_select
  simp only [bind, Run.bind, hsend, ne_eq, not_true_eq_false, if_false, hread, hne, hnum,
    Run.ofOption, hchk, h3, h4, hb4, hcols, List.length_nil, if_true, h6, pure]

/-- C20, amended, for statement 1 without cached columns, no parameters and an OK packet
as response. -/
theorem exec_select_no_columns_witness :
    (_prepared_params_send protocolEnv
          { sessionExec with _stream_mutex := sessionExec._stream_mutex + 1 } (1 % 2 ^ 32) []
        = .ok (.OK, sessionExecSent) ∧
      _read_buffer { sessionExecSent with _last_error := .OK }
        = (execOkResponse, sessionExecRead) ∧
      3 ≤ execOkResponse.length ∧
      _rcv_bfr_chk sessionExecRead execOkResponse 3 (leValue (execOkResponse.take 3))
        = (.OK, execOkResponse, 11, sessionExecRead) ∧
      7 ≤ execOkResponse.length ∧
      byteAt execOkResponse 4 ≠ some 0xFF ∧
      (sessionExec._prep_column_data.lookup (1 % 2 ^ 32)).getD [] = []) ∧
    prepared_stmt_exec_select protocolEnv 10 sessionExec 1 []
      = .ok ([], { sessionExecRead with _last_error := .ERR_UNAVAILABLE,
                                        _stream_mutex := sessionExecRead._stream_mutex - 1 }) :=
  ⟨by decide,
    exec_select_no_columns protocolEnv 10 sessionExec sessionExecSent sessionExecRead
      sessionExecRead 1 11 [] execOkResponse execOkResponse (by decide) (by decide)
      (by decide) (by decide) (by decide) (by decide) (by decide)⟩

/-! ## Binary rows, close, disconnect, the lock and `_query` -/

/-- C21. A complete binary result of one row is not decoded when its column is a BLOB
with the value `hi` (the type has no case: the value bytes are left in front of the
cursor), or a DATETIME sent with length 4 (seven bytes are read whatever the length):
`_parse_prepared_exec` returns no row and `ERR_PACKET_LENGTH_MISMATCH` is left in
`_last_error`. For a TINY column the row is returned. -/
theorem parse_prepared_exec_loses_rows :
    (fun r => (r.1, r.2.2.2._last_error)) <$> _parse_prepared_exec protocolEnv 10
        (sessionOn (streamDelivering []) 16777216 true) blobRowPackets 0 [blobColumn] true
      = .ok ([], .ERR_PACKET_LENGTH_MISMATCH) ∧
    (fun r => (r.1, r.2.2.2._last_error)) <$> _parse_prepared_exec protocolEnv 10
        (sessionOn (streamDelivering []) 16777216 true) dateOnlyRowPackets 0
        [datetimeColumn] true
      = .ok ([], .ERR_PACKET_LENGTH_MISMATCH) ∧
    (fun r => (r.1, r.2.2.2._last_error)) <$> _parse_prepared_exec protocolEnv 10
        (sessionOn (streamDelivering []) 16777216 true) tinyRowPackets 0 [tinyColumn] true
      = .ok ([[(ascii "a", .int 42)]], .OK) := by
  refine ⟨?_, ?_, ?_⟩ <;> decide

/-- C23. `prepared_statement_close` hands exactly one buffer to `put_data`, the 9 bytes
`05 00 00 00 19` and the statement id in 4 little-endian bytes; it takes nothing from
the read script and leaves the column-definition cache as it was. -/
theorem prepared_statement_close_frame (s : Session) (i : Nat) :
    (prepared_statement_close s i).2._stream.written
      = s._stream.written ++
          [[0x05, 0x00, 0x00, 0x00, 0x19, UInt8.ofNat (i % 256), UInt8.ofNat (i / 2 ^ 8 % 256),
            UInt8.ofNat (i / 2 ^ 16 % 256), UInt8.ofNat (i / 2 ^ 24 % 256)]] ∧
    leValue [UInt8.ofNat (i % 256), UInt8.ofNat (i / 2 ^ 8 % 256),
        UInt8.ofNat (i / 2 ^ 16 % 256), UInt8.ofNat (i / 2 ^ 24 % 256)] = i % 2 ^ 32 ∧
    (prepared_statement_close s i).2._stream.reads = s._stream.reads ∧
    (prepared_statement_close s i).2._prep_column_data = s._prep_column_data := by
  have hw : ∀ (st : Stream) (b : Bytes), (st.put_data b).2.written = st.written ++ [b] := by
    intro st b
    unfold Stream.put_data
    split <;> rfl
  have hr : ∀ (st : Stream) (b : Bytes), (st.put_data b).2.reads = st.reads := by
    intro st b
    unfold Stream.put_data
    split <;> rfl
  have e1 : i % 2 ^ 32 % 256 = i % 256 := by omega
  have e2 : i % 2 ^ 32 / 2 ^ 8 % 256 = i / 2 ^ 8 % 256 := by omega
  have e3 : i % 2 ^ 32 / 2 ^ 16 % 256 = i / 2 ^ 16 % 256 := by omega
  have e4 : i % 2 ^ 32 / 2 ^ 24 % 256 = i / 2 ^ 24 % 256 := by omega
  have hpkt : _add_packet_header ([0x19] ++ encode_u32 (i % 2 ^ 32)) 0
      = [0x05, 0x00, 0x00, 0x00, 0x19, UInt8.ofNat (i % 256), UInt8.ofNat (i / 2 ^ 8 % 256),
          UInt8.ofNat (i / 2 ^ 16 % 256), UInt8.ofNat (i / 2 ^ 24 % 256)] := by
    have h5 : little_endian_to_vbytes 5 3 0 = [5, 0, 0] := by decide
    rw [add_packet_header_eq]
    simp only [encode_u32, e1, e2, e3, e4, List.length_append, List.length_cons,
      List.length_nil, Nat.reduceAdd, h5]
    rfl
  refine ⟨?_, ?_, ?_, ?_⟩
  · unfold prepared_statement_close
    simp only [hpkt]
    exact hw _ _
  · simp only [leValue, toNat_ofNat_byte]
    omega
  · unfold prepared_statement_close
    exact hr _ _
  · rfl

/-- C24, counterexample. A session that holds the column definitions of statement 1 still
holds them after `disconnect_db`. -/
theorem disconnect_db_keeps_statement :
    (disconnect_db sessionWithStatement)._prep_column_data = [(1, [tinyColumn])] := by
  decide

/-- C24, amended. `disconnect_db` leaves the prepared-statement column-definition cache
as it was: every statement id prepared before the disconnect is still present. -/
theorem disconnect_db_cache (s : Session) :
    (disconnect_db s)._prep_column_data = s._prep_column_data := by
  unfold disconnect_db is_connected_db
  simp only
  split <;> rfl

theorem poll_written (st : Stream) : st.poll.2.written = st.written := by
  unfold Stream.poll
  split <;> rfl

/-- C25, counterexample. On a session whose connection attempt is under way, the first
`disconnect_db` finds the stream unconnected and writes nothing; the second one, called
right after it, finds the connection established and writes the quit packet. -/
theorem disconnect_db_twice_writes :
    (disconnect_db sessionConnecting)._stream.written = [] ∧
    (disconnect_db (disconnect_db sessionConnecting))._stream.written
      = [[0x01, 0x00, 0x00, 0x00, 0x01]] := by
  constructor <;> decide

/-- C25, amended. `disconnect_db` leaves `_authenticated` false, and so does a second call
right after it. If the `poll()` of the second call does not find the stream connected,
the second call writes nothing and changes nothing but `_last_error` (the result of that
`poll()`) and the state of the stream that `poll()` itself changes. -/
theorem disconnect_db_twice (s : Session) :
    (disconnect_db s)._authenticated = false ∧
    (disconnect_db (disconnect_db s))._authenticated = false ∧
    ((disconnect_db s)._stream.poll.2.connected = false →
      disconnect_db (disconnect_db s)
          = { disconnect_db s with _last_error := (disconnect_db s)._stream.poll.1,
                                   _stream := (disconnect_db s)._stream.poll.2 } ∧
        (disconnect_db (disconnect_db s))._stream.written
          = (disconnect_db s)._stream.written) := by
  refine ⟨disconnect_db_authenticated s, disconnect_db_authenticated _, ?_⟩
  intro h
  have ha := disconnect_db_authenticated s
  have key : disconnect_db (disconnect_db s)
      = { disconnect_db s with _last_error := (disconnect_db s)._stream.poll.1,
                               _stream := (disconnect_db s)._stream.poll.2 } := by
    generalize disconnect_db s = t at h ha ⊢
    unfold disconnect_db is_connected_db
    simp only [h, Bool.false_eq_true, if_false, Nat.add_sub_cancel, ha]
  refine ⟨key, ?_⟩
  rw [key]
  exact poll_written _

/-- C26. The mutex is still held when these operations return after a failure:
`prepared_stmt_exec_select` with a parameter that is no dictionary, `prepared_statement`
and `_query` when `put_data` fails, and `_connect` when a `poll()` of its waiting loop
fails. Each starts with the mutex free. -/
theorem mutex_held_after_failure :
    (fun r => (r.2._last_error, r.2._stream_mutex)) <$>
        prepared_stmt_exec_select protocolEnv 10
          (sessionOn (streamDelivering []) 16777216 true) 1 [.not_dictionary]
      = .ok (.ERR_INVALID_PARAMETER, 1) ∧
    (fun r => (r.2._last_error, r.2._stream_mutex)) <$>
        prepared_statement (sessionOn streamRefusing 16777216 true) "SELECT 1".toList
      = .ok (.ERR_CONNECTION_ERROR, 1) ∧
    (fun r => (r.2._last_error, r.2._stream_mutex)) <$>
        _query protocolEnv 10 (sessionOn streamRefusing 16777216 true) "SELECT 1".toList false
      = .ok (.ERR_CONNECTION_ERROR, 1) ∧
    (fun r => (r.1, r.2._stream_mutex)) <$>
        _connect protocolEnv (sessionOn streamPollFailing 0 false)
      = .ok (.ERR_CONNECTION_ERROR, 1) ∧
    (sessionOn streamRefusing 16777216 true)._stream_mutex = 0 := by
  refine ⟨?_, ?_, ?_, ?_, ?_⟩ <;> decide

/-- C27. On a session that is not authenticated, `_query` writes nothing, leaves an
error code other than `OK` in `_last_error`, and returns 0 in the command style and an
error code other than `OK` in the select style; `select_query` returns the empty list. -/
theorem query_not_authenticated (E : Env) (fuel : Nat) (s : Session) (p_sql_stmt : List Char)
    (h : s._authenticated = false) :
    (∀ p_is_command, ∃ r s2,
      _query E fuel s p_sql_stmt p_is_command = .ok (r, s2) ∧
        s2._stream.written = s._stream.written ∧ s2._last_error ≠ .OK ∧
        (p_is_command = true → r = .zero) ∧
        (p_is_command = false → ∃ e, e ≠ ErrorCode.OK ∧ r = .code e)) ∧
    ∃ s2, select_query E fuel s p_sql_stmt = .ok ([], s2) ∧
      s2._stream.written = s._stream.written ∧ s2._last_error ≠ .OK := by
  have hq : ∀ p_is_command, ∃ r s2,
      _query E fuel s p_sql_stmt p_is_command = .ok (r, s2) ∧
        s2._stream.written = s._stream.written ∧ s2._last_error ≠ .OK ∧
        (p_is_command = true → r = .zero) ∧
        (p_is_command = false → ∃ e, e ≠ ErrorCode.OK ∧ r = .code e) := by
    intro p_is_command
    unfold _query is_connected_db
    simp only [h, Bool.false_eq_true, not_false_eq_true, if_true]
    by_cases hc : s._stream.poll.2.connected = true <;> cases p_is_command <;>
      simp only [hc, not_true_eq_false, not_false_eq_true, if_true, if_false,
        Bool.false_eq_true, pure] <;>
      refine ⟨_, _, rfl, poll_written _, by simp, by simp, by simp⟩
  refine ⟨hq, ?_⟩
  obtain ⟨r, s2, h1, h2, h3, -, h5⟩ := hq false
  obtain ⟨e, -, he⟩ := h5 rfl
  refine ⟨s2, ?_, h2, h3⟩
  unfold select_query
  rw [h1, he]
  rfl

/-- C27, for a fresh connector that has not connected. -/
theorem query_not_authenticated_witness :
    (sessionOn (streamDelivering []) 0 false)._authenticated = false ∧
    ((∀ p_is_command, ∃ r s2,
        _query protocolEnv 10 (sessionOn (streamDelivering []) 0 false) "SELECT 1".toList
            p_is_command = .ok (r, s2) ∧
          s2._stream.written = (sessionOn (streamDelivering []) 0 false)._stream.written ∧
          s2._last_error ≠ .OK ∧
          (p_is_command = true → r = .zero) ∧
          (p_is_command = false → ∃ e, e ≠ ErrorCode.OK ∧ r = .code e)) ∧
      ∃ s2, select_query protocolEnv 10 (sessionOn (streamDelivering []) 0 false)
            "SELECT 1".toList = .ok ([], s2) ∧
        s2._stream.written = (sessionOn (streamDelivering []) 0 false)._stream.written ∧
        s2._last_error ≠ .OK) :=
  ⟨by decide,
    query_not_authenticated protocolEnv 10 (sessionOn (streamDelivering []) 0 false)
      "SELECT 1".toList (by decide)⟩

/-- C22, counterexample. For the response `05 00 00 01 FF` (header byte `0xFF`, four of the
five declared payload bytes missing, nothing more delivered), `prepared_stmt_exec_cmd`
returns the empty record with `ERR_PACKET_LENGTH_MISMATCH` in `_last_error`, not
`ERR_EXECUTE_FAILED`. -/
theorem exec_cmd_truncated_response :
    (fun r => (r.1, r.2._last_error)) <$>
        prepared_stmt_exec_cmd protocolEnv
          (sessionOn (streamDelivering [[5, 0, 0, 1, 0xFF]]) 16777216 true) 1 []
      = .ok (none, .ERR_PACKET_LENGTH_MISMATCH) := by
  decide

/-- C22, amended. When `_prepared_params_send` has succeeded, the response `rx` has at
least 3 bytes and the availability check for the declared payload answers `OK` (with the
buffer `rx2`), the header byte `h` being byte 4 of `rx2` (0 if `rx2` is shorter): for
`h = 0xFF` and an error payload that `_handle_server_error` can decode, the result is the
empty record with `ERR_EXECUTE_FAILED`; for `h = 0x00`, when the two length-encoded
integers decode to `a` and `l` and four more bytes follow, the result is the record of
`a` and `l` as the signed 64-bit integers a `Variant` holds, the two 16-bit values and the
remaining bytes as info; for every other `h` the result is the empty record with
`ERR_PARSE_ERROR`. Each time the mutex is released. A decoded value below `2 ^ 63` is kept
as it is, a value from `2 ^ 63` (`2 ^ 64 - 1` for the marker `0xFB`) comes out as the
value minus `2 ^ 64`. -/
theorem exec_cmd_header_cases (E : Env) (s s1 s2 s3 : Session) (p_stmt_id n : Nat)
    (p_params : List ParamEntry) (rx rx2 : Bytes)
    (hsend : _prepared_params_send E { s with _stream_mutex := s._stream_mutex + 1 }
      (p_stmt_id % 2 ^ 32) p_params = .ok (.OK, s1))
    (hread : _read_buffer { s1 with _last_error := .OK } = (rx, s2))
    (hrx : 3 ≤ rx.length)
    (hchk : _rcv_bfr_chk s2 rx 3 (leValue (rx.take 3)) = (.OK, rx2, n, s3)) :
    ((byteAt rx2 4).getD 0 = 0xFF → (_handle_server_error rx2 5).isSome = true →
      prepared_stmt_exec_cmd E s p_stmt_id p_params
        = .ok (none, { s3 with _last_error := .ERR_EXECUTE_FAILED,
                               _stream_mutex := s3._stream_mutex - 1 })) ∧
    ((byteAt rx2 4).getD 0 = 0x00 →
      ∀ a l i1 i2, _decode_lenenc_adv_itr rx2 5 = some (a, i1) →
        _decode_lenenc_adv_itr rx2 i1 = some (l, i2) → i2 + 4 ≤ rx2.length →
        prepared_stmt_exec_cmd E s p_stmt_id p_params
          = .ok (some { affected_rows := variant_from_u64 a,
                        last_insert_id := variant_from_u64 l,
                        status_flags := leValue ((rx2.drop i2).take 2),
                        warnings := leValue ((rx2.drop (i2 + 2)).take 2),
                        info := rx2.drop (i2 + 4) },
              { s3 with _last_error := .OK, _stream_mutex := s3._stream_mutex - 1 })) ∧
    ((byteAt rx2 4).getD 0 ≠ 0xFF → (byteAt rx2 4).getD 0 ≠ 0x00 →
      prepared_stmt_exec_cmd E s p_stmt_id p_params
        = .ok (none, { s3 with _last_error := .ERR_PARSE_ERROR,
                               _stream_mutex := s3._stream_mutex - 1 })) ∧
    (∀ v : Nat, v < 2 ^ 63 → variant_from_u64 v = v) ∧
    (∀ v : Nat, 2 ^ 63 ≤ v → v < 2 ^ 64 → variant_from_u64 v = (v : Int) - 2 ^ 64) := by
  have hne : ¬ rx.length = 0 := by omega
  have hnum : bytes_to_num_adv_itr 64 rx 3 0 = some (leValue (rx.take 3), 3) := by
    rw [bytes_to_num_of_le 64 rx 3 0 (by omega), List.drop_zero]
    have := leValue_take_lt rx 3
    rw [Nat.mod_eq_of_lt (by omega)]
  refine ⟨?_, ?_, ?_, ?_, ?_⟩
  · intro hh herr
    obtain ⟨r, hr⟩ := Option.isSome_iff_exists.mp herr
    unfold prepared_stmt_exec_cmd
    simp only [bind, Run.bind, hsend, ne_eq, not_true_eq_false, if_false, hread, hne, hnum,
      Run.ofOption, hchk, hh, if_true, hr, pure]
  · intro hh a l i1 i2 ha hl hlen
    have hst : bytes_to_num_adv_itr 16 rx2 2 i2
        = some (leValue ((rx2.drop i2).take 2), i2 + 2) := by
      rw [bytes_to_num_of_le 16 rx2 2 i2 (by omega)]
      have := leValue_take_lt (rx2.drop i2) 2
      rw [Nat.mod_eq_of_lt (by omega)]
    have hwn : bytes_to_num_adv_itr 16 rx2 2 (i2 + 2)
        = some (leValue ((rx2.drop (i2 + 2)).take 2), i2 + 2 + 2) := by
      rw [bytes_to_num_of_le 16 rx2 2 (i2 + 2) (by omega)]
      have := leValue_take_lt (rx2.drop (i2 + 2)) 2
      rw [Nat.mod_eq_of_lt (by omega)]
    have hinfo : (if i2 + 2 + 2 < rx2.length then
          (rx2.drop (i2 + 2 + 2)).take (rx2.length - (i2 + 2 + 2)) else [])
        = rx2.drop (i2 + 4) := by
      split
      · rw [List.take_of_length_le (by rw [List.length_drop])]
      · rw [List.drop_eq_nil_of_le (by omega)]
    unfold prepared_stmt_exec_cmd
    simp only [bind, Run.bind, hsend, ne_eq, not_true_eq_false, if_false, hread, hne, hnum,
      Run.ofOption, hchk, hh, if_true, pure, ha, hl, hst, hwn, hinfo, Nat.reduceEqDiff]
  · intro h1 h2
    unfold prepared_stmt_exec_cmd
    simp only [bind, Run.bind, hsend, ne_eq, not_true_eq_false, if_false, hread, hne, hnum,
      Run.ofOption, hchk, h1, h2, pure]
  · intro v hv
    unfold variant_from_u64
    rw [Nat.mod_eq_of_lt (by omega), if_pos hv]
  · intro v h1 h2
    unfold variant_from_u64
    rw [Nat.mod_eq_of_lt h2, if_neg (by omega)]

/-- C22, amended, for statement 1 without parameters and an OK packet as response. -/
theorem exec_cmd_header_cases_witness :
    (_prepared_params_send protocolEnv
          { sessionExec with _stream_mutex := sessionExec._stream_mutex + 1 } (1 % 2 ^ 32) []
        = .ok (.OK, sessionExecSent) ∧
      _read_buffer { sessionExecSent with _last_error := .OK }
        = (execOkResponse, sessionExecRead) ∧
      3 ≤ execOkResponse.length ∧
      _rcv_bfr_chk sessionExecRead execOkResponse 3 (leValue (execOkResponse.take 3))
        = (.OK, execOkResponse, 11, sessionExecRead)) ∧
    (((byteAt execOkResponse 4).getD 0 = 0xFF →
        (_handle_server_error execOkResponse 5).isSome = true →
      prepared_stmt_exec_cmd protocolEnv sessionExec 1 []
        = .ok (none, { sessionExecRead with
                _last_error := .ERR_EXECUTE_FAILED,
                _stream_mutex := sessionExecRead._stream_mutex - 1 })) ∧
    ((byteAt execOkResponse 4).getD 0 = 0x00 →
      ∀ a l i1 i2, _decode_lenenc_adv_itr execOkResponse 5 = some (a, i1) →
        _decode_lenenc_adv_itr execOkResponse i1 = some (l, i2) →
        i2 + 4 ≤ execOkResponse.length →
        prepared_stmt_exec_cmd protocolEnv sessionExec 1 []
          = .ok (some { affected_rows := variant_from_u64 a,
                        last_insert_id := variant_from_u64 l,
                        status_flags := leValue ((execOkResponse.drop i2).take 2),
                        warnings := leValue ((execOkResponse.drop (i2 + 2)).take 2),
                        info := execOkResponse.drop (i2 + 4) },
              { sessionExecRead with
                _last_error := .OK,
                _stream_mutex := sessionExecRead._stream_mutex - 1 })) ∧
    ((byteAt execOkResponse 4).getD 0 ≠ 0xFF → (byteAt execOkResponse 4).getD 0 ≠ 0x00 →
      prepared_stmt_exec_cmd protocolEnv sessionExec 1 []
        = .ok (none, { sessionExecRead with
                _last_error := .ERR_PARSE_ERROR,
                _stream_mutex := sessionExecRead._stream_mutex - 1 })) ∧
    (∀ v : Nat, v < 2 ^ 63 → variant_from_u64 v = v) ∧
    (∀ v : Nat, 2 ^ 63 ≤ v → v < 2 ^ 64 → variant_from_u64 v = (v : Int) - 2 ^ 64)) :=
  ⟨by decide,
    exec_cmd_header_cases protocolEnv sessionExec sessionExecSent sessionExecRead
      sessionExecRead 1 11 [] execOkResponse execOkResponse (by decide) (by decide)
      (by decide) (by decide)⟩

/-! ## The handshake: plugin name, extended capabilities, client capability mask -/

set_option maxRecDepth 100000 in
/-- C28. For the protocol-10 greeting `greetingV10`, whose plugin name is
`mysql_native_password`, the text that `_server_init_handshake_v10` reads as the plugin
name is `ysql_native_password`: the loop advances the cursor before its first read. The
text is classified as `AUTH_TYPE_ED25519`, while `mysql_native_password` itself is
`AUTH_TYPE_MYSQL_NATIVE`. -/
theorem handshake_plugin_name_first_byte :
    (fun r => r.1.map fun f => f.2) <$>
        handshake_v10_fields protocolEnv (sessionOn (streamDelivering []) 0 false) greetingV10
      = .ok (some (ascii "ysql_native_password")) ∧
    _get_server_auth_type (ascii "ysql_native_password") = .AUTH_TYPE_ED25519 ∧
    _get_server_auth_type (ascii "mysql_native_password") = .AUTH_TYPE_MYSQL_NATIVE := by
  refine ⟨?_, ?_, ?_⟩ <;> decide

set_option maxRecDepth 100000 in
/-- C29. For a greeting without the legacy-MySQL flag and with the version
`5.5.5-11.0.2-MariaDB`, parsed as (11, 0), the four bytes `1D 00 00 00` after the filler
are skipped: the server capabilities have no bit from 32 on, and the four bytes of the
handshake response after the 19 reserved ones are zero. For the version
`5.5.5-10.6.12-MariaDB` they are read and the client high word `10 00 00 00` is sent. -/
theorem extended_capabilities_version_11 :
    (fun r => (r.2._srvr_major_ver, r.2._srvr_minor_ver, r.2._server_capabilities >>> 32,
        (client_protocol_v41_head protocolEnv r.2).2.drop 28)) <$>
        handshake_v10_fields protocolEnv (sessionOn (streamDelivering []) 0 false) greetingV11
      = .ok (11, 0, 0, [0, 0, 0, 0]) ∧
    (fun r => (r.2._srvr_major_ver, r.2._srvr_minor_ver, r.2._server_capabilities >>> 32,
        (client_protocol_v41_head protocolEnv r.2).2.drop 28)) <$>
        handshake_v10_fields protocolEnv (sessionOn (streamDelivering []) 0 false) greetingV10
      = .ok (10, 6, 0x1D, [0x10, 0, 0, 0]) ∧
    (fun r => r.2._server_capabilities &&& protocolEnv.CLIENT_MYSQL) <$>
        handshake_v10_fields protocolEnv (sessionOn (streamDelivering []) 0 false) greetingV11
      = .ok 0 := by
  refine ⟨?_, ?_, ?_⟩ <;> decide

theorem client_caps_base_eq (E : Env) (s : Session) (hf : fixed_capabilities E < 2 ^ 64)
    (hs : s._server_capabilities < 2 ^ 64) :
    client_caps_base E s
      = fixed_capabilities E |||
          (s._server_capabilities &&&
            (E.CLIENT_MYSQL ||| E.CONNECT_WITH_DB ||| E.CLIENT_DEPRECATE_EOF)) := by
  have hm : s._server_capabilities &&&
      (E.CLIENT_MYSQL ||| E.CONNECT_WITH_DB ||| E.CLIENT_DEPRECATE_EOF) < 2 ^ 64 := by
    rw [Nat.and_comm]
    exact Nat.and_lt_two_pow _ hs
  have hlt := Nat.or_lt_two_pow hf hm
  have hx : 0 ||| (s._server_capabilities &&& E.CLIENT_MYSQL) ||| E.LONG_FLAG |||
      (s._server_capabilities &&& E.CONNECT_WITH_DB) ||| E.LOCAL_FILES |||
      E.CLIENT_PROTOCOL_41 ||| E.CLIENT_INTERACTIVE ||| E.SECURE_CONNECTION ||| E.RESERVED2 |||
      E.MULTI_STATEMENTS ||| E.MULTI_RESULTS ||| E.PS_MULTI_RESULTS ||| E.PLUGIN_AUTH |||
      E.CAN_HANDLE_EXPIRED_PASSWORDS ||| E.SESSION_TRACK |||
      (s._server_capabilities &&& E.CLIENT_DEPRECATE_EOF) ||| E.REMEMBER_OPTIONS
      = fixed_capabilities E |||
          (s._server_capabilities &&&
            (E.CLIENT_MYSQL ||| E.CONNECT_WITH_DB ||| E.CLIENT_DEPRECATE_EOF)) := by
    simp only [Nat.zero_or, Nat.and_or_distrib_left, fixed_capabilities]
    ac_rfl
  unfold client_caps_base
  simp only
  rw [hx, Nat.mod_eq_of_lt hlt]

theorem client_protocol_v41_head_caps (E : Env) (s : Session)
    (hf : fixed_capabilities E < 2 ^ 64) (hs : s._server_capabilities < 2 ^ 64) :
    (client_protocol_v41_head E s).1._client_capabilities
      = fixed_capabilities E |||
          (s._server_capabilities &&& mirrored_capabilities E (extended_caps E s)) := by
  have hext : extended_caps E { s with _client_capabilities := client_caps_base E s }
      = extended_caps E s := rfl
  unfold client_protocol_v41_head
  simp only [hext]
  cases he : extended_caps E s
  · simp only [Bool.false_eq_true, if_false, mirrored_capabilities, Nat.or_zero]
    exact client_caps_base_eq E s hf hs
  · simp only [if_true, mirrored_capabilities, client_caps_base_eq E s hf hs,
      Nat.and_or_distrib_left]
    ac_rfl

theorem read_buffer_caps (s : Session) :
    (_read_buffer s).2._client_capabilities = s._client_capabilities := by
  unfold _read_buffer
  split <;> rfl

theorem client_protocol_v41_ed25519_caps (E : Env) (s s2 : Session) (resp : Bytes)
    (itr seq_num : Nat) (t : AuthType) (e : ErrorCode)
    (h : client_protocol_v41_ed25519 E s resp itr seq_num t = .ok (e, s2)) :
    s2._client_capabilities = s._client_capabilities := by
  unfold client_protocol_v41_ed25519 at h
  simp only [bind, Run.bind, pure, Run.ofOption] at h
  repeat' split at h
  all_goals (cases h <;> first | rfl | exact read_buffer_caps _)

theorem client_protocol_v41_reply_caps (E : Env) (s s2 : Session) (resp : Bytes)
    (e : ErrorCode) (h : client_protocol_v41_reply E s resp = .ok (e, s2)) :
    s2._client_capabilities = s._client_capabilities := by
  unfold client_protocol_v41_reply at h
  simp only [bind, Run.bind, pure, Run.ofOption] at h
  repeat' split at h
  all_goals first
    | (cases h <;> rfl)
    | exact client_protocol_v41_ed25519_caps _ _ _ _ _ _ _ _ h

theorem client_protocol_v41_send_caps (E : Env) (s s2 : Session) (pkt : Bytes)
    (e : ErrorCode) (h : client_protocol_v41_send E s pkt = .ok (e, s2)) :
    s2._client_capabilities = s._client_capabilities := by
  unfold client_protocol_v41_send at h
  simp only at h
  split at h
  · cases h
    rfl
  · rw [client_protocol_v41_reply_caps _ _ _ _ _ h]
    exact read_buffer_caps _

theorem run_bind_eq_ok {α β : Type} {x : Run α} {f : α → Run β} {r : β}
    (h : (x >>= f) = .ok r) : ∃ a, x = .ok a ∧ f a = .ok r := by
  cases x with
  | ok a => exact ⟨a, rfl, h⟩
  | out_of_bounds => cases h
  | out_of_fuel => cases h

theorem client_protocol_v41_caps (E : Env) (s s2 : Session) (t : AuthType) (salt : Bytes)
    (e : ErrorCode) (h : _client_protocol_v41 E s t salt = .ok (e, s2)) :
    s2._client_capabilities = (client_protocol_v41_head E s).1._client_capabilities := by
  unfold _client_protocol_v41 at h
  generalize client_protocol_v41_head E s = hd at h ⊢
  obtain ⟨s1, buf⟩ := hd
  simp only at h
  split at h
  · obtain ⟨a, -, ha⟩ := run_bind_eq_ok h
    exact client_protocol_v41_send_caps _ _ _ _ _ ha
  · obtain ⟨a, -, ha⟩ := run_bind_eq_ok h
    exact client_protocol_v41_send_caps _ _ _ _ _ ha

/-- C30. With a fixed set and a server capability mask `S` below `2 ^ 64`, the client
capability mask that `_client_protocol_v41` assigns is
`fixed_capabilities OR (S AND mirrored_capabilities)`, the metadata cache being mirrored
under the extended-capability condition only, and it is the mask of the session that
`_client_protocol_v41` returns. Hence a mirrored bit outside the fixed set is in the
client mask iff it is in `S`, and every bit of the client mask is in the fixed set or in
`S`. The fixed set contains protocol-41, secure-connection, interactive, multi-statements,
multi-results, plugin-auth and session-track. -/
theorem client_capability_mask (E : Env) (s : Session)
    (hf : fixed_capabilities E < 2 ^ 64) (hs : s._server_capabilities < 2 ^ 64) :
    (client_protocol_v41_head E s).1._client_capabilities
      = fixed_capabilities E |||
          (s._server_capabilities &&& mirrored_capabilities E (extended_caps E s)) ∧
    (∀ t salt e s2, _client_protocol_v41 E s t salt = .ok (e, s2) →
      s2._client_capabilities
        = fixed_capabilities E |||
            (s._server_capabilities &&& mirrored_capabilities E (extended_caps E s))) ∧
    (∀ i, (mirrored_capabilities E (extended_caps E s)).testBit i = true →
      (fixed_capabilities E).testBit i = false →
      (client_protocol_v41_head E s).1._client_capabilities.testBit i
        = s._server_capabilities.testBit i) ∧
    (∀ i, (client_protocol_v41_head E s).1._client_capabilities.testBit i = true →
      (fixed_capabilities E).testBit i = true ∨ s._server_capabilities.testBit i = true) ∧
    (∀ c ∈ [E.CLIENT_PROTOCOL_41, E.SECURE_CONNECTION, E.CLIENT_INTERACTIVE,
        E.MULTI_STATEMENTS, E.MULTI_RESULTS, E.PLUGIN_AUTH, E.SESSION_TRACK],
      fixed_capabilities E &&& c = c) := by
  have hc := client_protocol_v41_head_caps E s hf hs
  refine ⟨hc, ?_, ?_, ?_, ?_⟩
  · intro t salt e s2 h
    rw [client_protocol_v41_caps E s s2 t salt e h, hc]
  · intro i hm hfx
    rw [hc, Nat.testBit_or, Nat.testBit_and, hm, hfx]
    simp
  · intro i hi
    rw [hc, Nat.testBit_or, Nat.testBit_and] at hi
    cases hfx : (fixed_capabilities E).testBit i
    · right
      rw [hfx] at hi
      simp only [Bool.false_or, Bool.and_eq_true] at hi
      exact hi.1
    · left
      rfl
  · intro c hmem
    apply Nat.eq_of_testBit_eq
    intro i
    simp only [List.mem_cons, List.mem_singleton, List.not_mem_nil, or_false] at hmem
    rw [Nat.testBit_and]
    cases hb : c.testBit i
    · simp
    · have hfx : (fixed_capabilities E).testBit i = true := by
        unfold fixed_capabilities
        simp only [Nat.testBit_or, Bool.or_eq_true]
        rcases hmem with h | h | h | h | h | h | h <;> subst h <;> simp [hb]
      simp [hfx]

/-- C30, for the capability values of the protocol and the server mask `0x81FFF7FE`. -/
theorem client_capability_mask_witness :
    (fixed_capabilities protocolEnv < 2 ^ 64 ∧
      ({ sessionOn (streamDelivering []) 0 false with
          _server_capabilities := 0x81FFF7FE } : Session)._server_capabilities < 2 ^ 64) ∧
    (client_protocol_v41_head protocolEnv
        { sessionOn (streamDelivering []) 0 false with
          _server_capabilities := 0x81FFF7FE }).1._client_capabilities
      = fixed_capabilities protocolEnv |||
          ((0x81FFF7FE : Nat) &&& mirrored_capabilities protocolEnv
            (extended_caps protocolEnv
              { sessionOn (streamDelivering []) 0 false with
                _server_capabilities := 0x81FFF7FE })) :=
  ⟨by decide,
    (client_capability_mask protocolEnv
      { sessionOn (streamDelivering []) 0 false with _server_capabilities := 0x81FFF7FE }
      (by decide) (by decide)).1⟩

set_option maxRecDepth 100000 in
/-- C17. On a connection without `CLIENT_DEPRECATE_EOF` the response to the preparation of
`SELECT ? + ?` (statement 1, two parameters, one column, 119 bytes, fully buffered) has an
EOF packet after the two parameter packets. `prepared_statement` skips the two parameter
packets, which leaves the cursor at byte 70, on the EOF packet `05 00 00 04 FE 00 00 02 00`;
the column loop takes it for the column-definition packet and decodes its header byte `0xFE`
as the length of the catalog, `0x0500001B00020000`, read from the rest of the EOF packet and
the header of the next packet: the text is read past the end of the buffer, and no column
definition of the response enters the cache. On the same packets without the EOF packets the
record and the cached column definition are the ones the response carries. -/
theorem prepared_statement_eof_packet_as_column :
    prepareSumResponseWithEof.length = 119 ∧
    Prod.fst <$> skip_param_defs 2 (sessionOn (streamDelivering []) 0 true)
        prepareSumResponseWithEof 16 = .ok (some (prepareSumResponseWithEof, 70)) ∧
    (prepareSumResponseWithEof.drop 70).take 9 = [0x05, 0, 0, 4, 0xFE, 0, 0, 2, 0] ∧
    _decode_lenenc_adv_itr prepareSumResponseWithEof 74 = some (0x0500001B00020000, 83) ∧
    prepared_statement (sessionOn (streamDelivering [prepareSumResponseWithEof]) 0 true)
      "SELECT ? + ?".toList = .out_of_bounds ∧
    (fun r => (r.1, r.2._prep_column_data)) <$>
        prepared_statement (sessionOn (streamDelivering [prepareSumResponse]) 0 true)
          "SELECT ? + ?".toList
      = .ok (some { statement_id := 1, num_columns := 1, num_params := 2 },
          [(1, [bigintColumn "? + ?"])]) := by
  refine ⟨?_, ?_, ?_, ?_, ?_, ?_⟩ <;> decide

/-! ## Plugin names, the switch request, server errors and the EOF packet of a query -/

set_option maxRecDepth 100000 in
/-- C33. A client configured for Ed25519 whose handshake response is answered with a
switch request (status `0xFE`) for the plugin `caching_sha2_password` sends a second
packet, the 64-byte signature with sequence byte 3, and returns `OK`:
`_get_server_auth_type` takes every name it does not know for Ed25519. For the name
`mysql_native_password`, and for a client configured for MySQLNative, the result is
`ERR_AUTH_PROTOCOL_MISMATCH` and one packet. -/
theorem switch_request_unknown_plugin_signed :
    _get_server_auth_type (ascii "caching_sha2_password") = .AUTH_TYPE_ED25519 ∧
    (fun r => (r.1, r.2._authenticated, r.2._stream.written.drop 1)) <$>
        _client_protocol_v41 protocolEnv
          (sessionAuth .AUTH_TYPE_ED25519 (switchRequest "caching_sha2_password"))
          .AUTH_TYPE_MYSQL_NATIVE (List.replicate 21 3)
      = .ok (.OK, false,
          [_add_packet_header
            (get_client_ed25519_signature protocolEnv (List.replicate 64 1)
              (List.replicate 32 7)) 3]) ∧
    (fun r => (r.1, r.2._authenticated, r.2._stream.written.length)) <$>
        _client_protocol_v41 protocolEnv
          (sessionAuth .AUTH_TYPE_ED25519 (switchRequest "mysql_native_password"))
          .AUTH_TYPE_MYSQL_NATIVE (List.replicate 21 3)
      = .ok (.ERR_AUTH_PROTOCOL_MISMATCH, false, 1) ∧
    (fun r => (r.1, r.2._authenticated, r.2._stream.written.length)) <$>
        _client_protocol_v41 protocolEnv
          (sessionAuth .AUTH_TYPE_MYSQL_NATIVE (switchRequest "caching_sha2_password"))
          .AUTH_TYPE_MYSQL_NATIVE (List.replicate 21 3)
      = .ok (.ERR_AUTH_PROTOCOL_MISMATCH, false, 1) := by
  refine ⟨?_, ?_, ?_, ?_⟩ <;> decide

set_option maxRecDepth 100000 in
/-- C34. For the ERR packet `FF 15 04 #28000 Access denied` (server error 1045) as the
response to a query, `_com_query_response` sets `ERR_PACKET` and returns 0 in the command
style and the code in the select style, and the server error code it decodes is 5631
(`0x15FF`): `_handle_server_error` is given the cursor of the marker `0xFF`, not of the
byte after it. From the byte after the marker, where `prepared_stmt_exec_select`,
`prepared_stmt_exec_cmd` and `prepared_statement` start, the same packet gives 1045, the
little-endian value of the two bytes `15 04`. -/
theorem com_query_response_error_code_from_marker :
    (fun r => (r.1.srvr_error_code, r.2.1, r.2.2._last_error)) <$>
        com_query_response_steps protocolEnv 10
          (sessionOn (streamDelivering [errResponse1045]) 16777216 true) false
      = .ok (some 5631, .code .ERR_PACKET, .ERR_PACKET) ∧
    (fun r => (r.1.srvr_error_code, r.2.1, r.2.2._last_error)) <$>
        com_query_response_steps protocolEnv 10
          (sessionOn (streamDelivering [errResponse1045]) 16777216 true) true
      = .ok (some 5631, .zero, .ERR_PACKET) ∧
    (fun r => (r.1, r.2._last_error)) <$>
        _com_query_response protocolEnv 10
          (sessionOn (streamDelivering [errResponse1045]) 16777216 true) false
      = .ok (.code .ERR_PACKET, .ERR_PACKET) ∧
    errResponse1045.take 7 = [0x16, 0, 0, 1, 0xFF, 0x15, 0x04] ∧
    leValue [0x15, 0x04] = 1045 ∧
    (_handle_server_error errResponse1045 4).map (fun r => r.1) = some 5631 ∧
    (_handle_server_error errResponse1045 5).map (fun r => r.1) = some 1045 := by
  refine ⟨?_, ?_, ?_, ?_, ?_, ?_, ?_⟩ <;> decide

set_option maxRecDepth 100000 in
/-- C35. For the response to `SELECT 1` on a connection without `CLIENT_DEPRECATE_EOF`
(56 bytes), `_read_columns_data` leaves the cursor at byte 32, the first byte of the EOF
packet `05 00 00 03 FE 00 00 02 00`; the first row packet starts at byte 41.
`_com_query_response` hands the cursor 37 to `_parse_string_rows`, five bytes further and
inside the EOF packet: the bytes `00 00 02` there are read as the packet length `0x020000`,
and the result is no row and `ERR_PACKET_LENGTH_MISMATCH`. -/
theorem com_query_response_eof_skip_five :
    select1ResponseWithEof.length = 56 ∧
    (fun r => r.2.2.1) <$> _read_columns_data (sessionOn (streamDelivering []) 0 true)
        select1ResponseWithEof 5 1 = .ok 32 ∧
    (select1ResponseWithEof.drop 32).take 9 = [0x05, 0, 0, 3, 0xFE, 0, 0, 2, 0] ∧
    select1ResponseWithEof.drop 41 = [0x02, 0, 0, 4, 1, 0x31, 0x05, 0, 0, 5, 0xFE, 0, 0, 2, 0] ∧
    (fun r => (r.1.rows_start, r.2.1, r.2.2._last_error)) <$>
        com_query_response_steps protocolEnv 10
          (sessionOn (streamDelivering [select1ResponseWithEof]) 0 true) false
      = .ok (some 37, .rows [], .ERR_PACKET_LENGTH_MISMATCH) ∧
    bytes_to_num_adv_itr 64 select1ResponseWithEof 3 37 = some (0x020000, 40) := by
  refine ⟨?_, ?_, ?_, ?_, ?_, ?_⟩ <;> decide

set_option maxRecDepth 100000 in
/-- C40. For a DATETIME column whose value starts at byte 6 of the row packet,
`_parse_prepared_exec` leaves the cursor at byte 14 for the lengths 0, 4 and 7 (1 + 7
bytes each time) and at byte 18 for the length 11: seven bytes of fields are read whatever
the length byte says. With the length 4 (2024-01-02) or 0 the TINY column that follows,
sent as 42, is decoded as 0 from a byte of the next packet, and the text holds bytes that
are not part of the value; with the length 7 it is decoded as 42. -/
theorem datetime_field_always_seven_bytes :
    (binary_field protocolEnv (sessionOn (streamDelivering []) 0 true)
        (dateTinyRowPackets [0]) 6 12).map (fun r => r.2) = some 14 ∧
    (binary_field protocolEnv (sessionOn (streamDelivering []) 0 true)
        (dateTinyRowPackets [4, 0xE8, 0x07, 1, 2]) 6 12).map (fun r => r.2) = some 14 ∧
    (binary_field protocolEnv (sessionOn (streamDelivering []) 0 true)
        (dateTinyRowPackets [7, 0xE8, 0x07, 1, 2, 3, 4, 5]) 6 12).map (fun r => r.2)
      = some 14 ∧
    (binary_field protocolEnv (sessionOn (streamDelivering []) 0 true)
        (dateTinyRowPackets [11, 0xE8, 0x07, 1, 2, 3, 4, 5, 6, 0, 0, 0]) 6 12).map
        (fun r => r.2) = some 18 ∧
    binary_row_cols protocolEnv (sessionOn (streamDelivering []) 0 true)
        (dateTinyRowPackets [4, 0xE8, 0x07, 1, 2]) 5 [datetimeColumn, tinyColumn] 0 6 []
      = some ([(ascii "d", .string (ascii "2024-01-02 42:07:00")), (ascii "a", .int 0)], 15) ∧
    binary_row_cols protocolEnv (sessionOn (streamDelivering []) 0 true)
        (dateTinyRowPackets [0]) 5 [datetimeColumn, tinyColumn] 0 6 []
      = some ([(ascii "d", .string (ascii "1834-00-00 02:254:00")), (ascii "a", .int 0)],
          15) ∧
    binary_row_cols protocolEnv (sessionOn (streamDelivering []) 0 true)
        (dateTinyRowPackets [7, 0xE8, 0x07, 1, 2, 3, 4, 5]) 5 [datetimeColumn, tinyColumn] 0 6
        []
      = some ([(ascii "d", .string (ascii "2024-01-02 03:04:05")), (ascii "a", .int 42)],
          15) ∧
    (fun r => (r.1, r.2.2.2._last_error)) <$> _parse_prepared_exec protocolEnv 10
        (sessionOn (streamDelivering []) 16777216 true)
        (dateTinyRowPackets [4, 0xE8, 0x07, 1, 2]) 0 [datetimeColumn, tinyColumn] true
      = .ok ([], .ERR_PACKET_LENGTH_MISMATCH) := by
  refine ⟨?_, ?_, ?_, ?_, ?_, ?_, ?_, ?_⟩ <;> decide

/-! ## Binary rows: the column flags and the null bitmap -/

theorem null_bit (nm b : Nat) : (decide ((nm >>> b) &&& 1 ≠ 0)) = nm.testBit b := by
  rw [Nat.testBit_to_div_mod, Nat.and_one_is_mod, Nat.shiftRight_eq_div_pow]
  have hlt : nm / 2 ^ b % 2 < 2 := Nat.mod_lt _ (by omega)
  rcases Nat.lt_succ_iff_lt_or_eq.mp hlt with h | h
  · have h0 : nm / 2 ^ b % 2 = 0 := by omega
    simp [h0]
  · simp [h]

theorem binary_row_cols_cons (E : Env) (s : Session) (buf : Bytes) (nms : Nat)
    (col : ColumnDef) (cols : List ColumnDef) (c idx nm : Nat) (row : Dictionary)
    (hnm : byteAt buf (nms + (c + 2) / 8) = some nm) :
    binary_row_cols E s buf nms (col :: cols) c idx row
      = if nm.testBit ((c + 2) % 8) then
          binary_row_cols E s buf nms cols (c + 1) idx (row.set col.name .nil)
        else
          (binary_field E s buf idx col.field_type).bind fun r =>
            binary_row_cols E s buf nms cols (c + 1) r.2 (row.set col.name r.1) := by
  have h1 : (c + 2) >>> 3 = (c + 2) / 8 := by rw [Nat.shiftRight_eq_div_pow]
  have h2 : (c + 2) &&& 7 = (c + 2) % 8 := by
    have := Nat.and_pow_two_sub_one_eq_mod (c + 2) 3
    simpa using this
  conv_lhs => rw [binary_row_cols]
  simp only [h1, h2, hnm, Option.bind_eq_bind, Option.some_bind, null_bit]
  cases nm.testBit ((c + 2) % 8)
  · simp only [Bool.false_eq_true, if_false]
  · simp only [if_true, Option.pure_def, Option.some_bind]

theorem binary_field_not_nil (E : Env) (s : Session) (buf : Bytes) (idx t : Nat)
    (v : Variant) (i : Nat) (ht : t ∈ binaryKinds E)
    (h : binary_field E s buf idx t = some (v, i)) : v ≠ .nil := by
  unfold binary_field at h
  by_cases c1 : t = E.MYSQL_TYPE_TINY
  · rw [if_pos c1] at h
    simp only [Option.bind_eq_bind, Option.pure_def, Option.bind_eq_some, Option.some.injEq,
      Prod.mk.injEq, Prod.exists] at h
    obtain ⟨_, _, _, rfl, _⟩ := h
    simp
  rw [if_neg c1] at h
  by_cases c2 : t = E.MYSQL_TYPE_SHORT ∨ t = E.MYSQL_TYPE_YEAR
  · rw [if_pos c2] at h
    simp only [Option.bind_eq_bind, Option.pure_def, Option.bind_eq_some, Option.some.injEq,
      Prod.mk.injEq, Prod.exists] at h
    obtain ⟨_, _, _, rfl, _⟩ := h
    simp
  rw [if_neg c2] at h
  by_cases c3 : t = E.MYSQL_TYPE_INT24
  · rw [if_pos c3] at h
    simp only [Option.bind_eq_bind, Option.pure_def, Option.bind_eq_some, Option.some.injEq,
      Prod.mk.injEq, Prod.exists] at h
    obtain ⟨_, _, _, rfl, _⟩ := h
    simp
  rw [if_neg c3] at h
  by_cases c4 : t = E.MYSQL_TYPE_LONG
  · rw [if_pos c4] at h
    simp only [Option.bind_eq_bind, Option.pure_def, Option.bind_eq_some, Option.some.injEq,
      Prod.mk.injEq, Prod.exists] at h
    obtain ⟨_, _, _, rfl, _⟩ := h
    simp
  rw [if_neg c4] at h
  by_cases c5 : t = E.MYSQL_TYPE_FLOAT
  · rw [if_pos c5] at h
    simp only [Option.bind_eq_bind, Option.pure_def, Option.bind_eq_some, Option.some.injEq,
      Prod.mk.injEq] at h
    obtain ⟨_, _, rfl, _⟩ := h
    simp
  rw [if_neg c5] at h
  by_cases c6 : t = E.MYSQL_TYPE_LONGLONG
  · rw [if_pos c6] at h
    simp only [Option.bind_eq_bind, Option.pure_def, Option.bind_eq_some, Option.some.injEq,
      Prod.mk.injEq, Prod.exists] at h
    obtain ⟨_, _, _, rfl, _⟩ := h
    simp
  rw [if_neg c6] at h
  by_cases c7 : t = E.MYSQL_TYPE_DOUBLE
  · rw [if_pos c7] at h
    simp only [Option.bind_eq_bind, Option.pure_def, Option.bind_eq_some, Option.some.injEq,
      Prod.mk.injEq] at h
    obtain ⟨_, _, rfl, _⟩ := h
    split <;> simp
  rw [if_neg c7] at h
  by_cases c8 : t = E.MYSQL_TYPE_DECIMAL ∨ t = E.MYSQL_TYPE_NEWDECIMAL ∨
      t = E.MYSQL_TYPE_STRING ∨ t = E.MYSQL_TYPE_VAR_STRING
  · rw [if_pos c8] at h
    simp only [Option.bind_eq_bind, Option.pure_def, Option.bind_eq_some, Prod.exists] at h
    obtain ⟨a, b, -, h⟩ := h
    split at h
    · simp only [Option.some.injEq, Prod.mk.injEq] at h
      obtain ⟨rfl, _⟩ := h
      simp
    · simp only [Option.bind_eq_some, Option.some.injEq, Prod.mk.injEq] at h
      obtain ⟨_, _, rfl, _⟩ := h
      simp
  rw [if_neg c8] at h
  by_cases c9 : t = E.MYSQL_TYPE_TIMESTAMP ∨ t = E.MYSQL_TYPE_DATETIME
  · rw [if_pos c9] at h
    simp only [Option.bind_eq_bind, Option.pure_def, Option.bind_eq_some, Prod.exists] at h
    obtain ⟨_, -, _, _, -, _, -, _, -, _, -, _, -, _, -, h⟩ := h
    split at h
    · simp only [Option.bind_eq_some, Option.some.injEq, Prod.mk.injEq, Prod.exists] at h
      obtain ⟨_, _, _, rfl, _⟩ := h
      simp
    · simp only [Option.some.injEq, Prod.mk.injEq] at h
      obtain ⟨rfl, _⟩ := h
      simp
  exfalso
  simp only [binaryKinds, List.mem_cons, List.mem_singleton, List.not_mem_nil, or_false] at ht
  tauto

theorem sub64_of_le (a b : Nat) (ha : a < 2 ^ 64) (hb : b ≤ a) : sub64 a b = a - b := by
  unfold sub64
  omega

theorem parse_prepared_exec_row (E : Env) (defs : List ColumnDef) (fuel : Nat) (s : Session)
    (buf : Bytes) (p h : Nat) (rows : List Dictionary)
    (hdefs : defs.length + 9 < 2 ^ 32)
    (hsz : buf.length < 2 ^ 64) (hhdr : p + 5 ≤ buf.length)
    (hpkt : leValue ((buf.drop p).take 3) ≤ buf.length - (p + 3))
    (hh : byteAt buf (p + 4) = some h)
    (hrow : ¬ (h = 0xFE ∧ leValue ((buf.drop p).take 3) = 7)) :
    parse_prepared_exec_loop E defs (fuel + 1) s buf p rows
      = match binary_row_cols E { s with _last_error := .OK } buf (p + 5) defs 0
            (p + 5 + (defs.length + 2 + 7) / 8) [] with
        | none => .out_of_bounds
        | some r =>
          parse_prepared_exec_loop E defs fuel { s with _last_error := .OK } buf r.2
            (rows ++ [r.1]) := by
  have hl := leValue_take_lt (buf.drop p) 3
  have hc1 : ¬ sub64 buf.length p < 4 % 2 ^ 64 := by
    rw [sub64_of_le _ _ hsz (by omega)]
    omega
  have hc2 : ¬ sub64 buf.length (p + 3)
      < leValue ((buf.drop p).take 3) % 2 ^ 64 % 2 ^ 64 := by
    rw [sub64_of_le _ _ hsz (by omega)]
    omega
  have hnum : bytes_to_num_adv_itr 64 buf 3 p
      = some (leValue ((buf.drop p).take 3) % 2 ^ 64, p + 3) :=
    bytes_to_num_of_le 64 buf 3 p (by omega)
  have hmod : leValue ((buf.drop p).take 3) % 2 ^ 64 = leValue ((buf.drop p).take 3) :=
    Nat.mod_eq_of_lt (by omega)
  obtain ⟨q, hq, -⟩ := byteAt_exists buf (p + 3) (by omega)
  have hnb : ((defs.length % 2 ^ 32 + 7 + 2) % 2 ^ 32) / 8 = (defs.length + 2 + 7) / 8 := by
    omega
  have hrow2 : ¬ (h = 0xFE ∧ leValue ((buf.drop p).take 3) % 2 ^ 64 = 7) := by
    rw [hmod]
    exact hrow
  conv_lhs => rw [parse_prepared_exec_loop]
  simp only [rcv_bfr_chk_eq, hc1, if_false, ne_eq, not_true_eq_false, hnum, Run.ofOption,
    bind, Run.bind, hc2, hq, hh, hrow2, hnb]
  cases binary_row_cols E { s with _last_error := .OK } buf (p + 3 + 1 + 1) defs 0
      (p + 3 + 1 + 1 + (defs.length + 2 + 7) / 8) [] <;> rfl

/-- Null bitmap of a binary row, the part of C37 that holds for every column type and the
part that holds for the types with a case in the switch: in a binary row packet that starts
at byte `p` of a buffer that holds it, for
`c > 0` cached columns, the column loop is run with the null bitmap at byte `p + 5`, the
byte after the header byte, and the values from byte `p + 5 + ceil((c + 2) / 8)` on. In
the column loop, for the column with index `j` and the bitmap byte `nm` at
`nullmap_start + (j + 2) / 8`: if bit `(j + 2) mod 8` of `nm` is set the value is null and
the cursor stays; if it is clear the value and the cursor are those of the type switch,
which gives no null value for a type that has a case (for the other types, the switch
leaves the value null, without a byte consumed). -/
theorem binary_row_null_bitmap (E : Env) (s : Session) (buf : Bytes) (nullmap_start : Nat)
    (col : ColumnDef) (cols : List ColumnDef) (j idx nm : Nat) (row : Dictionary)
    (hnm : byteAt buf (nullmap_start + (j + 2) / 8) = some nm) :
    (nm.testBit ((j + 2) % 8) = true →
      binary_row_cols E s buf nullmap_start (col :: cols) j idx row
        = binary_row_cols E s buf nullmap_start cols (j + 1) idx (row.set col.name .nil)) ∧
    (nm.testBit ((j + 2) % 8) = false →
      binary_row_cols E s buf nullmap_start (col :: cols) j idx row
        = (binary_field E s buf idx col.field_type).bind fun r =>
            binary_row_cols E s buf nullmap_start cols (j + 1) r.2
              (row.set col.name r.1)) ∧
    (∀ v i, col.field_type ∈ binaryKinds E →
      binary_field E s buf idx col.field_type = some (v, i) → v ≠ .nil) ∧
    (∀ (defs : List ColumnDef) (fuel p h : Nat) (rows : List Dictionary),
      0 < defs.length → defs.length + 9 < 2 ^ 32 → buf.length < 2 ^ 64 →
      p + 5 ≤ buf.length → leValue ((buf.drop p).take 3) ≤ buf.length - (p + 3) →
      byteAt buf (p + 4) = some h → ¬ (h = 0xFE ∧ leValue ((buf.drop p).take 3) = 7) →
      (defs.length + 2 + 7) / 8 * 8 < defs.length + 2 + 8 ∧
      defs.length + 2 ≤ (defs.length + 2 + 7) / 8 * 8 ∧
      parse_prepared_exec_loop E defs (fuel + 1) s buf p rows
        = match binary_row_cols E { s with _last_error := .OK } buf (p + 5) defs 0
              (p + 5 + (defs.length + 2 + 7) / 8) [] with
          | none => .out_of_bounds
          | some r =>
            parse_prepared_exec_loop E defs fuel { s with _last_error := .OK } buf r.2
              (rows ++ [r.1])) := by
  have hc := binary_row_cols_cons E s buf nullmap_start col cols j idx nm row hnm
  refine ⟨?_, ?_, ?_, ?_⟩
  · intro hb
    rw [hc, hb, if_pos rfl]
  · intro hb
    rw [hc, hb]
    rfl
  · intro v i ht hv
    exact binary_field_not_nil E s buf idx col.field_type v i ht hv
  · intro defs fuel p h rows _ hdefs hsz hhdr hpkt hh hrow
    exact ⟨by omega, by omega,
      parse_prepared_exec_row E defs fuel s buf p h rows hdefs hsz hhdr hpkt hh hrow⟩

set_option maxRecDepth 100000 in
/-- Null bitmap of a binary row, for a row packet of one TINY column whose bitmap byte is
`04`: bit 2 is set. -/
theorem binary_row_null_bitmap_witness :
    byteAt ([2, 0, 0, 1, 0x00, 0x04] ++ eofPacket 2) (5 + (0 + 2) / 8) = some 4 ∧
    ((4 : Nat).testBit ((0 + 2) % 8) = true →
      binary_row_cols protocolEnv (sessionOn (streamDelivering []) 0 true)
          ([2, 0, 0, 1, 0x00, 0x04] ++ eofPacket 2) 5 (tinyColumn :: []) 0 6 []
        = binary_row_cols protocolEnv (sessionOn (streamDelivering []) 0 true)
            ([2, 0, 0, 1, 0x00, 0x04] ++ eofPacket 2) 5 [] (0 + 1) 6
            (Dictionary.set [] tinyColumn.name .nil)) :=
  ⟨by decide,
    (binary_row_null_bitmap protocolEnv (sessionOn (streamDelivering []) 0 true)
      ([2, 0, 0, 1, 0x00, 0x04] ++ eofPacket 2) 5 tinyColumn [] 0 6 4 [] (by decide)).1⟩

/-- The value of a LONGLONG column is the signed 64-bit integer that a `Variant` holds: the
eight bytes `FF` give -1, the bytes `2A 00 00 00 00 00 00 00` give 42. -/
theorem binary_field_longlong_signed :
    binary_field protocolEnv (sessionOn (streamDelivering []) 0 true)
        (List.replicate 8 0xFF) 0 8 = some (.int (-1), 8) ∧
    binary_field protocolEnv (sessionOn (streamDelivering []) 0 true)
        [0x2A, 0, 0, 0, 0, 0, 0, 0] 0 8 = some (.int 42, 8) := by
  constructor <;> decide

set_option maxRecDepth 100000 in
/-- C37. For the binary row packet `05 00 00 01 | 00 00 02 68 69` of one BLOB column with the
value `hi`, the bitmap byte (byte 5) is 0, so that bit 2, the bit of column 0, is clear; the
column loop of `_parse_prepared_exec` gives the row in which `a` is null, the cursor still
at byte 6, in front of the value bytes: the type has no case in the switch. The result of
`_parse_prepared_exec` is no row with `ERR_PACKET_LENGTH_MISMATCH`. For a TINY column with
the same bitmap byte the value 42 is decoded and the cursor is moved to byte 7. -/
theorem binary_row_blob_null_with_bit_clear :
    blobRowPackets.take 9 = [5, 0, 0, 1, 0x00, 0x00, 2, 0x68, 0x69] ∧
    (byteAt blobRowPackets (5 + (0 + 2) / 8)).map (fun nm => nm.testBit ((0 + 2) % 8))
      = some false ∧
    binary_row_cols protocolEnv (sessionOn (streamDelivering []) 16777216 true)
        blobRowPackets 5 [blobColumn] 0 6 []
      = some ([(ascii "a", .nil)], 6) ∧
    (fun r => (r.1, r.2.2.2._last_error)) <$> _parse_prepared_exec protocolEnv 10
        (sessionOn (streamDelivering []) 16777216 true) blobRowPackets 0 [blobColumn] true
      = .ok ([], .ERR_PACKET_LENGTH_MISMATCH) ∧
    binary_row_cols protocolEnv (sessionOn (streamDelivering []) 16777216 true)
        tinyRowPackets 5 [tinyColumn] 0 6 []
      = some ([(ascii "a", .int 42)], 7) := by
  refine ⟨?_, ?_, ?_, ?_, ?_⟩ <;> decide

/-! ## The handshake sets `_authenticated` on a status byte 0 only -/

theorem put_data_reads (st : Stream) (b : Bytes) : (st.put_data b).2.reads = st.reads := by
  unfold Stream.put_data
  split <;> rfl

theorem read_buffer_reads (s : Session) :
    (_read_buffer s).2._stream.reads = s._stream.reads.drop 1 := by
  unfold _read_buffer
  split
  · next h => simp [h]
  · next r rest h => simp [h]

theorem read_buffer_status (s : Session) (b : Nat) (h : byteAt (_read_buffer s).1 4 = some b) :
    ∃ r, s._stream.reads[0]? = some r ∧ byteAt r.data 4 = some b := by
  unfold _read_buffer at h
  split at h
  · simp [byteAt] at h
  · next r rest hr =>
    exact ⟨r, by simp [hr], h⟩

theorem ofOption_ok {α : Type} (o : Option α) (a : α) (h : Run.ofOption o = .ok a) :
    o = some a := by
  cases o with
  | none => cases h
  | some b =>
    cases h
    rfl

theorem status_after_put (s : Session) (pkt : Bytes) (e : ErrorCode) (a : Nat)
    (h : Run.ofOption
      (byteAt (_read_buffer { s with _last_error := e,
                                     _stream := (s._stream.put_data pkt).2 }).1 4) = .ok a)
    (ha : a = 0) :
    ∃ r, s._stream.reads[0]? = some r ∧ byteAt r.data 4 = some 0 := by
  subst ha
  obtain ⟨r, hr, hb⟩ := read_buffer_status _ 0 (ofOption_ok _ _ h)
  refine ⟨r, ?_, hb⟩
  have hp := put_data_reads s._stream pkt
  simp only at hr
  rw [← hp]
  exact hr

theorem client_protocol_v41_ed25519_auth (E : Env) (s s2 : Session) (resp : Bytes)
    (itr seq_num : Nat) (t : AuthType) (e : ErrorCode)
    (h : client_protocol_v41_ed25519 E s resp itr seq_num t = .ok (e, s2))
    (ha : s2._authenticated = true) :
    s._authenticated = true ∨
      ∃ r, s._stream.reads[0]? = some r ∧ byteAt r.data 4 = some 0 := by
  unfold client_protocol_v41_ed25519 at h
  simp only [bind, Run.bind, pure] at h
  repeat' split at h
  all_goals
    cases h <;> first
      | exact Or.inl ha
      | (exfalso; simp at ha; done)
      | (left; rw [(read_buffer_frame _).1] at ha; exact ha)
      | (right
         rename_i h4 h0
         exact status_after_put s _ _ _ h4 h0)

theorem client_protocol_v41_reply_auth (E : Env) (s s2 : Session) (resp : Bytes)
    (e : ErrorCode) (h : client_protocol_v41_reply E s resp = .ok (e, s2))
    (ha : s2._authenticated = true) :
    s._authenticated = true ∨ byteAt resp 4 = some 0 ∨
      ∃ r, s._stream.reads[0]? = some r ∧ byteAt r.data 4 = some 0 := by
  unfold client_protocol_v41_reply at h
  simp only [bind, Run.bind, pure] at h
  repeat' split at h
  all_goals first
    | (cases h <;> first
        | exact Or.inl ha
        | (exfalso; simp at ha; done)
        | (right; left
           rename_i h4 h0
           rw [ofOption_ok _ _ h4, h0]))
    | (rcases client_protocol_v41_ed25519_auth _ _ _ _ _ _ _ _ h ha with h1 | h1
       · exact Or.inl h1
       · exact Or.inr (Or.inr h1))

theorem client_protocol_v41_send_auth (E : Env) (s s2 : Session) (pkt : Bytes)
    (e : ErrorCode) (h : client_protocol_v41_send E s pkt = .ok (e, s2))
    (ha : s2._authenticated = true) :
    s._authenticated = true ∨
      (∃ r, s._stream.reads[0]? = some r ∧ byteAt r.data 4 = some 0) ∨
      ∃ r, s._stream.reads[1]? = some r ∧ byteAt r.data 4 = some 0 := by
  unfold client_protocol_v41_send at h
  simp only at h
  split at h
  · cases h
    exact Or.inl ha
  · have hp := put_data_reads s._stream pkt
    rcases client_protocol_v41_reply_auth _ _ _ _ _ h ha with h1 | h1 | ⟨r, h1, h2⟩
    · left
      rw [(read_buffer_frame _).1] at h1
      exact h1
    · right; left
      obtain ⟨r, hr, hb⟩ := read_buffer_status _ 0 h1
      refine ⟨r, ?_, hb⟩
      simp only at hr
      rw [← hp]
      exact hr
    · right; right
      refine ⟨r, ?_, h2⟩
      rw [read_buffer_reads] at h1
      simp only at h1
      rw [hp] at h1
      simpa using h1

theorem client_protocol_v41_head_frame (E : Env) (s : Session) :
    (client_protocol_v41_head E s).1._authenticated = s._authenticated ∧
    (client_protocol_v41_head E s).1._stream = s._stream := by
  unfold client_protocol_v41_head
  simp only
  split <;> exact ⟨rfl, rfl⟩

theorem client_protocol_v41_auth (E : Env) (s s2 : Session) (t : AuthType) (salt : Bytes)
    (e : ErrorCode) (h : _client_protocol_v41 E s t salt = .ok (e, s2))
    (ha : s2._authenticated = true) :
    s._authenticated = true ∨
      (∃ r, s._stream.reads[0]? = some r ∧ byteAt r.data 4 = some 0) ∨
      ∃ r, s._stream.reads[1]? = some r ∧ byteAt r.data 4 = some 0 := by
  obtain ⟨f1, f2⟩ := client_protocol_v41_head_frame E s
  unfold _client_protocol_v41 at h
  generalize client_protocol_v41_head E s = hd at h f1 f2
  obtain ⟨s1, buf⟩ := hd
  simp only at h f1 f2
  rw [← f1, ← f2]
  split at h
  · obtain ⟨a, -, hs⟩ := run_bind_eq_ok h
    exact client_protocol_v41_send_auth _ _ _ _ _ hs ha
  · obtain ⟨a, -, hs⟩ := run_bind_eq_ok h
    exact client_protocol_v41_send_auth _ _ _ _ _ hs ha

theorem handshake_v10_fields_frame (E : Env) (s s1 : Session) (buf : Bytes)
    (f : Option (Bytes × Bytes))
    (h : handshake_v10_fields E s buf = .ok (f, s1)) :
    s1._authenticated = s._authenticated ∧ s1._stream = s._stream := by
  unfold handshake_v10_fields at h
  simp only [bind, Run.bind, pure] at h
  repeat' split at h
  all_goals
    cases h <;> exact ⟨rfl, rfl⟩

theorem server_init_handshake_v10_auth (E : Env) (s s2 : Session) (buf : Bytes)
    (e : ErrorCode) (h : _server_init_handshake_v10 E s buf = .ok (e, s2))
    (ha : s2._authenticated = true) :
    s._authenticated = true ∨
      (∃ r, s._stream.reads[0]? = some r ∧ byteAt r.data 4 = some 0) ∨
      ∃ r, s._stream.reads[1]? = some r ∧ byteAt r.data 4 = some 0 := by
  unfold _server_init_handshake_v10 at h
  obtain ⟨⟨f, s1⟩, hf, hr⟩ := run_bind_eq_ok h
  obtain ⟨f1, f2⟩ := handshake_v10_fields_frame E s s1 buf f hf
  rw [← f1, ← f2]
  cases f with
  | none =>
    cases hr
    exact Or.inl ha
  | some x =>
    obtain ⟨salt, tmp⟩ := x
    exact client_protocol_v41_auth _ _ _ _ _ _ hr ha

theorem connect_greeting_auth (E : Env) (s s2 : Session) (g : Bytes) (e : ErrorCode)
    (h : connect_greeting E s g = .ok (e, s2)) (ha : s2._authenticated = true) :
    s._authenticated = true ∨
      (∃ r, s._stream.reads[0]? = some r ∧ byteAt r.data 4 = some 0) ∨
      ∃ r, s._stream.reads[1]? = some r ∧ byteAt r.data 4 = some 0 := by
  unfold connect_greeting at h
  simp only [bind, Run.bind, pure] at h
  repeat' split at h
  all_goals first
    | (cases h <;> exact Or.inl ha)
    | (rename_i hh
       obtain ⟨e1, s3⟩ := ‹ErrorCode × Session›
       cases h
       exact server_init_handshake_v10_auth _ _ _ _ _ hh ha)

theorem poll_reads (st : Stream) : st.poll.2.reads = st.reads := by
  unfold Stream.poll
  split <;> rfl

theorem disconnect_db_reads (s : Session) :
    (disconnect_db s)._stream.reads = s._stream.reads := by
  unfold disconnect_db is_connected_db
  simp only
  split
  · simp only [Stream.disconnect_from_host]
    rw [put_data_reads, poll_reads]
  · exact poll_reads _

theorem connect_begin_reads (s : Session) :
    (connect_begin s).2._stream.reads = s._stream.reads := by
  unfold connect_begin
  simp only
  rw [← disconnect_db_reads s]
  unfold Stream.connect_to_host
  split <;> rfl

theorem connect_poll_loop_reads (n : Nat) (s : Session) :
    (connect_poll_loop n s).2._stream.reads = s._stream.reads := by
  induction n generalizing s with
  | zero => rfl
  | succ n ih =>
    unfold connect_poll_loop
    simp only
    split
    · exact poll_reads _
    · split
      · exact poll_reads _
      · rw [ih]
        exact poll_reads _

theorem connect_auth (E : Env) (s s2 : Session) (e : ErrorCode)
    (h : _connect E s = .ok (e, s2)) (ha : s2._authenticated = true) :
    (∃ r, s._stream.reads[1]? = some r ∧ byteAt r.data 4 = some 0) ∨
      ∃ r, s._stream.reads[2]? = some r ∧ byteAt r.data 4 = some 0 := by
  have hb := (connect_begin_frame s).1
  have hbr := connect_begin_reads s
  have hp := (connect_poll_loop_frame 1000 (connect_begin s).2).1
  have hpr := connect_poll_loop_reads 1000 (connect_begin s).2
  unfold _connect at h
  generalize connect_begin s = cb at h hb hbr hp hpr
  obtain ⟨e0, s0⟩ := cb
  simp only at h hb hbr hp hpr
  split at h
  · cases h
    simp only [hb] at ha
    cases ha
  · generalize connect_poll_loop 1000 s0 = pl at h hp hpr
    obtain ⟨pe, s3⟩ := pl
    simp only at h hp hpr
    have h3 : s3._authenticated = false := hp.trans hb
    have h3r : s3._stream.reads = s._stream.reads := hpr.trans hbr
    cases pe with
    | some e1 =>
      simp only [pure] at h
      cases h
      rw [h3] at ha
      cases ha
    | none =>
      simp only [pure] at h
      split at h
      · cases h
        simp only [h3] at ha
        cases ha
      · have hr1 := (read_buffer_frame s3).1
        have hr2 := read_buffer_reads s3
        generalize _read_buffer s3 = rb at h hr1 hr2
        obtain ⟨g, s4⟩ := rb
        simp only at h hr1 hr2
        rcases connect_greeting_auth E s4 s2 g e h ha with h1 | ⟨r, h1, h2⟩ | ⟨r, h1, h2⟩
        · rw [hr1, h3] at h1
          cases h1
        · left
          refine ⟨r, ?_, h2⟩
          rw [hr2, h3r] at h1
          simpa using h1
        · right
          refine ⟨r, ?_, h2⟩
          rw [hr2, h3r] at h1
          simpa [Nat.add_comm] using h1

theorem connect_db_args_stream (E : Env) (s : Session) (p_host : List Char) (p_port : Int)
    (p_dbname p_username p_password : List Char) (p_authtype : AuthType)
    (p_is_prehashed : Bool) :
    (connect_db_args E s p_host p_port p_dbname p_username p_password p_authtype
      p_is_prehashed).2._stream = s._stream := by
  have hh : ∀ (t : Session), (_hash_password E t p_password)._stream = t._stream := by
    intro t
    unfold _hash_password
    repeat' split
    all_goals rfl
  unfold connect_db_args
  simp only
  repeat' split
  all_goals first
    | rfl
    | exact hh _

theorem connect_db_args_authenticated (E : Env) (s : Session) (p_host : List Char)
    (p_port : Int) (p_dbname p_username p_password : List Char) (p_authtype : AuthType)
    (p_is_prehashed : Bool) :
    (connect_db_args E s p_host p_port p_dbname p_username p_password p_authtype
      p_is_prehashed).2._authenticated = s._authenticated := by
  have hh : ∀ (t : Session),
      (_hash_password E t p_password)._authenticated = t._authenticated := by
    intro t
    unfold _hash_password
    repeat' split
    all_goals rfl
  unfold connect_db_args
  simp only
  repeat' split
  all_goals first
    | rfl
    | exact hh _

/-- C38, counterexample. On a session that is authenticated, `connect_db` with the port 0
returns `ERR_INVALID_PORT` before `_connect` is run: `_authenticated` is still true when it
returns, although the server sends no reply at all during the call and nothing is
written. -/
theorem connect_db_rejected_port_keeps_authenticated :
    (fun r => (r.1, r.2._authenticated, r.2._stream.written)) <$>
        connect_db protocolEnv (sessionOn (streamDelivering []) 0 true)
          "127.0.0.1".toList 0 "test".toList "root".toList "secret".toList
          .AUTH_TYPE_MYSQL_NATIVE false
      = .ok (.ERR_INVALID_PORT, true, []) ∧
    (sessionOn (streamDelivering []) 0 true)._stream.reads = [] := by
  constructor <;> decide

/-- C38, amended. When `_authenticated` is true after `connect_db` has returned, then either
`connect_db` has rejected its arguments, `_connect` has not been run and `_authenticated`
was true before the call; or `connect_db` has accepted its arguments and the second or the
third buffer that `_read_buffer` returned during the call, the reply to the handshake
response or the reply to the Ed25519 signature (the first is the greeting), has the status
byte 0 at byte 4. A reply that is empty or missing has no byte 4. -/
theorem connect_db_authenticated_status_zero (E : Env) (s : Session) (p_host : List Char)
    (p_port : Int) (p_dbname p_username p_password : List Char) (p_authtype : AuthType)
    (p_is_prehashed : Bool)
    (hauth : (fun r => r.2._authenticated) <$>
      connect_db E s p_host p_port p_dbname p_username p_password p_authtype p_is_prehashed
        = .ok true) :
    ((connect_db_args E s p_host p_port p_dbname p_username p_password p_authtype
        p_is_prehashed).1 ≠ none ∧
      connect_db E s p_host p_port p_dbname p_username p_password p_authtype p_is_prehashed
        = .ok ((connect_db_args E s p_host p_port p_dbname p_username p_password p_authtype
            p_is_prehashed).1.getD .OK,
          (connect_db_args E s p_host p_port p_dbname p_username p_password p_authtype
            p_is_prehashed).2) ∧
      s._authenticated = true) ∨
    ((connect_db_args E s p_host p_port p_dbname p_username p_password p_authtype
        p_is_prehashed).1 = none ∧
      ((∃ r, s._stream.reads[1]? = some r ∧ byteAt r.data 4 = some 0) ∨
        ∃ r, s._stream.reads[2]? = some r ∧ byteAt r.data 4 = some 0)) := by
  have hst := connect_db_args_stream E s p_host p_port p_dbname p_username p_password
    p_authtype p_is_prehashed
  have hau := connect_db_args_authenticated E s p_host p_port p_dbname p_username p_password
    p_authtype p_is_prehashed
  unfold connect_db at hauth ⊢
  generalize connect_db_args E s p_host p_port p_dbname p_username p_password p_authtype
    p_is_prehashed = a at hauth hst hau ⊢
  obtain ⟨e0, s1⟩ := a
  simp only at hst hau
  cases e0 with
  | some e =>
    left
    simp only at hauth
    have ha : s1._authenticated = true := Run.ok.inj hauth
    refine ⟨by simp, rfl, ?_⟩
    rw [← hau]
    exact ha
  | none =>
    right
    refine ⟨rfl, ?_⟩
    simp only at hauth
    rw [← hst]
    cases hc : _connect E s1 with
    | ok r =>
      obtain ⟨e, s2⟩ := r
      rw [hc] at hauth
      have ha : s2._authenticated = true := Run.ok.inj hauth
      exact connect_auth E s1 s2 e hc ha
    | out_of_bounds =>
      rw [hc] at hauth
      cases hauth
    | out_of_fuel =>
      rw [hc] at hauth
      cases hauth

set_option maxRecDepth 100000 in
/-- C38, amended, for a server that sends the greeting `greetingV10` and answers the
handshake response with an OK packet: the arguments are accepted and the second buffer has
the status byte 0. -/
theorem connect_db_authenticated_status_zero_witness :
    ((fun r => r.2._authenticated) <$>
        connect_db protocolEnv
          (sessionOn
            (streamConnecting [greetingV10, _add_packet_header [0, 0, 0, 2, 0, 0, 0] 2]) 0
            false)
          "127.0.0.1".toList 3306 "test".toList "root".toList "secret".toList
          .AUTH_TYPE_MYSQL_NATIVE false = .ok true) ∧
    (connect_db_args protocolEnv
        (sessionOn
          (streamConnecting [greetingV10, _add_packet_header [0, 0, 0, 2, 0, 0, 0] 2]) 0
          false)
        "127.0.0.1".toList 3306 "test".toList "root".toList "secret".toList
        .AUTH_TYPE_MYSQL_NATIVE false).1 = none ∧
    ((∃ r, (sessionOn
          (streamConnecting [greetingV10, _add_packet_header [0, 0, 0, 2, 0, 0, 0] 2]) 0
          false)._stream.reads[1]? = some r ∧ byteAt r.data 4 = some 0) ∨
      ∃ r, (sessionOn
          (streamConnecting [greetingV10, _add_packet_header [0, 0, 0, 2, 0, 0, 0] 2]) 0
          false)._stream.reads[2]? = some r ∧ byteAt r.data 4 = some 0) :=
  ⟨by decide, by decide,
    (connect_db_authenticated_status_zero protocolEnv
      (sessionOn (streamConnecting [greetingV10, _add_packet_header [0, 0, 0, 2, 0, 0, 0] 2])
        0 false)
      "127.0.0.1".toList 3306 "test".toList "root".toList "secret".toList
      .AUTH_TYPE_MYSQL_NATIVE false (by decide)).elim
      (fun h => absurd (by decide) h.1) (fun h => h.2)⟩

/-! ## The handshake response packet -/

theorem put_data_written (st : Stream) (b : Bytes) :
    (st.put_data b).2.written = st.written ++ [b] := by
  unfold Stream.put_data
  split <;> rfl

theorem uint8_or_toNat (a b : UInt8) : (a ||| b).toNat = a.toNat ||| b.toNat := by
  show (a.toBitVec ||| b.toBitVec).toNat = a.toBitVec.toNat ||| b.toBitVec.toNat
  exact BitVec.toNat_or _ _

theorem modify_append_left {α : Type} (f : α → α) (bm post : List α) (j : Nat)
    (hj : j < bm.length) : (bm ++ post).modify f j = bm.modify f j ++ post := by
  induction bm generalizing j with
  | nil => simp at hj
  | cons a l ih =>
    cases j with
    | zero => rfl
    | succ j =>
      simp only [List.cons_append, List.modify_succ_cons]
      rw [ih j (by simpa using hj)]

theorem modify_append_mid {α : Type} (f : α → α) (pre bm post : List α) (j : Nat)
    (hj : j < bm.length) :
    (pre ++ bm ++ post).modify f (pre.length + j) = pre ++ bm.modify f j ++ post := by
  induction pre with
  | nil => simpa using modify_append_left f bm post j hj
  | cons a l ih =>
    have : (a :: l).length + j = (l.length + j) + 1 := by simp; omega
    rw [this]
    simp only [List.cons_append, List.modify_succ_cons, ih]

theorem null_bits_length (ps : List (Nat × ParamValue)) (bm : Bytes) (i : Nat) :
    (null_bits bm i ps).length = bm.length := by
  induction ps generalizing bm i with
  | nil => rfl
  | cons kv rest ih =>
    unfold null_bits
    rw [ih]
    split
    · exact List.length_modify _ _ _
    · rfl

theorem byteAt_modify_bit (bm : Bytes) (i j b : Nat) (hj : j < bm.length) :
    ((byteAt (bm.modify (fun x => x ||| UInt8.ofNat (1 <<< (i &&& 7))) (i >>> 3)) j).getD
        0).testBit b
      = (((byteAt bm j).getD 0).testBit b || (decide (i / 8 = j) && decide (i % 8 = b))) := by
  have h1 : i >>> 3 = i / 8 := by rw [Nat.shiftRight_eq_div_pow]
  have h2 : i &&& 7 = i % 8 := by
    have := Nat.and_pow_two_sub_one_eq_mod i 3
    simpa using this
  have hlt : i % 8 < 8 := Nat.mod_lt _ (by omega)
  have hp : 2 ^ (i % 8) < 256 := by
    have : 2 ^ (i % 8) ≤ 2 ^ 7 := Nat.pow_le_pow_right (by omega) (by omega)
    omega
  unfold byteAt
  rw [List.getElem?_modify, h1, h2, List.getElem?_eq_getElem hj]
  simp only [Option.map_eq_map, Option.map_some', Option.getD_some]
  by_cases hij : i / 8 = j
  · simp only [hij, if_true, decide_True, Bool.true_and, uint8_or_toNat, toNat_ofNat_byte,
      Nat.one_shiftLeft, Nat.mod_eq_of_lt hp, Nat.testBit_or, Nat.testBit_two_pow]
  · simp only [hij, if_false, decide_False, Bool.false_and, Bool.or_false]

theorem null_bits_bit (ps : List (Nat × ParamValue)) (bm : Bytes) (i j b : Nat)
    (hj : j < bm.length) :
    ((byteAt (null_bits bm i ps) j).getD 0).testBit b = true ↔
      (((byteAt bm j).getD 0).testBit b = true ∨
        ∃ k kv, ps[k]? = some kv ∧ kv.2.is_nil = true ∧ (i + k) / 8 = j ∧ (i + k) % 8 = b) := by
  induction ps generalizing bm i with
  | nil => simp [null_bits]
  | cons kv rest ih =>
    unfold null_bits
    have hstep : ((byteAt (if kv.2.is_nil = true then
          bm.modify (fun x => x ||| UInt8.ofNat (1 <<< (i &&& 7))) (i >>> 3) else bm) j).getD
          0).testBit b = true ↔
        (((byteAt bm j).getD 0).testBit b = true ∨
          (kv.2.is_nil = true ∧ i / 8 = j ∧ i % 8 = b)) := by
      by_cases hn : kv.2.is_nil = true
      · rw [if_pos hn, byteAt_modify_bit bm i j b hj]
        simp [hn]
      · rw [if_neg hn]
        simp [hn]
    have hlen : j < (if kv.2.is_nil = true then
        bm.modify (fun x => x ||| UInt8.ofNat (1 <<< (i &&& 7))) (i >>> 3) else bm).length := by
      split
      · rw [List.length_modify]
        exact hj
      · exact hj
    rw [ih _ (i + 1) hlen, hstep]
    constructor
    · rintro ((h | ⟨h1, h2, h3⟩) | ⟨k, kv2, h1, h2, h3, h4⟩)
      · exact Or.inl h
      · exact Or.inr ⟨0, kv, by simp, h1, h2, h3⟩
      · refine Or.inr ⟨k + 1, kv2, by simpa using h1, h2, ?_, ?_⟩
        · rw [← h3]
          congr 1
          omega
        · rw [← h4]
          congr 1
          omega
    · rintro (h | ⟨k, kv2, h1, h2, h3, h4⟩)
      · exact Or.inl (Or.inl h)
      · cases k with
        | zero =>
          simp only [List.getElem?_cons_zero, Option.some.injEq] at h1
          subst h1
          exact Or.inl (Or.inr ⟨h2, h3, h4⟩)
        | succ k =>
          refine Or.inr ⟨k, kv2, by simpa using h1, h2, ?_, ?_⟩
          · rw [← h3]
            congr 1
            omega
          · rw [← h4]
            congr 1
            omega

theorem byteAt_replicate_zero (m j : Nat) :
    (byteAt (List.replicate m (0 : UInt8)) j).getD 0 = 0 := by
  unfold byteAt
  by_cases h : j < m
  · simp [List.getElem?_replicate, h]
  · simp [List.getElem?_replicate, h]

/-- In the bitmap that the first loop leaves, bit `i mod 8` of byte `i div 8` is set iff
the value of parameter `i` is NIL. -/
theorem null_bits_param (ps : List (Nat × ParamValue)) (i : Nat) (kv : Nat × ParamValue)
    (hi : ps[i]? = some kv) :
    ((byteAt (null_bits (List.replicate ((ps.length + 7) / 8) 0) 0 ps) (i / 8)).getD
      0).testBit (i % 8) = kv.2.is_nil := by
  have hlt : i < ps.length := by
    by_contra hc
    rw [List.getElem?_eq_none (by omega)] at hi
    cases hi
  have hj : i / 8 < (List.replicate ((ps.length + 7) / 8) (0 : UInt8)).length := by
    rw [List.length_replicate]
    omega
  have key := null_bits_bit ps (List.replicate ((ps.length + 7) / 8) 0) 0 (i / 8) (i % 8) hj
  rw [byteAt_replicate_zero] at key
  simp only [Nat.zero_testBit, Bool.false_eq_true, false_or, Nat.zero_add] at key
  cases hn : kv.2.is_nil
  · cases hb : ((byteAt (null_bits (List.replicate ((ps.length + 7) / 8) 0) 0 ps)
        (i / 8)).getD 0).testBit (i % 8)
    · rfl
    · obtain ⟨k, kv2, h1, h2, h3, h4⟩ := key.mp hb
      have hk : k = i := by omega
      subst hk
      rw [hi] at h1
      cases h1
      rw [hn] at h2
      cases h2
  · exact key.mpr ⟨i, kv, hi, hn, rfl, rfl⟩

theorem params_type_loop_eq (E : Env) (ps : List (Nat × ParamValue)) (pre bm post : Bytes)
    (i : Nat) (hty : ∀ kv ∈ ps, (param_type_bytes E (kv.1 % 2 ^ 16)).isSome = true)
    (hrange : ∀ k, k < ps.length → (i + k) / 8 < bm.length) :
    params_type_loop E pre.length (ps.map fun kv => .dict [kv]) i (pre ++ bm ++ post)
      = some (pre ++ null_bits bm i ps ++ post ++ execute_types E ps) := by
  induction ps generalizing bm post i with
  | nil => simp [params_type_loop, null_bits, execute_types]
  | cons kv rest ih =>
    obtain ⟨key, v⟩ := kv
    obtain ⟨t, ht⟩ := Option.isSome_iff_exists.mp (hty (key, v) (List.mem_cons_self _ _))
    have hi : i >>> 3 < bm.length := by
      have := hrange 0 (by simp)
      rw [Nat.shiftRight_eq_div_pow]
      simpa using this
    have hmod : (if v.is_nil = true then
          (pre ++ bm ++ post).modify (fun b => b ||| UInt8.ofNat (1 <<< (i &&& 7)))
            (pre.length + i >>> 3)
        else pre ++ bm ++ post)
        = pre ++ (if v.is_nil = true then
            bm.modify (fun b => b ||| UInt8.ofNat (1 <<< (i &&& 7))) (i >>> 3) else bm)
          ++ post := by
      split
      · exact modify_append_mid _ pre bm post _ hi
      · rfl
    have hlen : (if v.is_nil = true then
          bm.modify (fun b => b ||| UInt8.ofNat (1 <<< (i &&& 7))) (i >>> 3) else bm).length
        = bm.length := by
      split
      · exact List.length_modify _ _ _
      · rfl
    simp only [List.map_cons, params_type_loop, ht]
    rw [hmod]
    simp only [List.append_assoc]
    have hih := ih (if v.is_nil = true then
        bm.modify (fun b => b ||| UInt8.ofNat (1 <<< (i &&& 7))) (i >>> 3) else bm) (post ++ t)
      (i + 1) (fun kv hkv => hty kv (List.mem_cons_of_mem _ hkv))
      (fun k hk => by
        rw [hlen]
        have := hrange (k + 1) (by simpa using hk)
        have e : i + (k + 1) = i + 1 + k := by omega
        rw [e] at this
        exact this)
    simp only [List.append_assoc] at hih
    rw [hih]
    simp only [null_bits, execute_types, ht, Option.getD_some, List.append_assoc]

theorem params_value_loop_eq (E : Env) (ps : List (Nat × ParamValue)) (buf : Bytes)
    (hval : ∀ kv ∈ ps, kv.2.is_nil = true ∨
      (param_value_bytes (E.field_type_of (kv.1 % 2 ^ 8)) kv.2).isSome = true) :
    params_value_loop E (ps.map fun kv => .dict [kv]) buf
      = .ok (some (buf ++ execute_values E ps)) := by
  induction ps generalizing buf with
  | nil => simp [params_value_loop, execute_values, pure]
  | cons kv rest ih =>
    obtain ⟨key, v⟩ := kv
    have hrest := fun kv hkv => hval kv (List.mem_cons_of_mem _ hkv)
    simp only [List.map_cons, params_value_loop, execute_values]
    by_cases hn : v.is_nil = true
    · rw [if_pos hn, if_pos hn, ih buf hrest]
      simp
    · rw [if_neg hn, if_neg hn]
      rcases hval (key, v) (List.mem_cons_self _ _) with h | h
      · exact absurd h hn
      · obtain ⟨bytes, hb⟩ := Option.isSome_iff_exists.mp h
        simp only at hb
        rw [hb]
        simp only [Option.getD_some]
        rw [ih _ hrest, List.append_assoc]

theorem param_type_bytes_length (E : Env) (k : Nat) (t : Bytes)
    (h : param_type_bytes E k = some t) : t.length = 2 := by
  unfold param_type_bytes at h
  split at h <;> first
    | (cases h; rfl)
    | cases h

theorem execute_types_length (E : Env) (ps : List (Nat × ParamValue))
    (hty : ∀ kv ∈ ps, (param_type_bytes E (kv.1 % 2 ^ 16)).isSome = true) :
    (execute_types E ps).length = 2 * ps.length := by
  induction ps with
  | nil => rfl
  | cons kv rest ih =>
    obtain ⟨t, ht⟩ := Option.isSome_iff_exists.mp (hty kv (List.mem_cons_self _ _))
    simp only [execute_types, ht, Option.getD_some, List.length_append, List.length_cons,
      param_type_bytes_length E _ t ht, ih (fun kv hkv => hty kv (List.mem_cons_of_mem _ hkv))]
    omega

theorem execute_header_layout (p_stmt_id : Nat) :
    (execute_header p_stmt_id).length = 10 ∧
    (execute_header p_stmt_id).take 1 = [0x17] ∧
    leValue (((execute_header p_stmt_id).drop 1).take 4) = p_stmt_id % 2 ^ 32 ∧
    (execute_header p_stmt_id).drop 5 = [0x00, 0x01, 0x00, 0x00, 0x00] := by
  have hand : ∀ x : Nat, x &&& 0xFF = x % 256 := by
    intro x
    have := Nat.and_pow_two_sub_one_eq_mod x 8
    simpa using this
  refine ⟨rfl, rfl, ?_, rfl⟩
  simp only [execute_header, List.cons_append, List.nil_append, List.drop_succ_cons,
    List.drop_zero, List.take_succ_cons, List.take_zero, leValue, toNat_ofNat_byte, hand,
    Nat.shiftRight_eq_div_pow]
  omega

theorem send_execute_written (s : Session) (tx_buf : Bytes) :
    (send_execute s tx_buf).2._stream.written
      = s._stream.written ++ [_add_packet_header tx_buf 0] := by
  unfold send_execute
  exact put_data_written _ _

/-- Layout of the execute payload, the part of C36 about `n > 0` parameters: for `n > 0`
parameters (fewer than `2 ^ 31`), each a dictionary of one entry whose
kind has a case in the type switch and whose value is NIL or has a case in the value
switch, `_prepared_params_send` hands to `put_data` the packet with sequence byte 0 whose
payload is the 10-byte header (`0x17`, the statement id in 4 little-endian bytes, the flags
byte 0, the iteration count `01 00 00 00`), the null bitmap of `ceil(n / 8)` bytes in which
bit `i mod 8` of byte `i div 8` is set iff the value of parameter `i` is NIL, the byte
`0x01`, `2 n` type and sign bytes, and the value bytes, none for a NIL value. For `n = 0`
the payload is the 10-byte header, unless the statement has cached columns, when nothing is
sent. -/
theorem execute_payload_layout (E : Env) (s : Session) (p_stmt_id : Nat)
    (ps : List (Nat × ParamValue)) (hn : 0 < ps.length) (hlt : ps.length < 2 ^ 31)
    (hty : ∀ kv ∈ ps, (param_type_bytes E (kv.1 % 2 ^ 16)).isSome = true)
    (hval : ∀ kv ∈ ps, kv.2.is_nil = true ∨
      (param_value_bytes (E.field_type_of (kv.1 % 2 ^ 8)) kv.2).isSome = true) :
    _prepared_params_send E s p_stmt_id (ps.map fun kv => .dict [kv])
      = .ok (send_execute s
          (execute_header (p_stmt_id % 2 ^ 32) ++
            null_bits (List.replicate ((ps.length + 7) / 8) 0) 0 ps ++ [0x01] ++
            execute_types E ps ++ execute_values E ps)) ∧
    (∀ tx_buf, (send_execute s tx_buf).2._stream.written
      = s._stream.written ++ [_add_packet_header tx_buf 0]) ∧
    ((execute_header (p_stmt_id % 2 ^ 32)).length = 10 ∧
      (execute_header (p_stmt_id % 2 ^ 32)).take 1 = [0x17] ∧
      leValue (((execute_header (p_stmt_id % 2 ^ 32)).drop 1).take 4) = p_stmt_id % 2 ^ 32 ∧
      (execute_header (p_stmt_id % 2 ^ 32)).drop 5 = [0x00, 0x01, 0x00, 0x00, 0x00]) ∧
    (null_bits (List.replicate ((ps.length + 7) / 8) 0) 0 ps).length = (ps.length + 7) / 8 ∧
    (∀ i kv, ps[i]? = some kv →
      ((byteAt (null_bits (List.replicate ((ps.length + 7) / 8) 0) 0 ps) (i / 8)).getD
        0).testBit (i % 8) = kv.2.is_nil) ∧
    (execute_types E ps).length = 2 * ps.length ∧
    (∀ kv rest, kv.2.is_nil = true → execute_values E (kv :: rest) = execute_values E rest) ∧
    _prepared_params_send E s p_stmt_id []
      = (if params_rejected s (p_stmt_id % 2 ^ 32) 0 then .ok (.ERR_INVALID_PARAMETER, s)
          else .ok (send_execute s (execute_header (p_stmt_id % 2 ^ 32)))) := by
  refine ⟨?_, send_execute_written s, ?_, ?_, null_bits_param ps, execute_types_length E ps hty,
    ?_, ?_⟩
  · have hlen : (ps.map fun kv => ParamEntry.dict [kv]).length = ps.length := List.length_map _ _
    have hsz : (((ps.length : Int) + 7) / 8).toNat = (ps.length + 7) / 8 := by omega
    have hhead : (ps.map fun kv => ParamEntry.dict [kv]).head? ≠ some .not_dictionary := by
      cases ps with
      | nil => simp at hn
      | cons kv rest => simp
    have hrange : ∀ k, k < ps.length →
        (0 + k) / 8 < (List.replicate ((ps.length + 7) / 8) (0 : UInt8)).length := by
      intro k hk
      rw [List.length_replicate]
      omega
    have htl := params_type_loop_eq E ps (execute_header (p_stmt_id % 2 ^ 32))
      (List.replicate ((ps.length + 7) / 8) 0) [0x01] 0 hty hrange
    rw [prepared_params_send_nonempty E s p_stmt_id _ (by rw [hlen]; exact hlt)
      (by rw [hlen]; exact hn)]
    unfold params_block
    rw [if_neg hhead]
    simp only [hlen, hsz, htl, params_value_loop_eq E ps _ hval, bind, Run.bind, pure]
  · have h := execute_header_layout (p_stmt_id % 2 ^ 32)
    rw [Nat.mod_mod] at h
    exact h
  · rw [null_bits_length, List.length_replicate]
  · intro kv rest h
    simp only [execute_values, h, if_true, List.nil_append]
  · unfold _prepared_params_send
    simp only [List.length_nil, to_int32]
    norm_num
    rfl

set_option maxRecDepth 100000 in
/-- Layout of the execute payload for statement 1 and two parameters of the kind FT_INT (4),
the value 5 and a NIL value. -/
theorem execute_payload_layout_witness :
    (0 < [(4, intValue 5), (4, { intValue 0 with is_nil := true })].length ∧
      [(4, intValue 5), (4, { intValue 0 with is_nil := true })].length < 2 ^ 31 ∧
      (∀ kv ∈ [(4, intValue 5), (4, { intValue 0 with is_nil := true })],
        (param_type_bytes protocolEnv (kv.1 % 2 ^ 16)).isSome = true) ∧
      (∀ kv ∈ [(4, intValue 5), (4, { intValue 0 with is_nil := true })],
        kv.2.is_nil = true ∨
          (param_value_bytes (protocolEnv.field_type_of (kv.1 % 2 ^ 8)) kv.2).isSome = true)) ∧
    _prepared_params_send protocolEnv sessionExec 1
        ([(4, intValue 5), (4, { intValue 0 with is_nil := true })].map fun kv => .dict [kv])
      = .ok (send_execute sessionExec
          (execute_header (1 % 2 ^ 32) ++
            null_bits
              (List.replicate
                (([(4, intValue 5), (4, { intValue 0 with is_nil := true })].length + 7) / 8) 0)
              0 [(4, intValue 5), (4, { intValue 0 with is_nil := true })] ++ [0x01] ++
            execute_types protocolEnv
              [(4, intValue 5), (4, { intValue 0 with is_nil := true })] ++
            execute_values protocolEnv
              [(4, intValue 5), (4, { intValue 0 with is_nil := true })])) :=
  ⟨⟨by decide, by decide, by decide, by decide⟩,
    (execute_payload_layout protocolEnv sessionExec 1
      [(4, intValue 5), (4, { intValue 0 with is_nil := true })] (by decide) (by decide)
      (by decide) (by decide)).1⟩

set_option maxRecDepth 100000 in
/-- C36. For the statement 2 prepared from `SELECT 1` (no parameter, one column, whose
definition is cached) and the empty parameter list (`n = 0`), `_prepared_params_send`
returns `ERR_INVALID_PARAMETER` and hands nothing to `put_data`: the only packet written is
the one of the preparation, the 10-byte prefix is not sent, and `prepared_stmt_exec_select`
returns no row with `ERR_INVALID_PARAMETER` and leaves the response unread. For a statement
without cached column definitions the same call sends the packet whose payload is the
10-byte prefix `17 02 00 00 00 00 01 00 00 00`. -/
theorem execute_empty_params_not_sent :
    (fun r => (r.1, r.2._stream.written)) <$>
        (prepared_statement (sessionOn (streamDelivering [prepareOneResponse]) 16777216 true)
          "SELECT 1".toList >>= fun r => _prepared_params_send protocolEnv r.2 2 [])
      = .ok (.ERR_INVALID_PARAMETER, [_add_packet_header ([0x16] ++ ascii "SELECT 1") 0]) ∧
    (fun r => (r.1, r.2._last_error, r.2._stream.written)) <$>
        (prepared_statement
            (sessionOn (streamDelivering [prepareOneResponse, [1, 0, 0, 1, 1]]) 16777216 true)
          "SELECT 1".toList >>= fun r => prepared_stmt_exec_select protocolEnv 10 r.2 2 [])
      = .ok ([], .ERR_INVALID_PARAMETER, [_add_packet_header ([0x16] ++ ascii "SELECT 1") 0]) ∧
    (fun r => r.2._stream.reads.map fun o => o.data) <$>
        (prepared_statement
            (sessionOn (streamDelivering [prepareOneResponse, [1, 0, 0, 1, 1]]) 16777216 true)
          "SELECT 1".toList >>= fun r => prepared_stmt_exec_select protocolEnv 10 r.2 2 [])
      = .ok [[1, 0, 0, 1, 1]] ∧
    (fun r => (r.1, r.2._stream.written)) <$>
        _prepared_params_send protocolEnv (sessionOn (streamDelivering []) 16777216 true) 2 []
      = .ok (.OK, [[10, 0, 0, 0, 0x17, 2, 0, 0, 0, 0, 1, 0, 0, 0]]) := by
  refine ⟨?_, ?_, ?_, ?_⟩ <;> decide

end MariaDB
